import Mathlib

/-!
# FPSCore: the weapon's fire control and the character's locomotion

A shallow embedding of `Source/FPSCore/Private/WeaponCore/Weapon.cpp` (fire
control, reload and ammunition arithmetic of `AWeapon`), of the locomotion
state machine, the traversal probe and the per-frame update of
`Source/FPSCore/Private/CharacterCore/CharacterCore.cpp`, and of
`UInventoryComponent::Reload` of
`Source/FPSCore/Private/Components/InventoryComponent.cpp`.

Modelling conventions.

* C++ `int` quantities (`ClipSize`, `ClipCapacity`, `ShotsFired`, the counts held
  in `AmmoMap`, `ShotgunPellets`) are mathematical integers.  Signed overflow is
  undefined behaviour in C++, so the model describes every execution in which no
  intermediate result leaves the `int` range.
* `float` quantities (durations, damage, curve values) are rationals; nothing
  proved below depends on rounding.
* The player character and its `AFPSCharacterController` exist (the code
  dereferences both without a check in `Reload` and `UpdateAmmo`).  `StartRecoil`
  does test the controller, and takes its answer as an argument.
* Calls into the engine that only produce something observable outside the weapon
  (sounds, animations, damage, particle systems, controller input) are appended,
  in program order, to `World.Log`.  On-screen debug messages and debug lines are
  not recorded.
* `FTimerManager::SetTimer` / `ClearTimer` are recorded per timer handle as the
  pending request (`some _`) or its absence (`none`).
* A member function `AWeapon::F` is the definition `AWeapon.F`; it acts on a
  `World`, which holds the weapon and the collaborators it reaches through
  pointers.  `WeaponData` is passed separately, since no operation here writes it.
* A member function `ACharacterCore::F` is the definition `ACharacterCore.F`; it
  acts on the same `World`.  What it asks of the physics scene (is the character
  moving on ground, does the stand-up sweep hit) is passed as an `FSurroundings`
  value: the answers depend on the actor location and the static geometry only,
  and no input handler moves the actor between two such queries.
* `CheckVault`, `CheckGroundAngle` and `Tick` ask more of the engine: sweeps and
  line traces between points they compute, vector helpers, the velocity.  These
  answers are passed as an `FScene`, whose queries are functions of the points
  handed to them, so that a query made after the actor was moved is answered for
  the new points.  The capsule component is the root component of the character:
  its location and rotation are those of the actor.
* A loop is a recursive function on the number of iterations that are left; a
  function of the program that calls itself takes a bound on the depth of these
  calls and yields `none` when the bound does not suffice.
-/

namespace FPSCore

/-! ## Data model -/

/-- Locomotion states of the owning character, as used through
`Character->GetMovementState()`. -/
inductive EMovementState
  | State_Walk
  | State_Sprint
  | State_Crouch
  | State_Slide
  | State_Vault
  deriving DecidableEq, Repr

/-- Ammunition kinds.  The enumeration is declared in a header that is not part of
the sources at hand; a value is represented by its ordinal. -/
abbrev EAmmoType := Nat

/-- Identity of a physical material asset (the code compares these by pointer). -/
abbrev UPhysicalMaterial := Nat

/-- Animation asset reduced to what the weapon reads from it: its play length
(`GetPlayLength()`, and the value returned by `Montage_Play`). -/
structure UAnimationAsset where
  PlayLength : ℚ
  deriving DecidableEq, Repr

/-- Result of a successful line trace, reduced to the field the weapon branches
on.  `none` is a null `PhysMaterial`. -/
structure FHitResult where
  PhysMaterial : Option UPhysicalMaterial
  deriving DecidableEq, Repr

/-- The members of `WeaponData` (static weapon data, after attachments were
applied) that `StartFire`, `Fire`, `Recoil`, `Reload` and `UpdateAmmo` read.  None
of these operations writes to it.  `RateOfFire` (rounds per minute) is a `float`,
so that `60 / RateOfFire` is a quotient of reals. -/
structure FStaticWeaponData where
  bCanBeChambered : Bool
  bIsShotgun : Bool
  ShotgunPellets : Int
  bAutomaticFire : Bool
  bWaitForAnim : Bool
  bPreventRapidManualFire : Bool
  bHasAttachments : Bool
  bSilenced : Bool
  RateOfFire : ℚ
  Gun_Shot : Option UAnimationAsset
  EmptyPlayerReload : Option UAnimationAsset
  PlayerReload : Option UAnimationAsset
  BaseDamage : ℚ
  HeadshotMultiplier : ℚ
  HeadshotDamageSurface : Option UPhysicalMaterial
  NormalDamageSurface : Option UPhysicalMaterial
  GroundSurface : Option UPhysicalMaterial
  RockSurface : Option UPhysicalMaterial
  VerticalRecoilCurve : Option (ℚ → ℚ)
  HorizontalRecoilCurve : Option (ℚ → ℚ)

/-- The members of `GeneralWeaponData` (runtime weapon data) used by the weapon. -/
structure FRuntimeWeaponData where
  ClipSize : Int
  ClipCapacity : Int
  AmmoType : EAmmoType
  deriving DecidableEq, Repr

/-- Playback state of an `FTimeline`. -/
structure FTimeline where
  bPlaying : Bool
  Position : ℚ
  deriving DecidableEq, Repr

/-- `FTimeline::PlayFromStart`. -/
def FTimeline.PlayFromStart (_t : FTimeline) : FTimeline :=
  { bPlaying := true, Position := 0 }

/-- `FTimeline::Stop`: playback halts where it is. -/
def FTimeline.Stop (t : FTimeline) : FTimeline :=
  { t with bPlaying := false }

/-- Member functions that are bound to timers: those of `AWeapon`,
`ACharacterCore::ReleaseCrouch`, and `UInventoryComponent::Reload`. -/
inductive ETimerCallback
  | Fire
  | EnableFire
  | ReadyToFire
  | UpdateAmmo
  | ReleaseCrouch
  | InventoryReload
  deriving DecidableEq, Repr

/-- A pending `SetTimer` request. -/
structure FTimerData where
  Callback : ETimerCallback
  Rate : ℚ
  bLoop : Bool
  FirstDelay : ℚ
  deriving DecidableEq, Repr

/-- `GetWorldTimerManager().SetTimer(Handle, this, Callback, Rate, bLoop, FirstDelay)`:
the new content of the handle. -/
def SetTimer (Callback : ETimerCallback) (Rate : ℚ) (bLoop : Bool) (FirstDelay : ℚ) :
    Option FTimerData :=
  some { Callback := Callback, Rate := Rate, bLoop := bLoop, FirstDelay := FirstDelay }

/-- `GetWorldTimerManager().ClearTimer(Handle)`: the new content of the handle. -/
def ClearTimer : Option FTimerData := none

/-- Sounds played by the weapon. -/
inductive EWeaponSound
  | FireSound
  | SilencedSound
  | EmptyFireSound
  deriving DecidableEq, Repr

/-- Animations started by the weapon. -/
inductive EWeaponAnim
  | Gun_Shot
  | EmptyWeaponReload
  | WeaponReload
  | EmptyPlayerReload
  | PlayerReload
  deriving DecidableEq, Repr

/-- Hit effects selected by the struck physical material. -/
inductive EHitEffect
  | EnemyHitEffect
  | GroundHitEffect
  | RockHitEffect
  | DefaultHitEffect
  deriving DecidableEq, Repr

/-- Observable effects of the weapon and of the inventory component on their
collaborators. -/
inductive EWeaponEffect
  /-- `UGameplayStatics::PlaySoundAtLocation`. -/
  | PlaySound (Sound : EWeaponSound)
  /-- `PlayAnimation` on the magazine attachment (`true`) or on the weapon mesh. -/
  | PlayAnimation (bOnMagazineAttachment : Bool) (Anim : EWeaponAnim)
  /-- `Montage_Play` on the character's main animation mesh. -/
  | MontagePlay (Anim : EWeaponAnim)
  /-- `UGameplayStatics::ApplyPointDamage` with the final damage. -/
  | ApplyPointDamage (FinalDamage : ℚ)
  /-- `EventHitActor.Broadcast(Hit)` on the owner's inventory component. -/
  | BroadcastHit (Hit : FHitResult)
  /-- `AddPitchInput` on the character controller. -/
  | AddPitchInput (Val : ℚ)
  /-- `AddYawInput` on the character controller. -/
  | AddYawInput (Val : ℚ)
  /-- `ClientStartCameraShake`. -/
  | CameraShake
  /-- Bullet trace particle system. -/
  | SpawnBulletTrace
  /-- Impact particle system. -/
  | SpawnHitEffect (Effect : EHitEffect)
  /-- Muzzle flash particle system. -/
  | SpawnMuzzleFlash
  /-- Ejected casing particle system. -/
  | SpawnEjectedCasing
  /-- `EventFailedToReload.Broadcast()` on the inventory component. -/
  | BroadcastFailedToReload
  deriving DecidableEq, Repr

/-- An `FVector`. -/
structure FVector where
  X : ℚ
  Y : ℚ
  Z : ℚ
  deriving DecidableEq, Repr

/-- An `FRotator`. -/
structure FRotator where
  Pitch : ℚ
  Yaw : ℚ
  Roll : ℚ
  deriving DecidableEq, Repr

/-- An `FTransform`, reduced to rotation and location. -/
structure FTransform where
  Rotation : FRotator
  Location : FVector
  deriving DecidableEq, Repr

/-- `FVector::operator+`. -/
def FVector.add (A B : FVector) : FVector :=
  { X := A.X + B.X, Y := A.Y + B.Y, Z := A.Z + B.Z }

/-- `FVector::operator*` with a scalar. -/
def FVector.scale (A : FVector) (Scale : ℚ) : FVector :=
  { X := A.X * Scale, Y := A.Y * Scale, Z := A.Z * Scale }

/-- `FVector::DotProduct`. -/
def FVector.DotProduct (A B : FVector) : ℚ :=
  A.X * B.X + A.Y * B.Y + A.Z * B.Z

/-- `FMath::Lerp` on vectors: `A + Alpha * (B - A)`. -/
def FVector.Lerp (A B : FVector) (Alpha : ℚ) : FVector :=
  { X := A.X + Alpha * (B.X - A.X)
    Y := A.Y + Alpha * (B.Y - A.Y)
    Z := A.Z + Alpha * (B.Z - A.Z) }

/-- One entry of `MovementDataMap`: the members that `UpdateMovementState` reads
(the record type is declared in a header that is not part of the sources at
hand). -/
structure FMovementVariables where
  bCanFire : Bool
  bCanReload : Bool
  MaxAcceleration : ℚ
  BreakingDecelerationWalking : ℚ
  GroundFriction : ℚ
  MaxWalkSpeed : ℚ
  deriving DecidableEq, Repr

/-- The members of the character movement component that `UpdateMovementState`
writes. -/
structure UCharacterMovementComponent where
  MaxAcceleration : ℚ
  BrakingDecelerationWalking : ℚ
  GroundFriction : ℚ
  MaxWalkSpeed : ℚ
  deriving DecidableEq, Repr

/-- The policies of `UInventoryComponent::Reload` for a weapon that refuses to
reload (`EReloadFailedBehaviour`). -/
inductive EReloadFailedBehaviour
  | Retry
  | ChangeState
  | HandleInBP
  | Ignore
  deriving DecidableEq, Repr

/-- The inventory component: whether `CurrentWeapon` is non-null (the weapon is
then `World.Weapon`), and the timer handle `ReloadRetry`, which is unset until
`Reload` arms it. -/
structure UInventoryComponent where
  bHasCurrentWeapon : Bool
  ReloadRetry : Option FTimerData := none
  deriving DecidableEq, Repr

/-- The capsule component of the character, with the engine's accessors: the
stored half height and radius are unscaled, `ShapeScale` is the factor that
`GetShapeScale()` returns. -/
structure UCapsuleComponent where
  CapsuleHalfHeight : ℚ
  CapsuleRadius : ℚ
  ShapeScale : ℚ
  deriving DecidableEq, Repr

/-- `UCapsuleComponent::GetScaledCapsuleHalfHeight`. -/
def UCapsuleComponent.GetScaledCapsuleHalfHeight (c : UCapsuleComponent) : ℚ :=
  c.CapsuleHalfHeight * c.ShapeScale

/-- `UCapsuleComponent::GetScaledCapsuleHalfHeight_WithoutHemisphere`. -/
def UCapsuleComponent.GetScaledCapsuleHalfHeight_WithoutHemisphere (c : UCapsuleComponent) : ℚ :=
  (c.CapsuleHalfHeight - c.CapsuleRadius) * c.ShapeScale

/-- `UCapsuleComponent::GetUnscaledCapsuleRadius`. -/
def UCapsuleComponent.GetUnscaledCapsuleRadius (c : UCapsuleComponent) : ℚ :=
  c.CapsuleRadius

/-- `UCapsuleComponent::SetCapsuleHalfHeight`: the half height is kept at or above
the radius, and both at or above zero. -/
def UCapsuleComponent.SetCapsuleHalfHeight (HalfHeight : ℚ) (c : UCapsuleComponent) :
    UCapsuleComponent :=
  { c with
    CapsuleHalfHeight := max 0 (max HalfHeight c.CapsuleRadius)
    CapsuleRadius := max 0 c.CapsuleRadius }

/-- The members of `ACharacterCore` used by its locomotion state machine, by the
traversal probe and by the per-frame update.  `InventoryComponent = none` is a
null pointer.  The capsule component is the root of the actor: its location and
rotation are those of `ActorTransform`. -/
structure ACharacterCore where
  MovementState : EMovementState
  MovementDataMap : List (EMovementState × FMovementVariables)
  bCrouchIsToggle : Bool
  bCanSlide : Bool
  bCanVault : Bool
  bRestrictSprintAngle : Bool
  SlideTime : ℚ
  SlideContinueAngle : ℚ
  SprintAngleLimit : ℚ
  VaultTraceAmount : Int
  MaxMantleHeight : ℚ
  VaultSpaceHeight : ℚ
  DefaultCapsuleHalfHeight : ℚ
  CrouchedCapsuleHalfHeight : ℚ
  CrouchSpeed : ℚ
  FloorAngle : ℚ
  bHoldingCrouch : Bool
  bPerformedSlide : Bool
  bWantsToSlide : Bool
  bWantsToSprint : Bool
  bWantsToAim : Bool
  bIsAiming : Bool
  bRestrictingSprint : Bool
  bIsSprinting : Bool
  bIsCrouching : Bool
  bIsVaulting : Bool
  SlideStop : Option FTimerData
  VaultTimeline : FTimeline
  VaultStartLocation : FTransform
  VaultEndLocation : FTransform
  VaultTargetLocation : FTransform
  ActorTransform : FTransform
  CapsuleComponent : UCapsuleComponent
  CharacterMovement : UCharacterMovementComponent
  InventoryComponent : Option UInventoryComponent
  deriving DecidableEq, Repr

/-- What the physics scene answers to the queries of the locomotion operations:
`GetCharacterMovement()->IsMovingOnGround()`, and whether the capsule sweep of
`HasSpaceToStandUp` reports a hit. -/
structure FSurroundings where
  bIsMovingOnGround : Bool
  bStandUpSweepHit : Bool
  deriving DecidableEq, Repr

/-- The mutable members of `AWeapon`. -/
structure AWeapon where
  GeneralWeaponData : FRuntimeWeaponData
  bCanFire : Bool
  bCanReload : Bool
  bIsReloading : Bool
  bHasFiredRecently : Bool
  bIsWeaponReadyToFire : Bool
  bShouldRecover : Bool
  ControlRotation : FRotator
  ShotsFired : Int
  DamageModifier : ℚ
  VerticalRecoilModifier : ℚ
  HorizontalRecoilModifier : ℚ
  FinalDamage : ℚ
  AnimTime : ℚ
  VerticalRecoilTimeline : FTimeline
  HorizontalRecoilTimeline : FTimeline
  RecoilRecoveryTimeline : FTimeline
  ShotDelay : Option FTimerData
  SpamFirePreventionDelay : Option FTimerData
  AnimationWaitDelay : Option FTimerData
  ReloadingDelay : Option FTimerData
  deriving DecidableEq, Repr

/-- The weapon together with the parts of its surroundings that its operations
read or write: the controller's `AmmoMap`, the player character, whether
`GetOwner()` is a character with a valid inventory component, and the effects
emitted so far (oldest first). -/
structure World where
  Weapon : AWeapon
  AmmoMap : List (EAmmoType × Int)
  Character : ACharacterCore
  bOwnerHasInventory : Bool
  Log : List EWeaponEffect
  deriving DecidableEq, Repr

/-- `TMap::Find`: the value stored under a key, if any. -/
def TMapFind : List (EAmmoType × Int) → EAmmoType → Option Int
  | [], _ => none
  | (k, v) :: m, Key => if k = Key then some v else TMapFind m Key

/-- Assignment through `TMap::operator[]` to a key (used on present keys only). -/
def TMapSet : List (EAmmoType × Int) → EAmmoType → Int → List (EAmmoType × Int)
  | [], Key, Val => [(Key, Val)]
  | (k, v) :: m, Key, Val => if k = Key then (k, Val) :: m else (k, v) :: TMapSet m Key Val

/-- Append one effect to the log. -/
def World.emit (w : World) (e : EWeaponEffect) : World :=
  { w with Log := w.Log ++ [e] }

/-! ## Operations of `AWeapon` -/

/-- `AWeapon::EnableFire`. -/
def AWeapon.EnableFire (w : World) : World :=
  { w with Weapon := { w.Weapon with bCanFire := true } }

/-- `AWeapon::ReadyToFire`. -/
def AWeapon.ReadyToFire (w : World) : World :=
  { w with Weapon := { w.Weapon with bIsWeaponReadyToFire := true } }

/-- `AWeapon::RecoilRecovery`. -/
def AWeapon.RecoilRecovery (w : World) : World :=
  if w.Weapon.bShouldRecover then
    { w with Weapon := { w.Weapon with
        RecoilRecoveryTimeline := w.Weapon.RecoilRecoveryTimeline.PlayFromStart } }
  else w

/-- The two controller inputs of `AWeapon::Recoil`, sampled at the given curve
positions. -/
def AWeapon.RecoilInputs (V H : ℚ → ℚ) (PosV PosH : ℚ) (w : World) : World :=
  (w.emit (.AddPitchInput (V PosV * w.Weapon.VerticalRecoilModifier))).emit
    (.AddYawInput (H PosH * w.Weapon.HorizontalRecoilModifier))

/-- `AWeapon::Recoil`. -/
def AWeapon.Recoil (wd : FStaticWeaponData) (w : World) : World :=
  let w1 :=
    match wd.VerticalRecoilCurve, wd.HorizontalRecoilCurve with
    | some V, some H =>
      if wd.bAutomaticFire && decide (w.Weapon.ShotsFired > 0) then
        AWeapon.RecoilInputs V H w.Weapon.VerticalRecoilTimeline.Position
          w.Weapon.HorizontalRecoilTimeline.Position w
      else if decide (w.Weapon.ShotsFired ≤ 0) then
        AWeapon.RecoilInputs V H 0 0 w
      else w
    | _, _ => w
  let w2 := { w1 with Weapon := { w1.Weapon with ShotsFired := w1.Weapon.ShotsFired + 1 } }
  w2.emit .CameraShake

/-- The hit effect chosen from `Hit.PhysMaterial`. -/
def SelectHitEffect (wd : FStaticWeaponData) (Mat : Option UPhysicalMaterial) : EHitEffect :=
  if Mat = wd.NormalDamageSurface ∨ Mat = wd.HeadshotDamageSurface then .EnemyHitEffect
  else if Mat = wd.GroundSurface then .GroundHitEffect
  else if Mat = wd.RockSurface then .RockHitEffect
  else .DefaultHitEffect

/-- One iteration of the projectile loop of `AWeapon::Fire`.  `Hit` is the outcome
of this projectile's line trace (`none`: nothing was hit). -/
def AWeapon.FireShot (wd : FStaticWeaponData) (Hit : Option FHitResult) (w : World) : World :=
  -- Applying Recoil to the weapon
  let w1 := AWeapon.Recoil wd w
  -- Playing an animation on the weapon mesh
  let w2 :=
    match wd.Gun_Shot with
    | some Anim =>
      let wa := w1.emit (.PlayAnimation false .Gun_Shot)
      if wd.bWaitForAnim then
        { wa with Weapon := { wa.Weapon with
            bCanFire := false
            AnimationWaitDelay := SetTimer .EnableFire Anim.PlayLength false Anim.PlayLength } }
      else wa
    | none => w1
  -- The line trace
  let w3 :=
    match Hit with
    | some h =>
      let FinalDamage :=
        if h.PhysMaterial = wd.HeadshotDamageSurface then
          (wd.BaseDamage + w2.Weapon.DamageModifier) * wd.HeadshotMultiplier
        else wd.BaseDamage + w2.Weapon.DamageModifier
      let wb := { w2 with Weapon := { w2.Weapon with FinalDamage := FinalDamage } }
      let wc := wb.emit (.ApplyPointDamage FinalDamage)
      if wc.bOwnerHasInventory then wc.emit (.BroadcastHit h) else wc
    | none => w2
  -- Bullet trace and impact effect
  let Mat : Option UPhysicalMaterial :=
    match Hit with
    | some h => h.PhysMaterial
    | none => none
  (w3.emit .SpawnBulletTrace).emit (.SpawnHitEffect (SelectHitEffect wd Mat))

/-- The projectile loop `for (int i = 0; i < NumberOfShots; i++)` of
`AWeapon::Fire`, entered at index `i` with `n` iterations left. -/
def AWeapon.FireShots (wd : FStaticWeaponData) (LineTrace : Nat → Option FHitResult) :
    Nat → Nat → World → World
  | _, 0, w => w
  | i, n + 1, w =>
    AWeapon.FireShots wd LineTrace (i + 1) n (AWeapon.FireShot wd (LineTrace i) w)

/-- `AWeapon::Fire`.  `LineTrace i` is the outcome of the line trace of projectile
`i` (it depends on the world geometry and on the random spread). -/
def AWeapon.Fire (wd : FStaticWeaponData) (LineTrace : Nat → Option FHitResult) (w : World) :
    World :=
  if w.Weapon.bCanFire && w.Weapon.bIsWeaponReadyToFire
      && decide (w.Weapon.GeneralWeaponData.ClipSize > 0) && !w.Weapon.bIsReloading then
    -- Subtracting from the ammunition count of the weapon
    let w1 := { w with Weapon := { w.Weapon with GeneralWeaponData :=
      { w.Weapon.GeneralWeaponData with ClipSize := w.Weapon.GeneralWeaponData.ClipSize - 1 } } }
    let NumberOfShots : Int := if wd.bIsShotgun then wd.ShotgunPellets else 1
    let w2 := AWeapon.FireShots wd LineTrace 0 NumberOfShots.toNat w1
    let w3 := w2.emit .SpawnMuzzleFlash
    let w4 := w3.emit (.PlaySound (if wd.bSilenced then .SilencedSound else .FireSound))
    let w5 := w4.emit .SpawnEjectedCasing
    let w6 :=
      if !wd.bAutomaticFire then
        AWeapon.RecoilRecovery { w5 with Weapon := { w5.Weapon with
          VerticalRecoilTimeline := w5.Weapon.VerticalRecoilTimeline.Stop
          HorizontalRecoilTimeline := w5.Weapon.HorizontalRecoilTimeline.Stop } }
      else w5
    { w6 with Weapon := { w6.Weapon with bHasFiredRecently := true } }
  else if w.Weapon.bCanFire && !w.Weapon.bIsReloading then
    let w1 := w.emit (.PlaySound .EmptyFireSound)
    -- Clearing the ShotDelay timer
    let w2 := { w1 with Weapon := { w1.Weapon with ShotDelay := ClearTimer } }
    AWeapon.RecoilRecovery w2
  else w

/-- `AWeapon::Reload`: the returned flag and the resulting state. -/
def AWeapon.Reload (wd : FStaticWeaponData) (w : World) : Bool × World :=
  if !w.Weapon.bCanReload then (false, w)
  else
    let Value : Int := if wd.bCanBeChambered then 1 else 0
    match TMapFind w.AmmoMap w.Weapon.GeneralWeaponData.AmmoType with
    | none => (true, w)
    | some Ammo =>
      if !w.Weapon.bIsReloading && decide (Ammo > 0)
          && decide (w.Weapon.GeneralWeaponData.ClipSize
              ≠ w.Weapon.GeneralWeaponData.ClipCapacity + Value) then
        let w1 : World :=
          match decide (w.Weapon.GeneralWeaponData.ClipSize ≤ 0), wd.EmptyPlayerReload,
              wd.PlayerReload with
          | true, some Montage, _ =>
            let wa := w.emit (.PlayAnimation wd.bHasAttachments .EmptyWeaponReload)
            let wb := wa.emit (.MontagePlay .EmptyPlayerReload)
            { wb with Weapon := { wb.Weapon with AnimTime := Montage.PlayLength } }
          | _, _, some Montage =>
            let wa := w.emit (.PlayAnimation wd.bHasAttachments .WeaponReload)
            let wb := wa.emit (.MontagePlay .PlayerReload)
            { wb with Weapon := { wb.Weapon with AnimTime := Montage.PlayLength } }
          | _, _, none =>
            { w with Weapon := { w.Weapon with AnimTime := 2 } }
        (true, { w1 with Weapon := { w1.Weapon with
          bCanFire := false
          bIsReloading := true
          ReloadingDelay := SetTimer .UpdateAmmo w1.Weapon.AnimTime false w1.Weapon.AnimTime } })
      else (true, w)

/-- `AWeapon::UpdateAmmo` (reload-complete).  The result is `none` when
`AmmoMap` has no entry for the weapon's ammo type: `TMap::operator[]` then fails
its check and the program stops. -/
def AWeapon.UpdateAmmo (wd : FStaticWeaponData) (w : World) : Option World :=
  let G := w.Weapon.GeneralWeaponData
  -- value system to reload the correct amount of bullets
  let Value : Int := if decide (G.ClipSize > 0) && wd.bCanBeChambered then 1 else 0
  let Temp : Int := G.ClipCapacity - G.ClipSize
  match TMapFind w.AmmoMap G.AmmoType with
  | none => none
  | some Ammo =>
    let w1 : World :=
      if Ammo ≥ Temp + Value then
        { w with
          Weapon := { w.Weapon with GeneralWeaponData :=
            { G with ClipSize := G.ClipCapacity + Value } }
          AmmoMap := TMapSet w.AmmoMap G.AmmoType (Ammo - (Temp + Value)) }
      else
        { w with
          Weapon := { w.Weapon with GeneralWeaponData := { G with ClipSize := G.ClipSize + Ammo } }
          AmmoMap := TMapSet w.AmmoMap G.AmmoType 0 }
    -- Resetting bIsReloading
    let w2 := { w1 with Weapon := { w1.Weapon with bIsReloading := false } }
    -- Making sure the player cannot fire if sprinting
    let w3 :=
      if w2.Character.MovementState ≠ .State_Sprint
          ∧ w2.Character.MovementState ≠ .State_Slide then
        AWeapon.EnableFire w2
      else w2
    some { w3 with Weapon := { w3.Weapon with bIsWeaponReadyToFire := true } }

/-- `AWeapon::StopFire`.  `ShotDelayRemaining` is the value that
`GetWorldTimerManager().GetTimerRemaining(ShotDelay)` returns during the call (it
depends on the frame clock). -/
def AWeapon.StopFire (wd : FStaticWeaponData) (ShotDelayRemaining : ℚ) (w : World) : World :=
  -- Stops the gun firing (for automatic fire)
  let w1 := { w with Weapon := { w.Weapon with
    VerticalRecoilTimeline := w.Weapon.VerticalRecoilTimeline.Stop
    HorizontalRecoilTimeline := w.Weapon.HorizontalRecoilTimeline.Stop } }
  let w2 := AWeapon.RecoilRecovery w1
  let w3 := { w2 with Weapon := { w2.Weapon with ShotsFired := 0 } }
  let w4 :=
    if wd.bPreventRapidManualFire && w3.Weapon.bHasFiredRecently then
      let wa := { w3 with Weapon := { w3.Weapon with
        bHasFiredRecently := false
        bIsWeaponReadyToFire := false
        SpamFirePreventionDelay := ClearTimer } }
      { wa with Weapon := { wa.Weapon with
          SpamFirePreventionDelay :=
            SetTimer .ReadyToFire ShotDelayRemaining false ShotDelayRemaining } }
    else w3
  { w4 with Weapon := { w4.Weapon with ShotDelay := ClearTimer } }

/-- `AWeapon::StartRecoil`.  `ControlRotation` is what `GetControlRotation()` of
the player character's `AFPSCharacterController` returns; `none` stands for a
null `CharacterController`. -/
def AWeapon.StartRecoil (ControlRotation : Option FRotator) (w : World) : World :=
  if w.Weapon.bCanFire && decide (w.Weapon.GeneralWeaponData.ClipSize > 0)
      && !w.Weapon.bIsReloading then
    match ControlRotation with
    | some Rotation =>
      -- Plays the recoil timelines and saves the current control rotation
      { w with Weapon := { w.Weapon with
          VerticalRecoilTimeline := w.Weapon.VerticalRecoilTimeline.PlayFromStart
          HorizontalRecoilTimeline := w.Weapon.HorizontalRecoilTimeline.PlayFromStart
          ControlRotation := Rotation
          bShouldRecover := true } }
    | none => w
  else w

/-- `AWeapon::StartFire`.  `ControlRotation` is passed on to `StartRecoil`. -/
def AWeapon.StartFire (wd : FStaticWeaponData) (ControlRotation : Option FRotator) (w : World) :
    World :=
  if w.Weapon.bCanFire then
    -- sets a timer for firing the weapon
    let w1 := { w with Weapon := { w.Weapon with
      ShotDelay := SetTimer .Fire (60 / wd.RateOfFire) wd.bAutomaticFire 0 } }
    -- Simultaneously begins to play the recoil timeline
    AWeapon.StartRecoil ControlRotation w1
  else w

/-! ## Operations of `ACharacterCore` -/

/-- `TMap::Find` on `MovementDataMap`. -/
def MovementDataMapFind :
    List (EMovementState × FMovementVariables) → EMovementState → Option FMovementVariables
  | [], _ => none
  | (k, v) :: m, Key => if k = Key then some v else MovementDataMapFind m Key

/-- `ACharacterCore::HasSpaceToStandUp`: false when the capsule sweep hits. -/
def ACharacterCore.HasSpaceToStandUp (env : FSurroundings) : Bool :=
  if env.bStandUpSweepHit then false else true

/-- `ACharacterCore::UpdateMovementState`. -/
def ACharacterCore.UpdateMovementState (NewMovementState : EMovementState) (w : World) : World :=
  -- Clearing sprinting and crouching flags, updating the movement state
  let c0 : ACharacterCore := { w.Character with
    bIsSprinting := false
    bIsCrouching := false
    MovementState := NewMovementState }
  let w1 : World :=
    match MovementDataMapFind c0.MovementDataMap NewMovementState with
    | some Data =>
      let Weapon : AWeapon :=
        match c0.InventoryComponent with
        | some Inventory =>
          if Inventory.bHasCurrentWeapon then
            { w.Weapon with bCanFire := Data.bCanFire, bCanReload := Data.bCanReload }
          else w.Weapon
        | none => w.Weapon
      { w with
        Weapon := Weapon
        Character := { c0 with CharacterMovement :=
          { MaxAcceleration := Data.MaxAcceleration
            BrakingDecelerationWalking := Data.BreakingDecelerationWalking
            GroundFriction := Data.GroundFriction
            MaxWalkSpeed := Data.MaxWalkSpeed } } }
    | none => { w with Character := c0 }
  -- Updating sprinting and crouching flags
  let c1 : ACharacterCore :=
    if NewMovementState = .State_Crouch then { w1.Character with bIsCrouching := true }
    else w1.Character
  let c2 : ACharacterCore :=
    if NewMovementState = .State_Sprint then { c1 with bIsSprinting := true } else c1
  { w1 with Character := c2 }

/-- `ACharacterCore::StopCrouch`. -/
def ACharacterCore.StopCrouch (bToSprint : Bool) (env : FSurroundings) (w : World) : World :=
  if (w.Character.MovementState = .State_Crouch ∨ w.Character.MovementState = .State_Slide)
      ∧ ACharacterCore.HasSpaceToStandUp env = true then
    if bToSprint then ACharacterCore.UpdateMovementState .State_Sprint w
    else ACharacterCore.UpdateMovementState .State_Walk w
  else w

/-- `ACharacterCore::StartSprint` (sprint pressed). -/
def ACharacterCore.StartSprint (env : FSurroundings) (w : World) : World :=
  if ACharacterCore.HasSpaceToStandUp env = false
      ∧ (w.Character.MovementState = .State_Crouch ∨ w.Character.MovementState = .State_Slide) then
    w
  else
    let w1 := { w with Character := { w.Character with bPerformedSlide := false } }
    let w2 := ACharacterCore.UpdateMovementState .State_Sprint w1
    { w2 with Character := { w2.Character with bWantsToSprint := true } }

/-- `ACharacterCore::StopSprint` (sprint released). -/
def ACharacterCore.StopSprint (w : World) : World :=
  let w1 :=
    if w.Character.MovementState = .State_Slide ∧ w.Character.bHoldingCrouch = true then
      ACharacterCore.UpdateMovementState .State_Crouch w
    else if w.Character.MovementState = .State_Sprint then
      ACharacterCore.UpdateMovementState .State_Walk w
    else w
  { w1 with Character := { w1.Character with bWantsToSprint := false } }

/-- `ACharacterCore::StartSlide`. -/
def ACharacterCore.StartSlide (w : World) : World :=
  let w1 := { w with Character := { w.Character with bPerformedSlide := true } }
  let w2 := ACharacterCore.UpdateMovementState .State_Slide w1
  { w2 with Character := { w2.Character with
      SlideStop := SetTimer .ReleaseCrouch w2.Character.SlideTime false w2.Character.SlideTime } }

/-- `ACharacterCore::StopSlide`. -/
def ACharacterCore.StopSlide (env : FSurroundings) (w : World) : World :=
  if w.Character.MovementState = .State_Slide
      ∧ w.Character.FloorAngle > w.Character.SlideContinueAngle then
    let w1 :=
      if ACharacterCore.HasSpaceToStandUp env = false then
        ACharacterCore.UpdateMovementState .State_Crouch w
      else if w.Character.bWantsToSprint then
        ACharacterCore.StopCrouch true env w
      else if w.Character.bHoldingCrouch then
        ACharacterCore.UpdateMovementState .State_Crouch w
      else
        ACharacterCore.UpdateMovementState .State_Walk w
    { w1 with Character := { w1.Character with bPerformedSlide := false, SlideStop := ClearTimer } }
  else if w.Character.FloorAngle < -w.Character.SlideContinueAngle then
    { w with Character := { w.Character with
        SlideStop := SetTimer .ReleaseCrouch (1 / 10) false (1 / 10) } }
  else w

/-- `ACharacterCore::ToggleCrouch` (crouch pressed). -/
def ACharacterCore.ToggleCrouch (env : FSurroundings) (w : World) : World :=
  let w1 := { w with Character := { w.Character with bHoldingCrouch := true } }
  if env.bIsMovingOnGround then
    if w1.Character.MovementState = .State_Crouch then
      ACharacterCore.StopCrouch false env w1
    else if w1.Character.MovementState = .State_Sprint ∧ w1.Character.bPerformedSlide = false
        ∧ w1.Character.bCanSlide = true then
      ACharacterCore.StartSlide w1
    else
      let w2 := ACharacterCore.UpdateMovementState .State_Crouch w1
      if w2.Character.bWantsToSprint then
        { w2 with Character := { w2.Character with bWantsToSprint := false } }
      else w2
  else if w1.Character.bPerformedSlide = false then
    -- If we are in the air and have not performed a slide yet
    { w1 with Character := { w1.Character with bWantsToSlide := true } }
  else w1

/-- `ACharacterCore::ReleaseCrouch` (crouch released; also the callback of the
`SlideStop` timer). -/
def ACharacterCore.ReleaseCrouch (env : FSurroundings) (w : World) : World :=
  let w1 := { w with Character := { w.Character with
    bHoldingCrouch := false
    bPerformedSlide := false } }
  if w1.Character.MovementState = .State_Slide then
    ACharacterCore.StopSlide env w1
  else if w1.Character.bCrouchIsToggle = false then
    if w1.Character.MovementState = .State_Sprint then w1
    else ACharacterCore.UpdateMovementState .State_Walk w1
  else w1

/-- `ACharacterCore::Vault`. -/
def ACharacterCore.Vault (TargetTransform : FTransform) (w : World) : World :=
  -- Updating our target location and playing the vault timeline from start
  let w1 := { w with Character := { w.Character with
    VaultStartLocation := w.Character.ActorTransform
    VaultEndLocation := TargetTransform } }
  let w2 := ACharacterCore.UpdateMovementState .State_Vault w1
  { w2 with Character := { w2.Character with
      VaultTimeline := w2.Character.VaultTimeline.PlayFromStart } }

/-- The acceptance of a traversal target, as both exits of
`ACharacterCore::CheckVault` perform it: `VaultTargetLocation` is stored,
`bIsVaulting` is set and `Vault` is called with the target. -/
def ACharacterCore.AcceptVault (Target : FTransform) (w : World) : World :=
  let w1 := { w with Character := { w.Character with
    VaultTargetLocation := Target
    bIsVaulting := true } }
  ACharacterCore.Vault w1.Character.VaultTargetLocation w1

/-- `ACharacterCore::TimelineProgress`. -/
def ACharacterCore.TimelineProgress (Value : ℚ) (w : World) : World :=
  let NewLocation := FVector.Lerp w.Character.VaultStartLocation.Location
    w.Character.VaultEndLocation.Location Value
  let w1 := { w with Character := { w.Character with
    ActorTransform := { w.Character.ActorTransform with Location := NewLocation } } }
  if Value = 1 then
    let w2 := { w1 with Character := { w1.Character with bIsVaulting := false } }
    if w2.Character.bWantsToSprint then ACharacterCore.UpdateMovementState .State_Sprint w2
    else w2
  else w1

/-- The discrete input events of the locomotion state machine. -/
inductive EInputEvent
  | CrouchPressed
  | CrouchReleased
  | SprintPressed
  | SprintReleased
  deriving DecidableEq, Repr

/-- The handler bound to an input event. -/
def ACharacterCore.HandleInput (env : FSurroundings) : EInputEvent → World → World
  | .CrouchPressed, w => ACharacterCore.ToggleCrouch env w
  | .CrouchReleased, w => ACharacterCore.ReleaseCrouch env w
  | .SprintPressed, w => ACharacterCore.StartSprint env w
  | .SprintReleased, w => ACharacterCore.StopSprint w

/-! ## Operations of `UInventoryComponent` -/

/-- `UInventoryComponent::Reload`, called on the inventory component of the
character (a null `InventoryComponent` means that there is no component to call
it on, and the world is returned as it is).  The weapon is an `AWeapon`, which
implements `UWeaponInterface`; the owner of the component is the character.
`ReloadFailedBehaviour` is the member of that name, which no operation writes.

In the `ChangeState` case the function calls itself.  The first argument bounds
the depth of these calls: the result is `none` when the bound is reached before
the innermost call has returned. -/
def UInventoryComponent.Reload (wd : FStaticWeaponData)
    (ReloadFailedBehaviour : EReloadFailedBehaviour) : Nat → World → Option World
  | 0, _ => none
  | Depth + 1, w =>
    match w.Character.InventoryComponent with
    | none => some w
    | some Inventory =>
      if Inventory.bHasCurrentWeapon then
        match AWeapon.Reload wd w with
        | (true, w1) => some w1
        | (false, w1) =>
          match ReloadFailedBehaviour with
          | .Retry =>
            some { w1 with Character := { w1.Character with
              InventoryComponent := some { Inventory with
                ReloadRetry := SetTimer .InventoryReload (1 / 10) false (1 / 10) } } }
          | .ChangeState =>
            let w2 := ACharacterCore.UpdateMovementState .State_Walk w1
            UInventoryComponent.Reload wd ReloadFailedBehaviour Depth w2
          | .HandleInBP => some (w1.emit .BroadcastFailedToReload)
          | .Ignore => some w1
      else some w

/-! ## The traversal probe and the per-frame update of `ACharacterCore` -/

/-- An `FHitResult` as the traversal probe and the floor probe read it. -/
structure FTraceHit where
  bBlockingHit : Bool
  Location : FVector
  ImpactPoint : FVector
  ImpactNormal : FVector
  deriving DecidableEq, Repr

/-- What the engine answers to the per-frame code of the character during one
frame: the velocity and the falling flag of the movement component, the vector
helpers of the math library, the constant `PI`, and the queries against the
static world geometry (all on channel `ECC_WorldStatic`, ignoring the character).
A sweep or trace that returns `false` is `none`.  `SweepCapsule` is the sweep with
`MakeCapsule(30, 50)`, `SweepSphere Radius` the one with `MakeSphere(Radius)`. -/
structure FScene where
  Velocity : FVector
  bIsFalling : Bool
  PI : ℚ
  GetForwardVector : FRotator → FVector
  MakeRotFromX : FVector → FRotator
  MakeRotFromZX : FVector → FVector → FRotator
  UnrotateVector : FRotator → FVector → FVector
  HeadingAngle : FVector → ℚ
  SweepCapsule : FVector → FVector → Option FTraceHit
  SweepSphere : ℚ → FVector → FVector → Option FTraceHit
  LineTrace : FVector → FVector → Option FTraceHit
  IsWalkable : FTraceHit → Bool

/-- `FMath::Abs`. -/
def FMath.Abs (A : ℚ) : ℚ :=
  if A ≥ 0 then A else -A

/-- `FMath::IsNearlyEqual` with an explicit tolerance. -/
def FMath.IsNearlyEqual (A B ErrorTolerance : ℚ) : Bool :=
  decide (FMath.Abs (A - B) ≤ ErrorTolerance)

/-- `FMath::Clamp`. -/
def FMath.Clamp (X Min Max : ℚ) : ℚ :=
  if X < Min then Min else if X < Max then X else Max

/-- `FMath::FInterpTo`; `SMALL_NUMBER` is `1e-8`. -/
def FMath.FInterpTo (Current Target DeltaTime InterpSpeed : ℚ) : ℚ :=
  -- If no interp speed, jump to target value
  if InterpSpeed ≤ 0 then Target
  else
    -- Distance to reach
    let Dist := Target - Current
    -- If distance is too small, just set the desired location
    if Dist * Dist < 1 / 100000000 then Target
    else Current + Dist * FMath.Clamp (DeltaTime * InterpSpeed) 0 1

/-- The locals of `CheckVault` that live across the iterations of its `for` loop
(`i` is declared before the loop). -/
structure FVaultLocals where
  i : Int
  SecondaryVaultStartLocation : FVector
  SecondaryVaultEndLocation : FVector
  SecondaryVaultHeightCheckLocation : FVector
  InitialTraceHeight : ℚ
  PreviousTraceHeight : ℚ
  CurrentTraceHeight : ℚ
  bInitialSwitch : Bool
  bVaultFailed : Bool
  deriving DecidableEq, Repr

/-- How an iteration of a loop ends: with `continue` (or by reaching the end of
the body), or with `break`. -/
inductive ELoopControl
  | Continue
  | Break
  deriving DecidableEq, Repr

/-- The landing point that `CheckVault` derives from a hit: the hit location, at
the height of the impact point raised by `CalculationHeight`. -/
def ACharacterCore.DownTracePoint (Hit : FTraceHit) (CalculationHeight : ℚ) : FVector :=
  { Hit.Location with Z := Hit.ImpactPoint.Z + CalculationHeight }

/-- Whether the sphere sweep around a landing point, with the radius of the
capsule, hits something. -/
def ACharacterCore.LandingSweepHit (scene : FScene) (c : ACharacterCore) (Point : FVector) :
    Bool :=
  let StartLocation : FVector :=
    { Point with Z := Point.Z + c.CapsuleComponent.GetScaledCapsuleHalfHeight_WithoutHemisphere }
  let EndLocation : FVector :=
    { Point with Z := Point.Z - c.CapsuleComponent.GetScaledCapsuleHalfHeight_WithoutHemisphere }
  (scene.SweepSphere c.CapsuleComponent.GetUnscaledCapsuleRadius StartLocation EndLocation).isSome

/-- The traversal target for a landing point: the rotation is made from the
impact normal of the forward sweep with 1 subtracted from `X` and from `Y`. -/
def ACharacterCore.VaultTarget (scene : FScene) (ForwardImpactNormal Point : FVector) :
    FTransform :=
  { Rotation := scene.MakeRotFromX
      { ForwardImpactNormal with X := ForwardImpactNormal.X - 1, Y := ForwardImpactNormal.Y - 1 }
    Location := Point }

/-- The body of the `for` loop of `ACharacterCore::CheckVault`: one step of the
staircase scan.  `ForwardImpactNormal` is the impact normal of the forward
sweep. -/
def ACharacterCore.CheckVaultStep (scene : FScene) (ForwardAddition ForwardImpactNormal : FVector)
    (CalculationHeight : ℚ) (L : FVaultLocals) (w : World) :
    ELoopControl × FVaultLocals × World :=
  let L1 : FVaultLocals := { L with
    SecondaryVaultStartLocation := L.SecondaryVaultStartLocation.add ForwardAddition
    SecondaryVaultEndLocation := L.SecondaryVaultEndLocation.add ForwardAddition
    SecondaryVaultHeightCheckLocation := L.SecondaryVaultHeightCheckLocation.add ForwardAddition
    bVaultFailed := true }
  match scene.LineTrace L1.SecondaryVaultStartLocation L1.SecondaryVaultEndLocation with
  | none => (.Continue, L1, w)
  | some VaultHit =>
    match scene.LineTrace L1.SecondaryVaultStartLocation
        L1.SecondaryVaultHeightCheckLocation with
    | some _ => (.Break, L1, w)
    | none =>
      let TraceLength : ℚ := L1.SecondaryVaultStartLocation.Z - VaultHit.ImpactPoint.Z
      let L2 : FVaultLocals :=
        if !L1.bInitialSwitch then
          { L1 with InitialTraceHeight := TraceLength, bInitialSwitch := true }
        else L1
      let L3 : FVaultLocals := { L2 with
        PreviousTraceHeight := L2.CurrentTraceHeight
        CurrentTraceHeight := TraceLength }
      if !(!(FMath.IsNearlyEqual L3.CurrentTraceHeight L3.InitialTraceHeight 20)
          && decide (L3.CurrentTraceHeight < w.Character.MaxMantleHeight)) then
        (.Continue, L3, w)
      else if !FMath.IsNearlyEqual L3.PreviousTraceHeight L3.CurrentTraceHeight 3 then
        (.Continue, L3, w)
      else
        let DownTracePoint := ACharacterCore.DownTracePoint VaultHit CalculationHeight
        if ACharacterCore.LandingSweepHit scene w.Character DownTracePoint then
          (.Continue, L3, w)
        else
          -- If we find such a location, break the loop and vault
          let w1 := ACharacterCore.AcceptVault
            (ACharacterCore.VaultTarget scene ForwardImpactNormal DownTracePoint) w
          (.Break, { L3 with bVaultFailed := false }, w1)

/-- The loop `for (i = 0; i <= VaultTraceAmount; i++)` of
`ACharacterCore::CheckVault`, entered at index `L.i` with `n` iterations left. -/
def ACharacterCore.CheckVaultLoop (scene : FScene) (ForwardAddition ForwardImpactNormal : FVector)
    (CalculationHeight : ℚ) : Nat → FVaultLocals → World → FVaultLocals × World
  | 0, L, w => (L, w)
  | n + 1, L, w =>
    match ACharacterCore.CheckVaultStep scene ForwardAddition ForwardImpactNormal
        CalculationHeight L w with
    | (.Break, L1, w1) => (L1, w1)
    | (.Continue, L1, w1) =>
      ACharacterCore.CheckVaultLoop scene ForwardAddition ForwardImpactNormal CalculationHeight n
        { L1 with i := L1.i + 1 } w1

/-- The locals of `CheckVault` on entry to its loop.  `MantleHit` is the hit of
the standability sweep. -/
def ACharacterCore.VaultLocals (MantleHit : FTraceHit) (c : ACharacterCore) : FVaultLocals :=
  let SecondaryVaultStartLocation : FVector :=
    { MantleHit.ImpactPoint with Z := MantleHit.ImpactPoint.Z + 5 }
  { i := 0
    SecondaryVaultStartLocation := SecondaryVaultStartLocation
    SecondaryVaultEndLocation := { SecondaryVaultStartLocation with Z := 0 }
    SecondaryVaultHeightCheckLocation :=
      { SecondaryVaultStartLocation with Z := SecondaryVaultStartLocation.Z + c.VaultSpaceHeight }
    InitialTraceHeight := 0
    PreviousTraceHeight := 0
    CurrentTraceHeight := 0
    bInitialSwitch := false
    bVaultFailed := true }

/-- The step `ForwardAddition` of the staircase scan: 5 units along the forward
vector of the collider. -/
def ACharacterCore.ForwardAddition (scene : FScene) (c : ACharacterCore) : FVector :=
  (scene.GetForwardVector c.ActorTransform.Rotation).scale 5

/-- The local `CalculationHeight` of `CheckVault`. -/
def ACharacterCore.CalculationHeight (c : ACharacterCore) : ℚ :=
  c.CapsuleComponent.GetScaledCapsuleHalfHeight + 2

/-- The staircase scan of `ACharacterCore::CheckVault`: from the declaration of
`SecondaryVaultStartLocation` to the end of the `for` loop.  The loop condition
`i <= VaultTraceAmount` holds for the indices `0, ..., VaultTraceAmount`. -/
def ACharacterCore.CheckVaultScan (scene : FScene) (ForwardImpactNormal : FVector)
    (MantleHit : FTraceHit) (w : World) : FVaultLocals × World :=
  ACharacterCore.CheckVaultLoop scene (ACharacterCore.ForwardAddition scene w.Character)
    ForwardImpactNormal (ACharacterCore.CalculationHeight w.Character)
    (w.Character.VaultTraceAmount + 1).toNat (ACharacterCore.VaultLocals MantleHit w.Character) w

/-- The two tests at the head of `ACharacterCore::CheckVault`: vaulting is
enabled, and the character moves forward, is not vaulting and is falling. -/
def ACharacterCore.CheckVaultGate (scene : FScene) (w : World) : Bool :=
  if !w.Character.bCanVault then false
  else
    let ForwardVelocity : ℚ := FVector.DotProduct scene.Velocity
      (scene.GetForwardVector w.Character.ActorTransform.Rotation)
    decide (ForwardVelocity > 0) && !w.Character.bIsVaulting && scene.bIsFalling

/-- The forward sweep of `ACharacterCore::CheckVault` ("checking if we are near
a wall"): the hit, when the sweep succeeds with a blocking hit. -/
def ACharacterCore.VaultForwardSweep (scene : FScene) (w : World) : Option FTraceHit :=
  let ColliderLocation := w.Character.ActorTransform.Location
  let StartLocation := ColliderLocation
  let EndLocation :=
    ColliderLocation.add ((scene.GetForwardVector w.Character.ActorTransform.Rotation).scale 75)
  match scene.SweepCapsule StartLocation EndLocation with
  | none => none
  | some MantleHit => if !MantleHit.bBlockingHit then none else some MantleHit

/-- The standability sweep of `ACharacterCore::CheckVault` ("checking if we can
stand up on the wall that we have hit"): the hit, when the sweep succeeds on a
walkable surface.  `ForwardHit` is the hit of the forward sweep. -/
def ACharacterCore.VaultStandSweep (scene : FScene) (ForwardHit : FTraceHit) (w : World) :
    Option FTraceHit :=
  let ColliderLocation := w.Character.ActorTransform.Location
  let CapsuleLocation : FVector :=
    ({ ForwardHit.ImpactPoint with Z := ColliderLocation.Z } : FVector).add
      (ForwardHit.ImpactNormal.scale (-15))
  let StartLocation : FVector := { CapsuleLocation with Z := CapsuleLocation.Z + 100 }
  let EndLocation := CapsuleLocation
  match scene.SweepSphere 1 StartLocation EndLocation with
  | none => none
  | some MantleHit => if !scene.IsWalkable MantleHit then none else some MantleHit

/-- The mantle logic at the end of `ACharacterCore::CheckVault`, reached when the
staircase scan has failed.  `MantleHit` is the hit of the standability sweep. -/
def ACharacterCore.CheckVaultMantle (scene : FScene) (ForwardImpactNormal : FVector)
    (MantleHit : FTraceHit) (w : World) : World :=
  let DownTracePoint := ACharacterCore.DownTracePoint MantleHit
    (w.Character.CapsuleComponent.GetScaledCapsuleHalfHeight + 2)
  -- Looking for a safe place to mantle to
  if ACharacterCore.LandingSweepHit scene w.Character DownTracePoint then w
  else
    -- Calling vault with our mantle target point
    ACharacterCore.AcceptVault
      (ACharacterCore.VaultTarget scene ForwardImpactNormal DownTracePoint) w

/-- `ACharacterCore::CheckVault`.  Debug drawing is left out. -/
def ACharacterCore.CheckVault (scene : FScene) (w : World) : World :=
  if !ACharacterCore.CheckVaultGate scene w then w
  else
    -- Checking if we are near a wall
    match ACharacterCore.VaultForwardSweep scene w with
    | none => w
    | some ForwardHit =>
      -- Checking if we can stand up on the wall that we have hit
      match ACharacterCore.VaultStandSweep scene ForwardHit w with
      | none => w
      | some MantleHit =>
        let Scan := ACharacterCore.CheckVaultScan scene ForwardHit.ImpactNormal MantleHit w
        if !Scan.1.bVaultFailed then Scan.2
        else
          -- If the vault has failed, we proceed to perform the mantle logic
          ACharacterCore.CheckVaultMantle scene ForwardHit.ImpactNormal MantleHit Scan.2

/-- `ACharacterCore::CheckGroundAngle`. -/
def ACharacterCore.CheckGroundAngle (scene : FScene) (w : World) : World :=
  -- Determines the angle of the floor from the vector of a hit line trace
  let Location := w.Character.ActorTransform.Location
  let AngleStartTrace : FVector :=
    { Location with Z := Location.Z - w.Character.CapsuleComponent.GetScaledCapsuleHalfHeight }
  let AngleEndTrace : FVector := { AngleStartTrace with Z := AngleStartTrace.Z - 50 }
  match scene.LineTrace AngleStartTrace AngleEndTrace with
  | some AngleHit =>
    let FinalRotation := scene.MakeRotFromZX AngleHit.ImpactNormal
      (scene.GetForwardVector w.Character.ActorTransform.Rotation)
    { w with Character := { w.Character with FloorAngle := FinalRotation.Pitch } }
  | none => w

/-- `ACharacterCore::CheckRelativeMovementAngle`. -/
def ACharacterCore.CheckRelativeMovementAngle (scene : FScene) (w : World) : ℚ :=
  let RelativeMovementVector :=
    scene.UnrotateVector w.Character.ActorTransform.Rotation scene.Velocity
  FMath.Abs (scene.HeadingAngle RelativeMovementVector)

/-- The settings of `VaultTimeline`: the curve bound to `TimelineProgress` in
`BeginPlay` (`none`: `VaultTimelineCurve` is null and nothing is bound), and the
length of the timeline. -/
structure FVaultTimelineData where
  VaultTimelineCurve : Option (ℚ → ℚ)
  Length : ℚ

/-- `FTimeline::TickTimeline` for a timeline that plays forward at rate 1 without
looping, as `VaultTimeline` does: the timeline afterwards, and the position
handed to the bound functions (`none` when the timeline is not playing). -/
def FTimeline.TickTimeline (Length DeltaTime : ℚ) (t : FTimeline) : FTimeline × Option ℚ :=
  if t.bPlaying then
    let NewPosition := t.Position + DeltaTime
    if DeltaTime > 0 then
      if NewPosition > Length then ({ bPlaying := false, Position := Length }, some Length)
      else ({ t with Position := NewPosition }, some NewPosition)
    else
      if NewPosition < 0 then ({ bPlaying := false, Position := 0 }, some 0)
      else ({ t with Position := NewPosition }, some NewPosition)
  else (t, none)

/-- First step of `ACharacterCore::Tick`: `VaultTimeline.TickTimeline(DeltaTime)`,
which calls `TimelineProgress` with the value of the curve at the new
position. -/
def ACharacterCore.TickVaultTimeline (tl : FVaultTimelineData) (DeltaTime : ℚ) (w : World) :
    World :=
  match FTimeline.TickTimeline tl.Length DeltaTime w.Character.VaultTimeline with
  | (t, some Position) =>
    let w1 := { w with Character := { w.Character with VaultTimeline := t } }
    match tl.VaultTimelineCurve with
    | some Curve => ACharacterCore.TimelineProgress (Curve Position) w1
    | none => w1
  | (_, none) => w

/-- Second step of `ACharacterCore::Tick`: the half height of the capsule is
interpolated towards the height for the movement state. -/
def ACharacterCore.TickCapsule (DeltaTime : ℚ) (w : World) : World :=
  let TargetHalfHeight : ℚ :=
    if w.Character.MovementState = .State_Crouch ∨ w.Character.MovementState = .State_Slide then
      w.Character.CrouchedCapsuleHalfHeight
    else w.Character.DefaultCapsuleHalfHeight
  let NewHalfHeight := FMath.FInterpTo w.Character.CapsuleComponent.GetScaledCapsuleHalfHeight
    TargetHalfHeight DeltaTime w.Character.CrouchSpeed
  { w with Character := { w.Character with
      CapsuleComponent := w.Character.CapsuleComponent.SetCapsuleHalfHeight NewHalfHeight } }

/-- Third step of `ACharacterCore::Tick`: the sprint-angle restriction. -/
def ACharacterCore.TickSprintAngle (scene : FScene) (w : World) : World :=
  if w.Character.bRestrictSprintAngle then
    let CurrentRelativeMovementAngle := ACharacterCore.CheckRelativeMovementAngle scene w
    if CurrentRelativeMovementAngle > w.Character.SprintAngleLimit * (scene.PI / 180)
        ∧ w.Character.MovementState = .State_Sprint then
      let w1 := ACharacterCore.UpdateMovementState .State_Walk w
      { w1 with Character := { w1.Character with bRestrictingSprint := true } }
    else if CurrentRelativeMovementAngle < w.Character.SprintAngleLimit * (scene.PI / 180)
        ∧ w.Character.bRestrictingSprint = true ∧ w.Character.bWantsToSprint = true
        ∧ w.Character.MovementState ≠ .State_Sprint then
      let w1 := ACharacterCore.UpdateMovementState .State_Sprint w
      { w1 with Character := { w1.Character with bRestrictingSprint := false } }
    else w
  else w

/-- Fourth step of `ACharacterCore::Tick`: the continuous aiming check. -/
def ACharacterCore.TickAim (w : World) : World :=
  if w.Character.bWantsToAim = true ∧ w.Character.MovementState ≠ .State_Sprint
      ∧ w.Character.MovementState ≠ .State_Slide then
    { w with Character := { w.Character with bIsAiming := true } }
  else
    { w with Character := { w.Character with bIsAiming := false } }

/-- Fifth step of `ACharacterCore::Tick`: the slide that was asked for in the air
starts on landing. -/
def ACharacterCore.TickSlide (env : FSurroundings) (w : World) : World :=
  if env.bIsMovingOnGround && !w.Character.bPerformedSlide && w.Character.bWantsToSlide then
    let w1 := ACharacterCore.StartSlide w
    { w1 with Character := { w1.Character with bWantsToSlide := false } }
  else w

/-- The state of `ACharacterCore::Tick` when it reaches the aiming check: after
the timeline, the capsule and the sprint-angle restriction. -/
def ACharacterCore.TickBeforeAim (tl : FVaultTimelineData) (scene : FScene) (DeltaTime : ℚ)
    (w : World) : World :=
  ACharacterCore.TickSprintAngle scene
    (ACharacterCore.TickCapsule DeltaTime (ACharacterCore.TickVaultTimeline tl DeltaTime w))

/-- `ACharacterCore::Tick`.  `env` holds the answer of `IsMovingOnGround()`,
`scene` the other answers of the engine during the frame, `tl` the settings of
the vault timeline.  The call of `Super::Tick` at the head and the debug output
at the end are left out. -/
def ACharacterCore.Tick (tl : FVaultTimelineData) (env : FSurroundings) (scene : FScene)
    (DeltaTime : ℚ) (w : World) : World :=
  let w3 := ACharacterCore.TickBeforeAim tl scene DeltaTime w
  -- Continuous aiming check
  let w4 := ACharacterCore.TickAim w3
  -- Slide performed check
  let w5 := ACharacterCore.TickSlide env w4
  -- Checks whether we can vault every frame
  let w6 := ACharacterCore.CheckVault scene w5
  -- Checks the floor angle
  ACharacterCore.CheckGroundAngle scene w6

/-! ## Reference definition of reload-complete -/

/-- Reload-complete as the specification words it, on the clip size, the clip
capacity and the pool count: the new clip size and the new pool count. -/
def reloadCompleteRef (chamberable : Bool) (clipSize clipCapacity pool : Int) : Int × Int :=
  let chamberBonus : Int := if chamberable = true ∧ clipSize ≥ 1 then 1 else 0
  let needed : Int := clipCapacity - clipSize + chamberBonus
  if pool ≥ needed then (clipCapacity + chamberBonus, pool - needed)
  else (clipSize + pool, 0)

/-- The static chamber allowance: 1 for a chamberable weapon, else 0. -/
def chamberAllowance (wd : FStaticWeaponData) : Int :=
  if wd.bCanBeChambered then 1 else 0

/-! ## Concrete configurations and states -/

/-- A semi-automatic, non-chamberable, single-projectile weapon of 600 rounds per
minute without animations, curves or attachments. -/
def BasicWeaponData : FStaticWeaponData :=
  { bCanBeChambered := false
    bIsShotgun := false
    ShotgunPellets := 0
    bAutomaticFire := false
    bWaitForAnim := false
    bPreventRapidManualFire := false
    bHasAttachments := false
    bSilenced := false
    RateOfFire := 600
    Gun_Shot := none
    EmptyPlayerReload := none
    PlayerReload := none
    BaseDamage := 10
    HeadshotMultiplier := 2
    HeadshotDamageSurface := some 1
    NormalDamageSurface := some 2
    GroundSurface := some 3
    RockSurface := some 4
    VerticalRecoilCurve := none
    HorizontalRecoilCurve := none }

/-- A chamberable variant of `BasicWeaponData`. -/
def ChamberableWeaponData : FStaticWeaponData :=
  { BasicWeaponData with bCanBeChambered := true }

/-- A shotgun firing eight pellets per discharge. -/
def ShotgunWeaponData : FStaticWeaponData :=
  { BasicWeaponData with bIsShotgun := true, ShotgunPellets := 8 }

/-- A weapon that waits for its one-second firing animation after every shot. -/
def WaitForAnimWeaponData : FStaticWeaponData :=
  { BasicWeaponData with Gun_Shot := some { PlayLength := 1 }, bWaitForAnim := true }

/-- An idle weapon: able to fire and to reload, ready, not reloading, empty clip
of the given capacity, no timer pending. -/
def IdleWeapon (ClipSize ClipCapacity : Int) : AWeapon :=
  { GeneralWeaponData := { ClipSize := ClipSize, ClipCapacity := ClipCapacity, AmmoType := 0 }
    bCanFire := true
    bCanReload := true
    bIsReloading := false
    bHasFiredRecently := false
    bIsWeaponReadyToFire := true
    bShouldRecover := false
    ControlRotation := { Pitch := 0, Yaw := 0, Roll := 0 }
    ShotsFired := 0
    DamageModifier := 0
    VerticalRecoilModifier := 1
    HorizontalRecoilModifier := 1
    FinalDamage := 0
    AnimTime := 0
    VerticalRecoilTimeline := { bPlaying := false, Position := 0 }
    HorizontalRecoilTimeline := { bPlaying := false, Position := 0 }
    RecoilRecoveryTimeline := { bPlaying := false, Position := 0 }
    ShotDelay := none
    SpamFirePreventionDelay := none
    AnimationWaitDelay := none
    ReloadingDelay := none }

/-- A movement profile with the given flags and walk speed. -/
def MovementProfile (bCanFire bCanReload : Bool) (MaxWalkSpeed : ℚ) : FMovementVariables :=
  { bCanFire := bCanFire
    bCanReload := bCanReload
    MaxAcceleration := 2048
    BreakingDecelerationWalking := 2048
    GroundFriction := 8
    MaxWalkSpeed := MaxWalkSpeed }

/-- A movement table with an entry for every state: firing and reloading are
allowed when walking or crouching only. -/
def FullMovementDataMap : List (EMovementState × FMovementVariables) :=
  [(.State_Walk, MovementProfile true true 400),
   (.State_Sprint, MovementProfile false false 700),
   (.State_Crouch, MovementProfile true true 250),
   (.State_Slide, MovementProfile false false 700),
   (.State_Vault, MovementProfile false false 400)]

/-- The identity transform at the origin. -/
def OriginTransform : FTransform :=
  { Rotation := { Pitch := 0, Yaw := 0, Roll := 0 }, Location := { X := 0, Y := 0, Z := 0 } }

/-- A character standing at the origin in `State_Walk`: hold-to-crouch, sliding
and vaulting allowed, no sprint-angle restriction, a staircase scan of trace
amount 3, no flag set, no traversal in progress, weapon equipped. -/
def IdleCharacter : ACharacterCore :=
  { MovementState := .State_Walk
    MovementDataMap := FullMovementDataMap
    bCrouchIsToggle := false
    bCanSlide := true
    bCanVault := true
    bRestrictSprintAngle := false
    SlideTime := 1
    SlideContinueAngle := -7
    SprintAngleLimit := 50
    VaultTraceAmount := 3
    MaxMantleHeight := 60
    VaultSpaceHeight := 100
    DefaultCapsuleHalfHeight := 88
    CrouchedCapsuleHalfHeight := 58
    CrouchSpeed := 10
    FloorAngle := 0
    bHoldingCrouch := false
    bPerformedSlide := false
    bWantsToSlide := false
    bWantsToSprint := false
    bWantsToAim := false
    bIsAiming := false
    bRestrictingSprint := false
    bIsSprinting := false
    bIsCrouching := false
    bIsVaulting := false
    SlideStop := none
    VaultTimeline := { bPlaying := false, Position := 0 }
    VaultStartLocation := OriginTransform
    VaultEndLocation := OriginTransform
    VaultTargetLocation := OriginTransform
    ActorTransform := OriginTransform
    CapsuleComponent :=
      { CapsuleHalfHeight := 88
        CapsuleRadius := 34
        ShapeScale := 1 }
    CharacterMovement :=
      { MaxAcceleration := 2048
        BrakingDecelerationWalking := 2048
        GroundFriction := 8
        MaxWalkSpeed := 400 }
    InventoryComponent := some { bHasCurrentWeapon := true } }

/-- A walking character holding `IdleWeapon ClipSize ClipCapacity`, with `Pool`
rounds of the weapon's ammo type in the controller's ammo map. -/
def IdleWorld (ClipSize ClipCapacity Pool : Int) : World :=
  { Weapon := IdleWeapon ClipSize ClipCapacity
    AmmoMap := [(0, Pool)]
    Character := IdleCharacter
    bOwnerHasInventory := true
    Log := [] }

/-- A weapon in the middle of a reload: 5 of 30 rounds, pool of 100. -/
def ReloadingWorld : World :=
  { IdleWorld 5 30 100 with
    Weapon := { IdleWeapon 5 30 with
      bCanFire := false
      bIsReloading := true
      ReloadingDelay :=
        some { Callback := .UpdateAmmo, Rate := 2, bLoop := false, FirstDelay := 2 } } }

/-- A cadence timer as armed for a semi-automatic weapon of 60 rounds per minute. -/
def CadenceTimer : FTimerData :=
  { Callback := .Fire, Rate := 1, bLoop := false, FirstDelay := 0 }

/-- Five of ten rounds in the clip, cadence timer armed, but the weapon is not
ready to fire (rapid-fire prevention is pending). -/
def NotReadyWorld : World :=
  { IdleWorld 5 10 0 with
    Weapon := { IdleWeapon 5 10 with
      bIsWeaponReadyToFire := false
      ShotDelay := some CadenceTimer } }

/-- One of ten rounds in the clip, cadence timer armed. -/
def LastRoundWorld : World :=
  { IdleWorld 1 10 0 with
    Weapon := { IdleWeapon 1 10 with ShotDelay := some CadenceTimer } }

/-- A line trace that never hits anything. -/
def NoHit : Nat → Option FHitResult := fun _ => none

/-- A line trace in which every projectile strikes the headshot surface of
`BasicWeaponData`. -/
def AlwaysHit : Nat → Option FHitResult := fun _ => some { PhysMaterial := some 1 }

/-! ## Predicates and derived quantities used in the statements -/

/-- The chamber bonus computed by `UpdateAmmo`: 1 when the clip holds a round and
the weapon is chamberable, else 0 (the local `Value`). -/
def UpdateAmmoValue (wd : FStaticWeaponData) (w : World) : Int :=
  if decide (w.Weapon.GeneralWeaponData.ClipSize > 0) && wd.bCanBeChambered then 1 else 0

/-- The clip bound: `0 ≤ ClipSize ≤ ClipCapacity + c`, `c` the chamber allowance. -/
def ClipWithinBounds (wd : FStaticWeaponData) (w : World) : Prop :=
  0 ≤ w.Weapon.GeneralWeaponData.ClipSize ∧
    w.Weapon.GeneralWeaponData.ClipSize
      ≤ w.Weapon.GeneralWeaponData.ClipCapacity + chamberAllowance wd

instance (wd : FStaticWeaponData) (w : World) : Decidable (ClipWithinBounds wd w) := by
  unfold ClipWithinBounds
  exact inferInstance

/-- The first guard of `Fire`. -/
def FireGuard (w : World) : Prop :=
  w.Weapon.bCanFire = true ∧ w.Weapon.bIsWeaponReadyToFire = true ∧
    w.Weapon.GeneralWeaponData.ClipSize > 0 ∧ w.Weapon.bIsReloading = false

instance (w : World) : Decidable (FireGuard w) := by
  unfold FireGuard
  exact inferInstance

/-- The number of projectiles of one discharge (the local `NumberOfShots`). -/
def NumberOfShots (wd : FStaticWeaponData) : Int :=
  if wd.bIsShotgun then wd.ShotgunPellets else 1

/-- The state in which `Fire` leaves the projectile loop when its first guard
holds. -/
def AfterShots (wd : FStaticWeaponData) (LineTrace : Nat → Option FHitResult) (w : World) :
    World :=
  AWeapon.FireShots wd LineTrace 0 (NumberOfShots wd).toNat
    { w with Weapon := { w.Weapon with GeneralWeaponData :=
      { w.Weapon.GeneralWeaponData with ClipSize := w.Weapon.GeneralWeaponData.ClipSize - 1 } } }

/-- Whether one discharge suspends `bCanFire`: a firing animation is configured,
the weapon waits for it, and at least one projectile is fired. -/
def FireSuspends (wd : FStaticWeaponData) : Prop :=
  wd.Gun_Shot.isSome = true ∧ wd.bWaitForAnim = true ∧ 0 < NumberOfShots wd

/-- The guard under which `Reload` begins a reload. -/
def ReloadGuard (wd : FStaticWeaponData) (w : World) : Prop :=
  w.Weapon.bCanReload = true ∧
    (∃ pool, TMapFind w.AmmoMap w.Weapon.GeneralWeaponData.AmmoType = some pool ∧ pool > 0) ∧
    w.Weapon.bIsReloading = false ∧
    w.Weapon.GeneralWeaponData.ClipSize
      ≠ w.Weapon.GeneralWeaponData.ClipCapacity + chamberAllowance wd

/-- A reload begins between two states when `bIsReloading` goes from false to
true. -/
def BeginsReload (w w' : World) : Prop :=
  w.Weapon.bIsReloading = false ∧ w'.Weapon.bIsReloading = true

/-- The members of the weapon that the projectile loop of `Fire` may write:
everything else is left as it was. -/
def ShotFrame (a b : AWeapon) : Prop :=
  ∃ (ShotsFired : Int) (bCanFire : Bool) (Delay : Option FTimerData) (FinalDamage : ℚ),
    b = { a with
      ShotsFired := ShotsFired
      bCanFire := bCanFire
      AnimationWaitDelay := Delay
      FinalDamage := FinalDamage }

/-- The movement component after `UpdateMovementState NewMovementState`: the
entry's values when the table has one, else what it was. -/
def MovementAfter (NewMovementState : EMovementState) (c : ACharacterCore) :
    UCharacterMovementComponent :=
  match MovementDataMapFind c.MovementDataMap NewMovementState with
  | some Data =>
    { MaxAcceleration := Data.MaxAcceleration
      BrakingDecelerationWalking := Data.BreakingDecelerationWalking
      GroundFriction := Data.GroundFriction
      MaxWalkSpeed := Data.MaxWalkSpeed }
  | none => c.CharacterMovement

/-- Outcome of the slide-exit policy. -/
inductive ESlideExit
  /-- The slide ends in the given state; performed-slide is cleared and the
  fallback timer cancelled. -/
  | Exit (State : EMovementState)
  /-- The slide goes on and a 0.1 s fallback timer is re-armed. -/
  | Extend
  /-- State and timers are left as they are. -/
  | Unchanged
  deriving DecidableEq, Repr

/-- The slide-exit policy as the specification words it, decided in the order
given: above the continue threshold the slide ends (Crouch without headroom, else
Sprint when wants-to-sprint, else Crouch when holding crouch, else Walk); else,
below the negative threshold, the slide is extended; else nothing changes. -/
def slideExitRef (floorAngle threshold : ℚ) (headroom wantsToSprint holdingCrouch : Bool) :
    ESlideExit :=
  if floorAngle > threshold then
    if headroom = false then .Exit .State_Crouch
    else if wantsToSprint = true then .Exit .State_Sprint
    else if holdingCrouch = true then .Exit .State_Crouch
    else .Exit .State_Walk
  else if floorAngle < -threshold then .Extend
  else .Unchanged

/-- The physics scene of a grounded character with free headroom. -/
def ClearSurroundings : FSurroundings :=
  { bIsMovingOnGround := true, bStandUpSweepHit := false }

/-- The physics scene of a grounded character under a low ceiling: the stand-up
sweep hits. -/
def BlockedSurroundings : FSurroundings :=
  { bIsMovingOnGround := true, bStandUpSweepHit := true }

/-- The idle world with the character in the given movement state. -/
def WorldInState (State : EMovementState) : World :=
  { IdleWorld 10 30 50 with Character := { IdleCharacter with MovementState := State } }

/-- A traversal target one unit ahead and one unit up. -/
def LedgeTransform : FTransform :=
  { Rotation := { Pitch := 0, Yaw := 0, Roll := 0 }, Location := { X := 1, Y := 0, Z := 1 } }

/-- A character in the middle of a traversal: the idle walking character after a
vault towards `LedgeTransform` was accepted. -/
def VaultingWorld : World :=
  ACharacterCore.AcceptVault LedgeTransform (WorldInState .State_Walk)

/-- A sprinting character who has not slid yet. -/
def SprintingWorld : World :=
  { IdleWorld 10 30 50 with
    Character := { IdleCharacter with
      MovementState := .State_Sprint
      bIsSprinting := true
      bWantsToSprint := true } }

/-- A sliding character on level ground who still holds crouch and sprint, with
the fallback timer armed. -/
def SlidingWorld : World :=
  { IdleWorld 10 30 50 with
    Character := { IdleCharacter with
      MovementState := .State_Slide
      bHoldingCrouch := true
      bPerformedSlide := true
      bWantsToSprint := true
      SlideStop := some { Callback := .ReleaseCrouch, Rate := 1, bLoop := false, FirstDelay := 1 } } }

/-! ## Reference definition of the staircase scan -/

/-- The probe results of one step of the staircase scan, as the specification
speaks of them: whether the downward probe hits; whether the headroom probe (the
ray from the same origin up to the headroom height) hits; the trace height
(origin Z minus impact Z); whether the sphere sweep around the landing point is
obstructed; and the landing point.  The two probes of a step are independent of
each other. -/
structure FVaultSample where
  bDownHit : Bool
  bHeadroomHit : Bool
  Height : ℚ
  bLandingObstructed : Bool
  Point : FVector
  deriving DecidableEq, Repr

/-- A valid sample: the downward probe hits and the headroom probe does not. -/
def vaultSampleValid (s : FVaultSample) : Bool :=
  s.bDownHit && !s.bHeadroomHit

/-- The acceptance test of the staircase scan as the specification words it.
`Valid` holds the heights of the valid samples of the earlier steps, oldest
first: the initial reference height is the height of the first valid sample (this
one, when there is no earlier one), the previous height is the last of
`Valid`. -/
def vaultAccepts (MaxMantleHeight : ℚ) (Valid : List ℚ) (s : FVaultSample) : Bool :=
  vaultSampleValid s
    && decide (|s.Height - Valid.head?.getD s.Height| > 20)
    && decide (s.Height < MaxMantleHeight)
    && (match Valid.getLast? with
        | some Previous => decide (|Previous - s.Height| ≤ 3)
        | none => false)
    && !s.bLandingObstructed

/-- The staircase scan as the specification words it, over the probe results of
the steps still to come: the first step that passes the acceptance test is
accepted; the scan stops without acceptance at the first step whose headroom
probe hits; every other step is passed over. -/
def vaultScanRef (MaxMantleHeight : ℚ) : List ℚ → List FVaultSample → Option FVaultSample
  | _, [] => none
  | Valid, s :: Rest =>
    if vaultAccepts MaxMantleHeight Valid s then some s
    else if s.bHeadroomHit then none
    else
      vaultScanRef MaxMantleHeight (if vaultSampleValid s then Valid ++ [s.Height] else Valid) Rest

/-- The staircase scan with the amendment that a step whose downward probe misses
is passed over, whatever its headroom probe would give: the first step that
passes the acceptance test is accepted; the scan stops without acceptance at the
first step whose downward probe hits and whose headroom probe hits; every other
step is passed over. -/
def vaultScanRefAmended (MaxMantleHeight : ℚ) :
    List ℚ → List FVaultSample → Option FVaultSample
  | _, [] => none
  | Valid, s :: Rest =>
    if vaultAccepts MaxMantleHeight Valid s then some s
    else if s.bDownHit && s.bHeadroomHit then none
    else
      vaultScanRefAmended MaxMantleHeight
        (if vaultSampleValid s then Valid ++ [s.Height] else Valid) Rest

/-! ## Derived quantities of the staircase scan -/

/-- The probe results of the scene for the step of the staircase scan with the
given origin, end point of the downward probe and end point of the headroom
probe.  Each of the two probes is answered by the scene on its own; height,
landing sweep and landing point derive from the hit of the downward probe. -/
def ACharacterCore.VaultSample (scene : FScene) (c : ACharacterCore) (CalculationHeight : ℚ)
    (Start End HeightCheck : FVector) : FVaultSample :=
  match scene.LineTrace Start End with
  | none =>
    { bDownHit := false
      bHeadroomHit := (scene.LineTrace Start HeightCheck).isSome
      Height := 0
      bLandingObstructed := false
      Point := Start }
  | some VaultHit =>
    { bDownHit := true
      bHeadroomHit := (scene.LineTrace Start HeightCheck).isSome
      Height := Start.Z - VaultHit.ImpactPoint.Z
      bLandingObstructed :=
        ACharacterCore.LandingSweepHit scene c
          (ACharacterCore.DownTracePoint VaultHit CalculationHeight)
      Point := ACharacterCore.DownTracePoint VaultHit CalculationHeight }

/-- The probe results of the scene for `n` steps of the staircase scan that
follow the given positions. -/
def ACharacterCore.VaultSamples (scene : FScene) (c : ACharacterCore)
    (ForwardAddition : FVector) (CalculationHeight : ℚ) :
    Nat → FVector → FVector → FVector → List FVaultSample
  | 0, _, _, _ => []
  | n + 1, Start, End, HeightCheck =>
    ACharacterCore.VaultSample scene c CalculationHeight (Start.add ForwardAddition)
        (End.add ForwardAddition) (HeightCheck.add ForwardAddition)
      :: ACharacterCore.VaultSamples scene c ForwardAddition CalculationHeight n
          (Start.add ForwardAddition) (End.add ForwardAddition) (HeightCheck.add ForwardAddition)

/-- The probe results of the scene for the steps of the staircase scan of
`CheckVault`. -/
def ACharacterCore.VaultScanSamples (scene : FScene) (MantleHit : FTraceHit)
    (c : ACharacterCore) : List FVaultSample :=
  ACharacterCore.VaultSamples scene c (ACharacterCore.ForwardAddition scene c)
    (ACharacterCore.CalculationHeight c) (c.VaultTraceAmount + 1).toNat
    (ACharacterCore.VaultLocals MantleHit c).SecondaryVaultStartLocation
    (ACharacterCore.VaultLocals MantleHit c).SecondaryVaultEndLocation
    (ACharacterCore.VaultLocals MantleHit c).SecondaryVaultHeightCheckLocation

/-- What the loop-carried heights of `CheckVault` hold, in terms of the heights
of the valid samples met so far. -/
def VaultLocalsMatch (L : FVaultLocals) (Valid : List ℚ) : Prop :=
  L.bVaultFailed = true ∧
    (Valid = [] → L.bInitialSwitch = false) ∧
    (∀ a, Valid.head? = some a → L.bInitialSwitch = true ∧ L.InitialTraceHeight = a) ∧
    (∀ b, Valid.getLast? = some b → L.CurrentTraceHeight = b)

/-- The locals after a step of the staircase scan that took a valid sample of
height `Height`. -/
def VaultLocalsAfter (ForwardAddition : FVector) (Height : ℚ) (L : FVaultLocals) :
    FVaultLocals :=
  { L with
    SecondaryVaultStartLocation := L.SecondaryVaultStartLocation.add ForwardAddition
    SecondaryVaultEndLocation := L.SecondaryVaultEndLocation.add ForwardAddition
    SecondaryVaultHeightCheckLocation := L.SecondaryVaultHeightCheckLocation.add ForwardAddition
    bVaultFailed := true
    InitialTraceHeight := if L.bInitialSwitch then L.InitialTraceHeight else Height
    bInitialSwitch := true
    PreviousTraceHeight := L.CurrentTraceHeight
    CurrentTraceHeight := Height }

/-- The test under which a step of the staircase scan that took a valid sample of
height `Height` accepts its landing point. -/
def VaultStepAccepts (scene : FScene) (c : ACharacterCore) (CalculationHeight Height : ℚ)
    (VaultHit : FTraceHit) (L : FVaultLocals) : Prop :=
  |Height - (if L.bInitialSwitch then L.InitialTraceHeight else Height)| > 20 ∧
    Height < c.MaxMantleHeight ∧ |L.CurrentTraceHeight - Height| ≤ 3 ∧
    ACharacterCore.LandingSweepHit scene c
      (ACharacterCore.DownTracePoint VaultHit CalculationHeight) = false

instance (scene : FScene) (c : ACharacterCore) (CalculationHeight Height : ℚ)
    (VaultHit : FTraceHit) (L : FVaultLocals) :
    Decidable (VaultStepAccepts scene c CalculationHeight Height VaultHit L) := by
  unfold VaultStepAccepts
  exact inferInstance

/-! ## Further configurations, states and scenes -/

/-- A sliding character on level ground with free headroom who still holds crouch
but no longer wants to sprint, with the fallback timer armed. -/
def HeldSlideWorld : World :=
  { SlidingWorld with Character := { SlidingWorld.Character with bWantsToSprint := false } }

/-- A movement table without an entry for `State_Walk`. -/
def NoWalkMovementDataMap : List (EMovementState × FMovementVariables) :=
  [(.State_Sprint, MovementProfile false false 700),
   (.State_Crouch, MovementProfile true true 250),
   (.State_Slide, MovementProfile false false 700),
   (.State_Vault, MovementProfile false false 400)]

/-- A sprinting character whose movement table lacks the Walk entry; the weapon
carries the flags of the Sprint entry. -/
def StuckReloadWorld : World :=
  { IdleWorld 10 30 50 with
    Weapon := { IdleWeapon 10 30 with bCanFire := false, bCanReload := false }
    Character := { IdleCharacter with
      MovementState := .State_Sprint
      MovementDataMap := NoWalkMovementDataMap
      bIsSprinting := true
      bWantsToSprint := true } }

/-- A scene for an airborne character at height 100 who faces and moves along
`X`: a wall face at `X = 40`, and beyond it a surface whose height over the
point with the given `X` is `Top X`.  The forward sweep hits the wall face; a
sphere sweep of radius 1 and a downward line trace hit that surface; upward
line traces and wider sphere sweeps hit nothing.  `PI` is the float nearest
to pi. -/
def SurfaceScene (Top : ℚ → ℚ) : FScene :=
  { Velocity := { X := 100, Y := 0, Z := 0 }
    bIsFalling := true
    PI := 13176795 / 4194304
    GetForwardVector := fun _ => { X := 1, Y := 0, Z := 0 }
    MakeRotFromX := fun _ => { Pitch := 0, Yaw := 0, Roll := 0 }
    MakeRotFromZX := fun _ _ => { Pitch := 0, Yaw := 0, Roll := 0 }
    UnrotateVector := fun _ V => V
    HeadingAngle := fun _ => 0
    SweepCapsule := fun _ _ =>
      some { bBlockingHit := true
             Location := { X := 10, Y := 0, Z := 100 }
             ImpactPoint := { X := 40, Y := 0, Z := 100 }
             ImpactNormal := { X := -1, Y := 0, Z := 0 } }
    SweepSphere := fun Radius _ End =>
      if Radius = 1 then
        some { bBlockingHit := true
               Location := { End with Z := Top End.X }
               ImpactPoint := { End with Z := Top End.X }
               ImpactNormal := { X := 0, Y := 0, Z := 1 } }
      else none
    LineTrace := fun Start End =>
      if End.Z < Start.Z then
        some { bBlockingHit := true
               Location := { Start with Z := Top Start.X }
               ImpactPoint := { Start with Z := Top Start.X }
               ImpactNormal := { X := 0, Y := 0, Z := 1 } }
      else none
    IsWalkable := fun _ => true }

/-- A flat surface at height 130 beyond the wall face. -/
def PlateauScene : FScene :=
  SurfaceScene (fun _ => 130)

/-- A surface at height 130 up to `X = 60` that drops to height 95 beyond. -/
def DropScene : FScene :=
  SurfaceScene (fun X => if X ≤ 60 then 130 else 95)

/-- A scene without geometry: no sweep and no trace hits anything. -/
def VoidScene : FScene :=
  { SurfaceScene (fun _ => 0) with
    SweepCapsule := fun _ _ => none
    SweepSphere := fun _ _ _ => none
    LineTrace := fun _ _ => none }

/-- The surface of `DropScene` moved 5 units on (height 130 up to `X = 65`, then
95), under an overhang that ends at `X = 60`: a probe origin with `X ≤ 60` has
nothing beneath it and the overhang above it, so that its downward line trace
misses and its upward line trace hits. -/
def OverhangScene : FScene :=
  { SurfaceScene (fun X => if X ≤ 65 then 130 else 95) with
    LineTrace := fun Start End =>
      if Start.X ≤ 60 then
        if End.Z < Start.Z then none
        else
          some { bBlockingHit := true
                 Location := { Start with Z := 200 }
                 ImpactPoint := { Start with Z := 200 }
                 ImpactNormal := { X := 0, Y := 0, Z := -1 } }
      else if End.Z < Start.Z then
        some { bBlockingHit := true
               Location := { Start with Z := if Start.X ≤ 65 then 130 else 95 }
               ImpactPoint := { Start with Z := if Start.X ≤ 65 then 130 else 95 }
               ImpactNormal := { X := 0, Y := 0, Z := 1 } }
      else none }

/-- A scene for a character on level ground who does not move: nothing is hit
by a sweep or a trace. -/
def StandingScene : FScene :=
  { VoidScene with
    Velocity := { X := 0, Y := 0, Z := 0 }
    bIsFalling := false }

/-- The hit of the standability sweep on the surface of `PlateauScene`, of
`DropScene` and of `OverhangScene`, 15 units behind the wall face. -/
def SurfaceMantleHit : FTraceHit :=
  { bBlockingHit := true
    Location := { X := 55, Y := 0, Z := 130 }
    ImpactPoint := { X := 55, Y := 0, Z := 130 }
    ImpactNormal := { X := 0, Y := 0, Z := 1 } }

/-- The idle walking character in the air at height 100, facing along `X`. -/
def AirborneWorld : World :=
  { IdleWorld 10 30 50 with
    Character := { IdleCharacter with
      ActorTransform := { OriginTransform with Location := { X := 0, Y := 0, Z := 100 } } } }

/-- The character of `AirborneWorld` with a staircase scan of trace amount 5. -/
def LongScanWorld : World :=
  { AirborneWorld with
    Character := { AirborneWorld.Character with VaultTraceAmount := 5 } }

/-- A walking character who has just landed with a slide asked for in the air and
who wants to aim. -/
def LandingWorld : World :=
  { IdleWorld 10 30 50 with
    Character := { IdleCharacter with
      bHoldingCrouch := true
      bWantsToSlide := true
      bWantsToAim := true } }

/-- A vault timeline whose curve is the identity on a length of 1. -/
def LinearVaultTimeline : FVaultTimelineData :=
  { VaultTimelineCurve := some (fun Position => Position), Length := 1 }

/-! ## Auxiliary facts -/

theorem TMapFind_TMapSet (m : List (EAmmoType × Int)) (Key : EAmmoType) (Val : Int) :
    TMapFind (TMapSet m Key Val) Key = some Val := by
  induction m with
  | nil => simp [TMapSet, TMapFind]
  | cons p m ih =>
    obtain ⟨k, v⟩ := p
    by_cases h : k = Key
    · simp [TMapSet, TMapFind, h]
    · simp [TMapSet, TMapFind, h, ih]

/-- What `UpdateAmmo` does to the clip and to the pool when the pool exists. -/
theorem UpdateAmmo_of_find (wd : FStaticWeaponData) (w : World) (Ammo : Int)
    (h : TMapFind w.AmmoMap w.Weapon.GeneralWeaponData.AmmoType = some Ammo) :
    ∃ w', AWeapon.UpdateAmmo wd w = some w' ∧
      w'.Weapon.GeneralWeaponData.ClipCapacity = w.Weapon.GeneralWeaponData.ClipCapacity ∧
      w'.Weapon.GeneralWeaponData.AmmoType = w.Weapon.GeneralWeaponData.AmmoType ∧
      w'.Weapon.GeneralWeaponData.ClipSize =
        (if Ammo ≥ w.Weapon.GeneralWeaponData.ClipCapacity - w.Weapon.GeneralWeaponData.ClipSize
              + UpdateAmmoValue wd w
          then w.Weapon.GeneralWeaponData.ClipCapacity + UpdateAmmoValue wd w
          else w.Weapon.GeneralWeaponData.ClipSize + Ammo) ∧
      TMapFind w'.AmmoMap w.Weapon.GeneralWeaponData.AmmoType =
        some (if Ammo ≥ w.Weapon.GeneralWeaponData.ClipCapacity
                  - w.Weapon.GeneralWeaponData.ClipSize + UpdateAmmoValue wd w
          then Ammo - (w.Weapon.GeneralWeaponData.ClipCapacity
                  - w.Weapon.GeneralWeaponData.ClipSize + UpdateAmmoValue wd w)
          else 0) := by
  unfold AWeapon.UpdateAmmo
  simp only [h]
  refine ⟨_, rfl, ?_, ?_, ?_, ?_⟩
  · split_ifs <;> rfl
  · split_ifs <;> rfl
  · unfold UpdateAmmoValue
    split_ifs <;> rfl
  · unfold UpdateAmmoValue
    split_ifs <;> simp [AWeapon.EnableFire, TMapFind_TMapSet]

/-- The chamber bonus of `UpdateAmmo` is the one the specification words. -/
theorem UpdateAmmoValue_eq (wd : FStaticWeaponData) (w : World) :
    UpdateAmmoValue wd w =
      (if wd.bCanBeChambered = true ∧ w.Weapon.GeneralWeaponData.ClipSize ≥ 1 then 1 else 0) := by
  unfold UpdateAmmoValue
  by_cases hc : wd.bCanBeChambered = true <;>
    by_cases hz : w.Weapon.GeneralWeaponData.ClipSize > 0
  · have : w.Weapon.GeneralWeaponData.ClipSize ≥ 1 := by omega
    simp [hc, hz, this]
  · have : ¬ w.Weapon.GeneralWeaponData.ClipSize ≥ 1 := by omega
    simp [hc, hz, this]
  · simp [hc]
  · simp [hc]

theorem UpdateAmmoValue_bounds (wd : FStaticWeaponData) (w : World) :
    0 ≤ UpdateAmmoValue wd w ∧ UpdateAmmoValue wd w ≤ chamberAllowance wd ∧
      (w.Weapon.GeneralWeaponData.ClipSize ≤ 0 → UpdateAmmoValue wd w = 0) := by
  unfold UpdateAmmoValue chamberAllowance
  by_cases hc : wd.bCanBeChambered = true <;>
    by_cases hz : w.Weapon.GeneralWeaponData.ClipSize > 0 <;>
    simp [hc, hz]

theorem ShotFrame.refl (a : AWeapon) : ShotFrame a a :=
  ⟨a.ShotsFired, a.bCanFire, a.AnimationWaitDelay, a.FinalDamage, rfl⟩

theorem ShotFrame.trans {a b c : AWeapon} (hab : ShotFrame a b) (hbc : ShotFrame b c) :
    ShotFrame a c := by
  obtain ⟨s1, c1, d1, f1, rfl⟩ := hab
  obtain ⟨s2, c2, d2, f2, rfl⟩ := hbc
  exact ⟨s2, c2, d2, f2, rfl⟩

theorem Recoil_Weapon (wd : FStaticWeaponData) (w : World) :
    (AWeapon.Recoil wd w).Weapon = { w.Weapon with ShotsFired := w.Weapon.ShotsFired + 1 } := by
  unfold AWeapon.Recoil
  split
  · split_ifs <;> rfl
  · rfl

theorem Recoil_AmmoMap (wd : FStaticWeaponData) (w : World) :
    (AWeapon.Recoil wd w).AmmoMap = w.AmmoMap := by
  unfold AWeapon.Recoil
  split
  · split_ifs <;> rfl
  · rfl

theorem FireShot_frame (wd : FStaticWeaponData) (Hit : Option FHitResult) (w : World) :
    ShotFrame w.Weapon (AWeapon.FireShot wd Hit w).Weapon := by
  unfold AWeapon.FireShot
  cases wd.Gun_Shot <;> cases Hit <;> simp only [World.emit, Recoil_Weapon] <;>
    (try split_ifs) <;> exact ⟨_, _, _, _, rfl⟩

theorem FireShot_AmmoMap (wd : FStaticWeaponData) (Hit : Option FHitResult) (w : World) :
    (AWeapon.FireShot wd Hit w).AmmoMap = w.AmmoMap := by
  unfold AWeapon.FireShot
  cases wd.Gun_Shot <;> cases Hit <;> simp only [World.emit] <;> (try split_ifs) <;>
    simp only [Recoil_AmmoMap]

theorem FireShot_bCanFire (wd : FStaticWeaponData) (Hit : Option FHitResult) (w : World) :
    (AWeapon.FireShot wd Hit w).Weapon.bCanFire
      = (w.Weapon.bCanFire && !(wd.Gun_Shot.isSome && wd.bWaitForAnim)) := by
  unfold AWeapon.FireShot
  cases wd.Gun_Shot <;> cases Hit <;> cases wd.bWaitForAnim <;>
    simp [World.emit, Recoil_Weapon] <;> split_ifs <;> rfl

theorem FireShots_frame (wd : FStaticWeaponData) (LineTrace : Nat → Option FHitResult)
    (i n : Nat) (w : World) :
    ShotFrame w.Weapon (AWeapon.FireShots wd LineTrace i n w).Weapon := by
  induction n generalizing i w with
  | zero => exact ShotFrame.refl _
  | succ n ih => exact (FireShot_frame wd (LineTrace i) w).trans (ih (i + 1) _)

theorem FireShots_AmmoMap (wd : FStaticWeaponData) (LineTrace : Nat → Option FHitResult)
    (i n : Nat) (w : World) :
    (AWeapon.FireShots wd LineTrace i n w).AmmoMap = w.AmmoMap := by
  induction n generalizing i w with
  | zero => rfl
  | succ n ih => simp only [AWeapon.FireShots, ih, FireShot_AmmoMap]

theorem FireShots_bCanFire (wd : FStaticWeaponData) (LineTrace : Nat → Option FHitResult)
    (i n : Nat) (w : World) :
    (AWeapon.FireShots wd LineTrace i n w).Weapon.bCanFire
      = (w.Weapon.bCanFire && !(decide (0 < n) && wd.Gun_Shot.isSome && wd.bWaitForAnim)) := by
  induction n generalizing i w with
  | zero => simp [AWeapon.FireShots]
  | succ n ih =>
    simp only [AWeapon.FireShots, ih, FireShot_bCanFire]
    cases w.Weapon.bCanFire <;> cases wd.Gun_Shot.isSome <;> cases wd.bWaitForAnim <;> simp

/-- `RecoilRecovery` writes the recovery timeline only. -/
theorem RecoilRecovery_eq (w : World) :
    ∃ t : FTimeline,
      AWeapon.RecoilRecovery w = { w with Weapon := { w.Weapon with RecoilRecoveryTimeline := t } } := by
  unfold AWeapon.RecoilRecovery
  split_ifs
  · exact ⟨_, rfl⟩
  · exact ⟨w.Weapon.RecoilRecoveryTimeline, rfl⟩

/-- What a discharge leaves behind: the weapon after the projectile loop, with
the recoil timelines possibly stopped, the recovery timeline possibly restarted
and `bHasFiredRecently` set; the log of the loop followed by muzzle flash, firing
sound and casing. -/
theorem Fire_of_guard (wd : FStaticWeaponData) (LineTrace : Nat → Option FHitResult)
    (w : World) (h : FireGuard w) :
    ∃ tv th tr : FTimeline,
      AWeapon.Fire wd LineTrace w =
        { AfterShots wd LineTrace w with
          Weapon := { (AfterShots wd LineTrace w).Weapon with
            VerticalRecoilTimeline := tv
            HorizontalRecoilTimeline := th
            RecoilRecoveryTimeline := tr
            bHasFiredRecently := true }
          Log := (AfterShots wd LineTrace w).Log ++
            [.SpawnMuzzleFlash,
             .PlaySound (if wd.bSilenced then .SilencedSound else .FireSound),
             .SpawnEjectedCasing] } := by
  have hg : (w.Weapon.bCanFire && w.Weapon.bIsWeaponReadyToFire
      && decide (w.Weapon.GeneralWeaponData.ClipSize > 0) && !w.Weapon.bIsReloading) = true := by
    obtain ⟨h1, h2, h3, h4⟩ := h
    simp [h1, h2, h3, h4]
  unfold AWeapon.Fire
  rw [if_pos hg]
  cases ha : wd.bAutomaticFire
  · by_cases hr : w.Weapon.bShouldRecover = true
    · refine ⟨(AfterShots wd LineTrace w).Weapon.VerticalRecoilTimeline.Stop,
        (AfterShots wd LineTrace w).Weapon.HorizontalRecoilTimeline.Stop,
        (AfterShots wd LineTrace w).Weapon.RecoilRecoveryTimeline.PlayFromStart, ?_⟩
      have hr2 : (AfterShots wd LineTrace w).Weapon.bShouldRecover = true := by
        obtain ⟨_, _, _, _, hf⟩ := FireShots_frame wd LineTrace 0 (NumberOfShots wd).toNat
          { w with Weapon := { w.Weapon with GeneralWeaponData :=
            { w.Weapon.GeneralWeaponData with
              ClipSize := w.Weapon.GeneralWeaponData.ClipSize - 1 } } }
        unfold AfterShots
        rw [hf]
        exact hr
      simp only [AfterShots, NumberOfShots] at hr2 ⊢
      simp [AWeapon.RecoilRecovery, World.emit, hr2, FTimeline.Stop]
    · refine ⟨(AfterShots wd LineTrace w).Weapon.VerticalRecoilTimeline.Stop,
        (AfterShots wd LineTrace w).Weapon.HorizontalRecoilTimeline.Stop,
        (AfterShots wd LineTrace w).Weapon.RecoilRecoveryTimeline, ?_⟩
      have hr2 : (AfterShots wd LineTrace w).Weapon.bShouldRecover = false := by
        obtain ⟨_, _, _, _, hf⟩ := FireShots_frame wd LineTrace 0 (NumberOfShots wd).toNat
          { w with Weapon := { w.Weapon with GeneralWeaponData :=
            { w.Weapon.GeneralWeaponData with
              ClipSize := w.Weapon.GeneralWeaponData.ClipSize - 1 } } }
        unfold AfterShots
        rw [hf]
        simpa using hr
      simp only [AfterShots, NumberOfShots] at hr2 ⊢
      simp [AWeapon.RecoilRecovery, World.emit, hr2, FTimeline.Stop]
  · refine ⟨(AfterShots wd LineTrace w).Weapon.VerticalRecoilTimeline,
      (AfterShots wd LineTrace w).Weapon.HorizontalRecoilTimeline,
      (AfterShots wd LineTrace w).Weapon.RecoilRecoveryTimeline, ?_⟩
    simp [AfterShots, NumberOfShots, World.emit]

/-- When its first guard fails, `Fire` either takes the second branch or does
nothing. -/
theorem Fire_of_not_guard (wd : FStaticWeaponData) (LineTrace : Nat → Option FHitResult)
    (w : World) (h : ¬ FireGuard w) :
    AWeapon.Fire wd LineTrace w =
      if w.Weapon.bCanFire = true ∧ w.Weapon.bIsReloading = false then
        AWeapon.RecoilRecovery { w with
          Weapon := { w.Weapon with ShotDelay := none }
          Log := w.Log ++ [.PlaySound .EmptyFireSound] }
      else w := by
  have hg : (w.Weapon.bCanFire && w.Weapon.bIsWeaponReadyToFire
      && decide (w.Weapon.GeneralWeaponData.ClipSize > 0) && !w.Weapon.bIsReloading) = false := by
    unfold FireGuard at h
    cases hc : w.Weapon.bCanFire <;> cases hr : w.Weapon.bIsWeaponReadyToFire <;>
      cases hl : w.Weapon.bIsReloading <;> simp_all
  unfold AWeapon.Fire
  rw [if_neg (by simp [hg])]
  by_cases h2 : w.Weapon.bCanFire = true ∧ w.Weapon.bIsReloading = false
  · rw [if_pos h2, if_pos (by simp [h2.1, h2.2])]
    rfl
  · rw [if_neg h2, if_neg]
    intro hc
    apply h2
    cases hb : w.Weapon.bCanFire <;> cases hl : w.Weapon.bIsReloading <;> simp_all

theorem FireShot_ShotsFired (wd : FStaticWeaponData) (Hit : Option FHitResult) (w : World) :
    (AWeapon.FireShot wd Hit w).Weapon.ShotsFired = w.Weapon.ShotsFired + 1 := by
  unfold AWeapon.FireShot
  cases wd.Gun_Shot <;> cases Hit <;> simp only [World.emit, Recoil_Weapon] <;>
    (try split_ifs) <;> rfl

theorem FireShots_ShotsFired (wd : FStaticWeaponData) (LineTrace : Nat → Option FHitResult)
    (i n : Nat) (w : World) :
    (AWeapon.FireShots wd LineTrace i n w).Weapon.ShotsFired = w.Weapon.ShotsFired + n := by
  induction n generalizing i w with
  | zero => simp [AWeapon.FireShots]
  | succ n ih =>
    simp only [AWeapon.FireShots, ih, FireShot_ShotsFired]
    push_cast
    ring

/-- The members of the weapon after a discharge, in terms of the state before. -/
theorem Fire_guard_summary (wd : FStaticWeaponData) (LineTrace : Nat → Option FHitResult)
    (w : World) (h : FireGuard w) :
    (AWeapon.Fire wd LineTrace w).Weapon.GeneralWeaponData =
        { w.Weapon.GeneralWeaponData with ClipSize := w.Weapon.GeneralWeaponData.ClipSize - 1 } ∧
      (AWeapon.Fire wd LineTrace w).Weapon.bHasFiredRecently = true ∧
      (AWeapon.Fire wd LineTrace w).Weapon.bIsReloading = false ∧
      (AWeapon.Fire wd LineTrace w).Weapon.bIsWeaponReadyToFire = true ∧
      ((AWeapon.Fire wd LineTrace w).Weapon.bCanFire = true ↔ ¬ FireSuspends wd) ∧
      (AWeapon.Fire wd LineTrace w).Weapon.ShotDelay = w.Weapon.ShotDelay ∧
      (AWeapon.Fire wd LineTrace w).Weapon.ShotsFired
        = w.Weapon.ShotsFired + ((NumberOfShots wd).toNat : Int) ∧
      (AWeapon.Fire wd LineTrace w).AmmoMap = w.AmmoMap ∧
      EWeaponEffect.PlaySound (if wd.bSilenced then .SilencedSound else .FireSound)
        ∈ (AWeapon.Fire wd LineTrace w).Log := by
  obtain ⟨tv, th, tr, hF⟩ := Fire_of_guard wd LineTrace w h
  obtain ⟨sf, cf, dl, fd, hA⟩ := FireShots_frame wd LineTrace 0 (NumberOfShots wd).toNat
    { w with Weapon := { w.Weapon with GeneralWeaponData :=
      { w.Weapon.GeneralWeaponData with ClipSize := w.Weapon.GeneralWeaponData.ClipSize - 1 } } }
  have hC := FireShots_bCanFire wd LineTrace 0 (NumberOfShots wd).toNat
    { w with Weapon := { w.Weapon with GeneralWeaponData :=
      { w.Weapon.GeneralWeaponData with ClipSize := w.Weapon.GeneralWeaponData.ClipSize - 1 } } }
  have hS := FireShots_ShotsFired wd LineTrace 0 (NumberOfShots wd).toNat
    { w with Weapon := { w.Weapon with GeneralWeaponData :=
      { w.Weapon.GeneralWeaponData with ClipSize := w.Weapon.GeneralWeaponData.ClipSize - 1 } } }
  have hM := FireShots_AmmoMap wd LineTrace 0 (NumberOfShots wd).toNat
    { w with Weapon := { w.Weapon with GeneralWeaponData :=
      { w.Weapon.GeneralWeaponData with ClipSize := w.Weapon.GeneralWeaponData.ClipSize - 1 } } }
  obtain ⟨h1, h2, h3, h4⟩ := h
  rw [hF]
  refine ⟨?_, rfl, ?_, ?_, ?_, ?_, ?_, ?_, ?_⟩
  · show (AfterShots wd LineTrace w).Weapon.GeneralWeaponData = _
    unfold AfterShots
    rw [hA]
  · show (AfterShots wd LineTrace w).Weapon.bIsReloading = _
    unfold AfterShots
    rw [hA]
    exact h4
  · show (AfterShots wd LineTrace w).Weapon.bIsWeaponReadyToFire = _
    unfold AfterShots
    rw [hA]
    exact h2
  · show (AfterShots wd LineTrace w).Weapon.bCanFire = true ↔ _
    unfold AfterShots
    rw [hC]
    unfold FireSuspends
    have hn : 0 < (NumberOfShots wd).toNat ↔ 0 < NumberOfShots wd := by omega
    simp only [h1, Bool.true_and, Bool.not_eq_true', Bool.and_eq_false_imp, Bool.and_eq_true,
      decide_eq_true_eq, hn]
    constructor
    · rintro hx ⟨ha, hb, hc⟩
      have := hx ⟨hc, ha⟩
      simp [hb] at this
    · rintro hx ⟨hc, ha⟩
      by_contra hb
      exact hx ⟨ha, by simpa using hb, hc⟩
  · show (AfterShots wd LineTrace w).Weapon.ShotDelay = _
    unfold AfterShots
    rw [hA]
  · show (AfterShots wd LineTrace w).Weapon.ShotsFired = _
    unfold AfterShots
    rw [hS]
  · show (AfterShots wd LineTrace w).AmmoMap = _
    unfold AfterShots
    rw [hM]
  · simp

/-- The members of the weapon after a call of `Fire` whose first guard fails. -/
theorem Fire_not_guard_summary (wd : FStaticWeaponData) (LineTrace : Nat → Option FHitResult)
    (w : World) (h : ¬ FireGuard w) :
    (AWeapon.Fire wd LineTrace w).Weapon.GeneralWeaponData = w.Weapon.GeneralWeaponData ∧
      (AWeapon.Fire wd LineTrace w).Weapon.bHasFiredRecently = w.Weapon.bHasFiredRecently ∧
      (AWeapon.Fire wd LineTrace w).AmmoMap = w.AmmoMap := by
  rw [Fire_of_not_guard wd LineTrace w h]
  split_ifs
  · obtain ⟨t, ht⟩ := RecoilRecovery_eq { w with
      Weapon := { w.Weapon with ShotDelay := none }
      Log := w.Log ++ [.PlaySound .EmptyFireSound] }
    rw [ht]
    exact ⟨rfl, rfl, rfl⟩
  · exact ⟨rfl, rfl, rfl⟩

/-- When `ReloadGuard` holds, `Reload` returns true, clears `bCanFire`, sets
`bIsReloading`, arms `ReloadingDelay` with `UpdateAmmo` for the chosen animation
time, and changes nothing else but `AnimTime` and the log. -/
theorem Reload_of_guard (wd : FStaticWeaponData) (w : World) (h : ReloadGuard wd w) :
    ∃ (t : ℚ) (l : List EWeaponEffect),
      AWeapon.Reload wd w = (true, { w with
        Weapon := { w.Weapon with
          AnimTime := t
          bCanFire := false
          bIsReloading := true
          ReloadingDelay := SetTimer .UpdateAmmo t false t }
        Log := w.Log ++ l }) := by
  obtain ⟨h1, ⟨pool, hf, hp⟩, h3, h4⟩ := h
  have hcond : (!w.Weapon.bIsReloading && decide (pool > 0)
      && decide (w.Weapon.GeneralWeaponData.ClipSize
        ≠ w.Weapon.GeneralWeaponData.ClipCapacity + (if wd.bCanBeChambered then 1 else 0)))
      = true := by
    unfold chamberAllowance at h4
    simp [h3, hp, h4]
  unfold AWeapon.Reload
  rw [if_neg (by simp [h1])]
  simp only [hf]
  rw [if_pos hcond]
  split
  · rename_i Montage _ _
    exact ⟨Montage.PlayLength,
      [.PlayAnimation wd.bHasAttachments .EmptyWeaponReload, .MontagePlay .EmptyPlayerReload],
      by simp [World.emit]⟩
  · rename_i Montage _ _
    exact ⟨Montage.PlayLength,
      [.PlayAnimation wd.bHasAttachments .WeaponReload, .MontagePlay .PlayerReload],
      by simp [World.emit]⟩
  · exact ⟨2, [], by simp⟩

/-- When `ReloadGuard` fails, `Reload` changes nothing and returns `bCanReload`. -/
theorem Reload_of_not_guard (wd : FStaticWeaponData) (w : World) (h : ¬ ReloadGuard wd w) :
    AWeapon.Reload wd w = (w.Weapon.bCanReload, w) := by
  unfold AWeapon.Reload
  by_cases h1 : w.Weapon.bCanReload = true
  · rw [if_neg (by simp [h1])]
    cases hf : TMapFind w.AmmoMap w.Weapon.GeneralWeaponData.AmmoType with
    | none => simp [h1]
    | some pool =>
      simp only []
      rw [if_neg, h1]
      intro hc
      apply h
      simp only [Bool.and_eq_true, Bool.not_eq_true', decide_eq_true_eq] at hc
      exact ⟨h1, ⟨pool, hf, hc.1.2⟩, hc.1.1, hc.2⟩
  · simp only [Bool.not_eq_true] at h1
    simp [h1]

/-! ## Reload-complete: ammunition arithmetic -/

/-- C1. Reload-complete (`AWeapon::UpdateAmmo`) equals the reference definition:
whenever the ammo map holds a pool count for the weapon's ammo type, the call
returns, and the new clip size and the new pool count are the two components of
`reloadCompleteRef` applied to the chamberable flag, the old clip size, the clip
capacity and the old pool count. -/
theorem C1_UpdateAmmo_eq_reloadCompleteRef (wd : FStaticWeaponData) (w : World) (pool : Int)
    (h : TMapFind w.AmmoMap w.Weapon.GeneralWeaponData.AmmoType = some pool) :
    ∃ w', AWeapon.UpdateAmmo wd w = some w' ∧
      w'.Weapon.GeneralWeaponData.ClipSize =
        (reloadCompleteRef wd.bCanBeChambered w.Weapon.GeneralWeaponData.ClipSize
          w.Weapon.GeneralWeaponData.ClipCapacity pool).1 ∧
      TMapFind w'.AmmoMap w'.Weapon.GeneralWeaponData.AmmoType =
        some (reloadCompleteRef wd.bCanBeChambered w.Weapon.GeneralWeaponData.ClipSize
          w.Weapon.GeneralWeaponData.ClipCapacity pool).2 := by
  obtain ⟨w', hw', _, hty, hclip, hpool⟩ := UpdateAmmo_of_find wd w pool h
  refine ⟨w', hw', ?_, ?_⟩
  · rw [hclip, UpdateAmmoValue_eq]
    simp only [reloadCompleteRef]
    split_ifs <;> rfl
  · rw [hty, hpool, UpdateAmmoValue_eq]
    simp only [reloadCompleteRef]
    split_ifs <;> rfl

/-- Witness for C1: capacity 30, clip 0, chamberable, pool 20 gives clip 20 and
pool 0. -/
theorem C1_witness :
    ∃ w', AWeapon.UpdateAmmo ChamberableWeaponData (IdleWorld 0 30 20) = some w' ∧
      w'.Weapon.GeneralWeaponData.ClipSize = 20 ∧
      TMapFind w'.AmmoMap w'.Weapon.GeneralWeaponData.AmmoType = some 0 :=
  C1_UpdateAmmo_eq_reloadCompleteRef ChamberableWeaponData (IdleWorld 0 30 20) 20 (by decide)

/-- C2 (as stated, refuted). For the chamberable weapon with capacity 30, empty
clip and a pool of 100, reload-complete does not yield clip 31 and pool 69. -/
theorem C2_counterexample :
    (AWeapon.UpdateAmmo ChamberableWeaponData (IdleWorld 0 30 100)).map
        (fun w' => (w'.Weapon.GeneralWeaponData.ClipSize,
          TMapFind w'.AmmoMap w'.Weapon.GeneralWeaponData.AmmoType))
      ≠ some (31, some 69) := by
  decide

/-- C2 (amended). For the chamberable weapon with capacity 30, empty clip and a
pool of 100, reload-complete yields clip 30 and pool 70: an empty clip earns no
chamber bonus. -/
theorem C2_UpdateAmmo_empty_clip_scenario :
    (AWeapon.UpdateAmmo ChamberableWeaponData (IdleWorld 0 30 100)).map
        (fun w' => (w'.Weapon.GeneralWeaponData.ClipSize,
          TMapFind w'.AmmoMap w'.Weapon.GeneralWeaponData.AmmoType))
      = some (30, some 70) := by
  decide

/-! ## Clip bound and pool sign -/

/-- C3. Clip bound invariant: from every state with non-negative capacity, a
non-negative pool for the weapon's ammo type and `0 ≤ ClipSize ≤ ClipCapacity + c`
(`c` = 1 for a chamberable weapon, else 0), each of fire, reload and
reload-complete leaves the clip size within `[0, ClipCapacity + c]`
(and reload-complete returns). -/
theorem C3_clip_bound_invariant (wd : FStaticWeaponData) (LineTrace : Nat → Option FHitResult)
    (w : World) (pool : Int)
    (hcap : 0 ≤ w.Weapon.GeneralWeaponData.ClipCapacity)
    (hfind : TMapFind w.AmmoMap w.Weapon.GeneralWeaponData.AmmoType = some pool)
    (hpool : 0 ≤ pool)
    (hclip : ClipWithinBounds wd w) :
    ClipWithinBounds wd (AWeapon.Fire wd LineTrace w) ∧
      ClipWithinBounds wd (AWeapon.Reload wd w).2 ∧
      ∃ w', AWeapon.UpdateAmmo wd w = some w' ∧ ClipWithinBounds wd w' := by
  obtain ⟨hlo, hhi⟩ := hclip
  refine ⟨?_, ?_, ?_⟩
  · by_cases hg : FireGuard w
    · have hG := (Fire_guard_summary wd LineTrace w hg).1
      obtain ⟨_, _, hpos, _⟩ := hg
      unfold ClipWithinBounds
      rw [hG]
      constructor
      · show 0 ≤ w.Weapon.GeneralWeaponData.ClipSize - 1
        omega
      · show w.Weapon.GeneralWeaponData.ClipSize - 1 ≤ _
        show _ ≤ w.Weapon.GeneralWeaponData.ClipCapacity + chamberAllowance wd
        omega
    · have hG := (Fire_not_guard_summary wd LineTrace w hg).1
      unfold ClipWithinBounds
      rw [hG]
      exact ⟨hlo, hhi⟩
  · by_cases hg : ReloadGuard wd w
    · obtain ⟨t, l, hR⟩ := Reload_of_guard wd w hg
      rw [hR]
      exact ⟨hlo, hhi⟩
    · rw [Reload_of_not_guard wd w hg]
      exact ⟨hlo, hhi⟩
  · obtain ⟨w', hw', hc, _, hs, _⟩ := UpdateAmmo_of_find wd w pool hfind
    obtain ⟨hv0, hv1, hvz⟩ := UpdateAmmoValue_bounds wd w
    refine ⟨w', hw', ?_⟩
    unfold ClipWithinBounds
    rw [hs, hc]
    split_ifs with hge
    · constructor <;> omega
    · constructor <;> omega

/-- Witness for C3: a chamberable weapon with 10 of 30 rounds in the clip and a
pool of 50. -/
theorem C3_witness :
    (0 ≤ (IdleWorld 10 30 50).Weapon.GeneralWeaponData.ClipCapacity ∧
      ClipWithinBounds ChamberableWeaponData (IdleWorld 10 30 50)) ∧
    (ClipWithinBounds ChamberableWeaponData
        (AWeapon.Fire ChamberableWeaponData NoHit (IdleWorld 10 30 50)) ∧
      ClipWithinBounds ChamberableWeaponData
        (AWeapon.Reload ChamberableWeaponData (IdleWorld 10 30 50)).2 ∧
      ∃ w', AWeapon.UpdateAmmo ChamberableWeaponData (IdleWorld 10 30 50) = some w' ∧
        ClipWithinBounds ChamberableWeaponData w') :=
  ⟨⟨by decide, by decide⟩,
    C3_clip_bound_invariant ChamberableWeaponData NoHit (IdleWorld 10 30 50) 50
      (by decide) (by decide) (by decide) (by decide)⟩

/-- C4. Reload-complete never drives the ammo pool negative: if the pool count
for the weapon's ammo type is non-negative, the call returns and the pool count
afterwards is non-negative.  (The proof does not use the sign of the old count:
the new count is either zero or the old count minus at most itself.) -/
theorem C4_UpdateAmmo_pool_nonneg (wd : FStaticWeaponData) (w : World) (pool : Int)
    (hfind : TMapFind w.AmmoMap w.Weapon.GeneralWeaponData.AmmoType = some pool)
    (_hpool : 0 ≤ pool) :
    ∃ w' pool', AWeapon.UpdateAmmo wd w = some w' ∧
      TMapFind w'.AmmoMap w'.Weapon.GeneralWeaponData.AmmoType = some pool' ∧ 0 ≤ pool' := by
  obtain ⟨w', hw', _, hty, _, hp⟩ := UpdateAmmo_of_find wd w pool hfind
  refine ⟨w', _, hw', by rw [hty]; exact hp, ?_⟩
  split_ifs with hge
  · omega
  · exact le_refl 0

/-- Witness for C4: a pool of 20 for an empty 30-round clip. -/
theorem C4_witness :
    0 ≤ (20 : Int) ∧
    ∃ w' pool', AWeapon.UpdateAmmo BasicWeaponData (IdleWorld 0 30 20) = some w' ∧
      TMapFind w'.AmmoMap w'.Weapon.GeneralWeaponData.AmmoType = some pool' ∧ 0 ≤ pool' :=
  ⟨by decide, C4_UpdateAmmo_pool_nonneg BasicWeaponData (IdleWorld 0 30 20) 20 (by decide)
    (by decide)⟩

/-! ## Reload -/

/-- C5. `Reload` begins a reload if and only if `bCanReload` holds, the ammo map
has an entry for the weapon's ammo type with a positive count, the weapon is not
already reloading, and the clip size differs from `ClipCapacity + c` (`c` = 1 for
a chamberable weapon, else 0).  When it begins, `bIsReloading` is true, `bCanFire`
is false and the completion timer `ReloadingDelay` is armed with `UpdateAmmo`,
one-shot, for the animation time; when it does not, the state is unchanged. -/
theorem C5_Reload_begins_iff_guard (wd : FStaticWeaponData) (w : World) :
    (BeginsReload w (AWeapon.Reload wd w).2 ↔ ReloadGuard wd w) ∧
      (ReloadGuard wd w →
        (AWeapon.Reload wd w).2.Weapon.bIsReloading = true ∧
        (AWeapon.Reload wd w).2.Weapon.bCanFire = false ∧
        (AWeapon.Reload wd w).2.Weapon.ReloadingDelay =
          some { Callback := .UpdateAmmo
                 Rate := (AWeapon.Reload wd w).2.Weapon.AnimTime
                 bLoop := false
                 FirstDelay := (AWeapon.Reload wd w).2.Weapon.AnimTime }) ∧
      (¬ ReloadGuard wd w → (AWeapon.Reload wd w).2 = w) := by
  have hyes : ReloadGuard wd w →
      (AWeapon.Reload wd w).2.Weapon.bIsReloading = true ∧
      (AWeapon.Reload wd w).2.Weapon.bCanFire = false ∧
      (AWeapon.Reload wd w).2.Weapon.ReloadingDelay =
        some { Callback := .UpdateAmmo
               Rate := (AWeapon.Reload wd w).2.Weapon.AnimTime
               bLoop := false
               FirstDelay := (AWeapon.Reload wd w).2.Weapon.AnimTime } := by
    intro hg
    obtain ⟨t, l, hR⟩ := Reload_of_guard wd w hg
    rw [hR]
    exact ⟨rfl, rfl, rfl⟩
  have hno : ¬ ReloadGuard wd w → (AWeapon.Reload wd w).2 = w := by
    intro hg
    rw [Reload_of_not_guard wd w hg]
  refine ⟨⟨?_, ?_⟩, hyes, hno⟩
  · rintro ⟨hb, ha⟩
    by_contra hg
    rw [hno hg, hb] at ha
    exact Bool.false_ne_true ha
  · intro hg
    exact ⟨hg.2.2.1, (hyes hg).1⟩

/-- Witness for C5: a reload begins for 10 of 30 rounds with a pool of 50, and
does not begin for a full clip. -/
theorem C5_witness :
    (ReloadGuard BasicWeaponData (IdleWorld 10 30 50) ∧
      ¬ ReloadGuard BasicWeaponData (IdleWorld 30 30 50)) ∧
    (BeginsReload (IdleWorld 10 30 50) (AWeapon.Reload BasicWeaponData (IdleWorld 10 30 50)).2 ∧
      (AWeapon.Reload BasicWeaponData (IdleWorld 10 30 50)).2.Weapon.bCanFire = false ∧
      (AWeapon.Reload BasicWeaponData (IdleWorld 30 30 50)).2 = IdleWorld 30 30 50) :=
  have hg : ReloadGuard BasicWeaponData (IdleWorld 10 30 50) :=
    ⟨rfl, ⟨50, rfl, by decide⟩, rfl, by decide⟩
  have hn : ¬ ReloadGuard BasicWeaponData (IdleWorld 30 30 50) := fun h => h.2.2.2 (by decide)
  ⟨⟨hg, hn⟩,
    (C5_Reload_begins_iff_guard BasicWeaponData (IdleWorld 10 30 50)).1.2 hg,
    ((C5_Reload_begins_iff_guard BasicWeaponData (IdleWorld 10 30 50)).2.1 hg).2.1,
    (C5_Reload_begins_iff_guard BasicWeaponData (IdleWorld 30 30 50)).2.2 hn⟩

/-- C6. `Reload` returns false exactly when `bCanReload` is false; when
`bCanReload` is true and the weapon is already reloading, or the pool for its
ammo type is empty (no entry, or a count that is not positive), or the clip size
already equals `ClipCapacity + c`, it returns true and leaves the whole state
(clip size, ammo pool, `bCanFire`, `bIsReloading`, all timers) unchanged. -/
theorem C6_Reload_refusals (wd : FStaticWeaponData) (w : World) :
    ((AWeapon.Reload wd w).1 = false ↔ w.Weapon.bCanReload = false) ∧
      (w.Weapon.bCanReload = true →
        (w.Weapon.bIsReloading = true ∨
          (∀ pool, TMapFind w.AmmoMap w.Weapon.GeneralWeaponData.AmmoType = some pool → pool ≤ 0) ∨
          w.Weapon.GeneralWeaponData.ClipSize
            = w.Weapon.GeneralWeaponData.ClipCapacity + chamberAllowance wd) →
        AWeapon.Reload wd w = (true, w)) := by
  constructor
  · by_cases hg : ReloadGuard wd w
    · obtain ⟨t, l, hR⟩ := Reload_of_guard wd w hg
      rw [hR, hg.1]
    · rw [Reload_of_not_guard wd w hg]
  · intro hc hcase
    have hg : ¬ ReloadGuard wd w := by
      rintro ⟨_, ⟨pool, hf, hp⟩, hr, hne⟩
      rcases hcase with h | h | h
      · rw [hr] at h
        exact Bool.false_ne_true h
      · have := h pool hf
        omega
      · exact hne h
    rw [Reload_of_not_guard wd w hg, hc]

/-- Witness for C6: reloading is refused, with success, for a weapon that is
already reloading. -/
theorem C6_witness :
    (ReloadingWorld.Weapon.bCanReload = true ∧ ReloadingWorld.Weapon.bIsReloading = true) ∧
    AWeapon.Reload BasicWeaponData ReloadingWorld = (true, ReloadingWorld) :=
  ⟨⟨rfl, rfl⟩, (C6_Reload_refusals BasicWeaponData ReloadingWorld).2 rfl (Or.inl rfl)⟩

/-! ## Fire -/

/-- C7. `Fire` discharges only under its guard: if `bCanFire`, ready to fire,
`ClipSize > 0` and not reloading, the clip size is decremented (by one) and
`bHasFiredRecently` becomes true; if any of the four fails, the clip size and
`bHasFiredRecently` are unchanged. -/
theorem C7_Fire_only_under_guard (wd : FStaticWeaponData) (LineTrace : Nat → Option FHitResult)
    (w : World) :
    (FireGuard w →
        (AWeapon.Fire wd LineTrace w).Weapon.GeneralWeaponData.ClipSize
          = w.Weapon.GeneralWeaponData.ClipSize - 1 ∧
        (AWeapon.Fire wd LineTrace w).Weapon.bHasFiredRecently = true) ∧
      (¬ FireGuard w →
        (AWeapon.Fire wd LineTrace w).Weapon.GeneralWeaponData.ClipSize
          = w.Weapon.GeneralWeaponData.ClipSize ∧
        (AWeapon.Fire wd LineTrace w).Weapon.bHasFiredRecently = w.Weapon.bHasFiredRecently) := by
  constructor
  · intro hg
    obtain ⟨hG, hF, _⟩ := Fire_guard_summary wd LineTrace w hg
    rw [hG]
    exact ⟨rfl, hF⟩
  · intro hg
    obtain ⟨hG, hF, _⟩ := Fire_not_guard_summary wd LineTrace w hg
    rw [hG]
    exact ⟨rfl, hF⟩

/-- Witness for C7: five rounds are fired down to four; an empty clip stays empty
and the fired-recently flag stays clear. -/
theorem C7_witness :
    (FireGuard (IdleWorld 5 10 0) ∧ ¬ FireGuard (IdleWorld 0 10 0)) ∧
    ((AWeapon.Fire BasicWeaponData AlwaysHit (IdleWorld 5 10 0)).Weapon.GeneralWeaponData.ClipSize
        = 5 - 1 ∧
      (AWeapon.Fire BasicWeaponData AlwaysHit (IdleWorld 5 10 0)).Weapon.bHasFiredRecently = true) ∧
    ((AWeapon.Fire BasicWeaponData AlwaysHit (IdleWorld 0 10 0)).Weapon.GeneralWeaponData.ClipSize = 0 ∧
      (AWeapon.Fire BasicWeaponData AlwaysHit (IdleWorld 0 10 0)).Weapon.bHasFiredRecently = false) :=
  ⟨⟨by decide, by decide⟩,
    (C7_Fire_only_under_guard BasicWeaponData AlwaysHit (IdleWorld 5 10 0)).1 (by decide),
    (C7_Fire_only_under_guard BasicWeaponData AlwaysHit (IdleWorld 0 10 0)).2 (by decide)⟩

/-- C8 (as stated, refuted). A shotgun with eight pellets and ten rounds in the
clip fires under its guard, and the clip size afterwards is nine, not ten minus
the shot count. -/
theorem C8_counterexample :
    FireGuard (IdleWorld 10 10 0) ∧ ShotgunWeaponData.bIsShotgun = true ∧
      (AWeapon.Fire ShotgunWeaponData NoHit (IdleWorld 10 10 0)).Weapon.GeneralWeaponData.ClipSize = 9 ∧
      (AWeapon.Fire ShotgunWeaponData NoHit (IdleWorld 10 10 0)).Weapon.GeneralWeaponData.ClipSize
        ≠ 10 - ShotgunWeaponData.ShotgunPellets := by
  decide

/-- C8 (amended). A successful fire decrements the clip size by exactly one for
every weapon, shotgun or not; the shot count is the number of projectiles of the
discharge (each of them raises `ShotsFired` by one). -/
theorem C8_Fire_decrements_clip_by_one (wd : FStaticWeaponData)
    (LineTrace : Nat → Option FHitResult) (w : World) (hg : FireGuard w) :
    (AWeapon.Fire wd LineTrace w).Weapon.GeneralWeaponData.ClipSize
        = w.Weapon.GeneralWeaponData.ClipSize - 1 ∧
      (AWeapon.Fire wd LineTrace w).Weapon.ShotsFired
        = w.Weapon.ShotsFired + (if wd.bIsShotgun then wd.ShotgunPellets else 1).toNat := by
  obtain ⟨hG, _, _, _, _, _, hS, _⟩ := Fire_guard_summary wd LineTrace w hg
  rw [hG, hS]
  exact ⟨rfl, rfl⟩

/-- Witness for C8: the eight-pellet shotgun with ten rounds. -/
theorem C8_witness :
    FireGuard (IdleWorld 10 10 0) ∧
    ((AWeapon.Fire ShotgunWeaponData AlwaysHit (IdleWorld 10 10 0)).Weapon.GeneralWeaponData.ClipSize
        = 10 - 1 ∧
      (AWeapon.Fire ShotgunWeaponData AlwaysHit (IdleWorld 10 10 0)).Weapon.ShotsFired
        = 0 + (8 : Int).toNat) :=
  ⟨by decide, C8_Fire_decrements_clip_by_one ShotgunWeaponData AlwaysHit (IdleWorld 10 10 0)
    (by decide)⟩

/-- C9 (the code at the failing input). With five rounds in the clip, `bCanFire`
true, not reloading, but the weapon not ready to fire, `Fire` takes its second
branch: the empty-fire sound is played and the cadence timer is cleared, while
the clip keeps its five rounds. -/
theorem C9_dry_fire_with_rounds_in_clip :
    NotReadyWorld.Weapon.GeneralWeaponData.ClipSize = 5 ∧
      NotReadyWorld.Weapon.bCanFire = true ∧
      NotReadyWorld.Weapon.bIsReloading = false ∧
      NotReadyWorld.Weapon.ShotDelay = some CadenceTimer ∧
      AWeapon.Fire BasicWeaponData NoHit NotReadyWorld =
        { NotReadyWorld with
          Weapon := { NotReadyWorld.Weapon with ShotDelay := none }
          Log := [.PlaySound .EmptyFireSound] } := by
  decide

/-- C10 (as stated, refuted). For a weapon that waits for its firing animation,
with one round in the clip and the cadence timer armed, the second of two
consecutive calls of `Fire` does nothing: the cadence timer is still armed and no
empty-fire sound was played. -/
theorem C10_counterexample :
    FireGuard LastRoundWorld ∧
      LastRoundWorld.Weapon.GeneralWeaponData.ClipSize = 1 ∧
      (AWeapon.Fire WaitForAnimWeaponData AlwaysHit
        (AWeapon.Fire WaitForAnimWeaponData AlwaysHit LastRoundWorld)).Weapon.ShotDelay
          = some CadenceTimer ∧
      EWeaponEffect.PlaySound .EmptyFireSound ∉
        (AWeapon.Fire WaitForAnimWeaponData AlwaysHit
          (AWeapon.Fire WaitForAnimWeaponData AlwaysHit LastRoundWorld)).Log := by
  decide

/-- C10 (amended). From every state with `bCanFire`, ready to fire, not reloading
and one round in the clip, the first of two consecutive calls of `Fire` empties
the clip and fires (firing sound, `bHasFiredRecently`).  If the discharge does
not suspend `bCanFire`, the second call takes the dry-fire branch: it clears the
cadence timer, leaves the clip empty and emits nothing but the empty-fire sound
(no damage, no hit event).  If the discharge suspends `bCanFire` (firing
animation with wait-for-animation), the second call changes nothing. -/
theorem C10_two_consecutive_fires (wd : FStaticWeaponData)
    (LineTrace1 LineTrace2 : Nat → Option FHitResult) (w : World)
    (hc : w.Weapon.bCanFire = true) (hr : w.Weapon.bIsWeaponReadyToFire = true)
    (hl : w.Weapon.bIsReloading = false) (h1 : w.Weapon.GeneralWeaponData.ClipSize = 1) :
    ((AWeapon.Fire wd LineTrace1 w).Weapon.GeneralWeaponData.ClipSize = 0 ∧
        (AWeapon.Fire wd LineTrace1 w).Weapon.bHasFiredRecently = true ∧
        EWeaponEffect.PlaySound (if wd.bSilenced then .SilencedSound else .FireSound)
          ∈ (AWeapon.Fire wd LineTrace1 w).Log) ∧
      (¬ FireSuspends wd →
        (AWeapon.Fire wd LineTrace2 (AWeapon.Fire wd LineTrace1 w)).Weapon.ShotDelay = none ∧
        (AWeapon.Fire wd LineTrace2 (AWeapon.Fire wd LineTrace1 w)).Weapon.GeneralWeaponData.ClipSize = 0 ∧
        (AWeapon.Fire wd LineTrace2 (AWeapon.Fire wd LineTrace1 w)).Log
          = (AWeapon.Fire wd LineTrace1 w).Log ++ [.PlaySound .EmptyFireSound]) ∧
      (FireSuspends wd →
        AWeapon.Fire wd LineTrace2 (AWeapon.Fire wd LineTrace1 w) = AWeapon.Fire wd LineTrace1 w) := by
  have hg : FireGuard w := ⟨hc, hr, by omega, hl⟩
  obtain ⟨hG, hF, hL, _, hC, _, _, _, hS⟩ := Fire_guard_summary wd LineTrace1 w hg
  have hz : (AWeapon.Fire wd LineTrace1 w).Weapon.GeneralWeaponData.ClipSize = 0 := by
    rw [hG]
    show w.Weapon.GeneralWeaponData.ClipSize - 1 = 0
    omega
  have hng : ¬ FireGuard (AWeapon.Fire wd LineTrace1 w) := by
    rintro ⟨_, _, hpos, _⟩
    omega
  have h2 := Fire_of_not_guard wd LineTrace2 (AWeapon.Fire wd LineTrace1 w) hng
  refine ⟨⟨hz, hF, hS⟩, ?_, ?_⟩
  · intro hns
    rw [h2, if_pos ⟨hC.2 hns, hL⟩]
    obtain ⟨t, ht⟩ := RecoilRecovery_eq { AWeapon.Fire wd LineTrace1 w with
      Weapon := { (AWeapon.Fire wd LineTrace1 w).Weapon with ShotDelay := none }
      Log := (AWeapon.Fire wd LineTrace1 w).Log ++ [.PlaySound .EmptyFireSound] }
    rw [ht]
    exact ⟨rfl, hz, rfl⟩
  · intro hs
    rw [h2, if_neg]
    rintro ⟨hcf, _⟩
    exact hC.1 hcf hs

/-- Witness for C10: the last round of a plain semi-automatic weapon, then a
dry fire. -/
theorem C10_witness :
    (LastRoundWorld.Weapon.bCanFire = true ∧
      LastRoundWorld.Weapon.bIsWeaponReadyToFire = true ∧
      LastRoundWorld.Weapon.bIsReloading = false ∧
      LastRoundWorld.Weapon.GeneralWeaponData.ClipSize = 1 ∧
      ¬ FireSuspends BasicWeaponData) ∧
    ((AWeapon.Fire BasicWeaponData AlwaysHit LastRoundWorld).Weapon.GeneralWeaponData.ClipSize = 0 ∧
      (AWeapon.Fire BasicWeaponData NoHit
        (AWeapon.Fire BasicWeaponData AlwaysHit LastRoundWorld)).Weapon.ShotDelay = none ∧
      (AWeapon.Fire BasicWeaponData NoHit
        (AWeapon.Fire BasicWeaponData AlwaysHit LastRoundWorld)).Weapon.GeneralWeaponData.ClipSize = 0 ∧
      (AWeapon.Fire BasicWeaponData NoHit (AWeapon.Fire BasicWeaponData AlwaysHit LastRoundWorld)).Log
        = (AWeapon.Fire BasicWeaponData AlwaysHit LastRoundWorld).Log ++ [.PlaySound .EmptyFireSound]) :=
  have hns : ¬ FireSuspends BasicWeaponData := fun h => Bool.false_ne_true h.1
  have hT := C10_two_consecutive_fires BasicWeaponData AlwaysHit NoHit LastRoundWorld
    rfl rfl rfl rfl
  ⟨⟨rfl, rfl, rfl, rfl, hns⟩, hT.1.1, hT.2.1 hns⟩

/-! ## Locomotion: auxiliary facts -/

/-- The character after `UpdateMovementState`: the new state, the two flags
recomputed from it, the movement component taken from the table, and nothing
else changed. -/
theorem UpdateMovementState_Character (s : EMovementState) (w : World) :
    (ACharacterCore.UpdateMovementState s w).Character =
      { w.Character with
        MovementState := s
        bIsSprinting := decide (s = .State_Sprint)
        bIsCrouching := decide (s = .State_Crouch)
        CharacterMovement := MovementAfter s w.Character } := by
  unfold ACharacterCore.UpdateMovementState MovementAfter
  cases h : MovementDataMapFind w.Character.MovementDataMap s <;> cases s <;> simp [h]

/-- The weapon after `UpdateMovementState` when the table has an entry for the new
state and a weapon is equipped: both flags are overwritten with the entry's. -/
theorem UpdateMovementState_Weapon (s : EMovementState) (w : World)
    (Data : FMovementVariables) (Inventory : UInventoryComponent)
    (hd : MovementDataMapFind w.Character.MovementDataMap s = some Data)
    (hi : w.Character.InventoryComponent = some Inventory)
    (hw : Inventory.bHasCurrentWeapon = true) :
    (ACharacterCore.UpdateMovementState s w).Weapon =
      { w.Weapon with bCanFire := Data.bCanFire, bCanReload := Data.bCanReload } := by
  unfold ACharacterCore.UpdateMovementState
  simp [hd, hi, hw]

theorem StopCrouch_Character (b : Bool) (env : FSurroundings) (w : World) :
    (ACharacterCore.StopCrouch b env w).Character =
      if (w.Character.MovementState = .State_Crouch ∨ w.Character.MovementState = .State_Slide)
          ∧ ACharacterCore.HasSpaceToStandUp env = true then
        { w.Character with
          MovementState := if b then .State_Sprint else .State_Walk
          bIsSprinting := b
          bIsCrouching := false
          CharacterMovement :=
            MovementAfter (if b then .State_Sprint else .State_Walk) w.Character }
      else w.Character := by
  unfold ACharacterCore.StopCrouch
  by_cases hc : (w.Character.MovementState = .State_Crouch
      ∨ w.Character.MovementState = .State_Slide) ∧ ACharacterCore.HasSpaceToStandUp env = true
  · rw [if_pos hc, if_pos hc]
    cases b <;> simp [UpdateMovementState_Character]
  · rw [if_neg hc, if_neg hc]

/-- `StopSlide` never writes `bHoldingCrouch`, `bIsVaulting` or `bWantsToSprint`,
and `bPerformedSlide` can only go to false. -/
theorem StopSlide_flags (env : FSurroundings) (w : World) :
    (ACharacterCore.StopSlide env w).Character.bHoldingCrouch = w.Character.bHoldingCrouch ∧
      (ACharacterCore.StopSlide env w).Character.bIsVaulting = w.Character.bIsVaulting ∧
      (ACharacterCore.StopSlide env w).Character.bWantsToSprint = w.Character.bWantsToSprint ∧
      (w.Character.bPerformedSlide = false →
        (ACharacterCore.StopSlide env w).Character.bPerformedSlide = false) := by
  unfold ACharacterCore.StopSlide
  dsimp only
  refine ⟨?_, ?_, ?_, ?_⟩ <;> split_ifs <;>
    (try simp only [UpdateMovementState_Character, StopCrouch_Character]) <;>
    (try split_ifs) <;>
    first | rfl | trivial | exact fun h => h | exact fun _ => rfl | exact fun _ => trivial

theorem ToggleCrouch_bIsVaulting (env : FSurroundings) (w : World) :
    (ACharacterCore.ToggleCrouch env w).Character.bIsVaulting = w.Character.bIsVaulting := by
  unfold ACharacterCore.ToggleCrouch ACharacterCore.StartSlide
  dsimp only
  split_ifs
  all_goals try simp only [UpdateMovementState_Character, StopCrouch_Character]
  all_goals try split_ifs
  all_goals rfl

theorem ReleaseCrouch_bIsVaulting (env : FSurroundings) (w : World) :
    (ACharacterCore.ReleaseCrouch env w).Character.bIsVaulting = w.Character.bIsVaulting := by
  unfold ACharacterCore.ReleaseCrouch
  dsimp only
  split_ifs
  all_goals try simp only [UpdateMovementState_Character]
  all_goals first | rfl | rw [(StopSlide_flags env _).2.1]

theorem StartSprint_bIsVaulting (env : FSurroundings) (w : World) :
    (ACharacterCore.StartSprint env w).Character.bIsVaulting = w.Character.bIsVaulting := by
  unfold ACharacterCore.StartSprint
  dsimp only
  split_ifs <;> (try simp only [UpdateMovementState_Character])

theorem StopSprint_bIsVaulting (w : World) :
    (ACharacterCore.StopSprint w).Character.bIsVaulting = w.Character.bIsVaulting := by
  unfold ACharacterCore.StopSprint
  dsimp only
  split_ifs <;> (try simp only [UpdateMovementState_Character])

/-- No input handler writes `bIsVaulting`. -/
theorem HandleInput_bIsVaulting (env : FSurroundings) (e : EInputEvent) (w : World) :
    (ACharacterCore.HandleInput env e w).Character.bIsVaulting = w.Character.bIsVaulting := by
  cases e
  · exact ToggleCrouch_bIsVaulting env w
  · exact ReleaseCrouch_bIsVaulting env w
  · exact StartSprint_bIsVaulting env w
  · exact StopSprint_bIsVaulting w

/-- For a non-negative threshold the three cases of `slideExitRef` do not
overlap: the slide is extended exactly below the negative threshold and nothing
changes exactly in the band between the two thresholds. -/
theorem slideExitRef_of_nonneg (floorAngle threshold : ℚ) (headroom wants holding : Bool)
    (h : 0 ≤ threshold) :
    (slideExitRef floorAngle threshold headroom wants holding = .Extend
        ↔ floorAngle < -threshold) ∧
      (slideExitRef floorAngle threshold headroom wants holding = .Unchanged
        ↔ -threshold ≤ floorAngle ∧ floorAngle ≤ threshold) := by
  unfold slideExitRef
  by_cases h1 : floorAngle > threshold
  · rw [if_pos h1]
    constructor
    · constructor
      · intro he
        split_ifs at he
      · intro h2
        linarith
    · constructor
      · intro he
        split_ifs at he
      · intro h2
        linarith [h2.2]
  · rw [if_neg h1]
    by_cases h2 : floorAngle < -threshold
    · rw [if_pos h2]
      constructor
      · exact ⟨fun _ => h2, fun _ => rfl⟩
      · constructor
        · intro he
          cases he
        · intro h3
          linarith [h3.1]
    · rw [if_neg h2]
      constructor
      · constructor
        · intro he
          cases he
        · intro h3
          exact absurd h3 h2
      · exact ⟨fun _ => ⟨not_lt.mp h2, not_lt.mp h1⟩, fun _ => rfl⟩

/-- The value of `bCanFire` after reload-complete. -/
theorem UpdateAmmo_bCanFire (wd : FStaticWeaponData) (w : World) (pool : Int)
    (h : TMapFind w.AmmoMap w.Weapon.GeneralWeaponData.AmmoType = some pool) :
    ∃ w', AWeapon.UpdateAmmo wd w = some w' ∧
      w'.Weapon.bCanFire =
        (if w.Character.MovementState = .State_Sprint ∨ w.Character.MovementState = .State_Slide
          then w.Weapon.bCanFire else true) := by
  unfold AWeapon.UpdateAmmo
  simp only [h]
  refine ⟨_, rfl, ?_⟩
  split_ifs <;> first | rfl | (exfalso; simp_all)

/-! ## Stop-fire and the flags after reload-complete -/

/-- C11. Stop-fire is idempotent: calling `StopFire` twice in succession, with no
time elapsing in between, leaves the same world as calling it once, whatever the
timer manager reports as remaining cadence time in either call.  In particular the
recoil timelines are stopped at the same positions, the recovery target
`ControlRotation`, `bShouldRecover` and the recovery timeline are the same, and
so are `ShotsFired`, `bIsWeaponReadyToFire` and `bHasFiredRecently`. -/
theorem C11_StopFire_idempotent (wd : FStaticWeaponData) (Remaining1 Remaining2 : ℚ)
    (w : World) :
    AWeapon.StopFire wd Remaining2 (AWeapon.StopFire wd Remaining1 w)
      = AWeapon.StopFire wd Remaining1 w := by
  unfold AWeapon.StopFire AWeapon.RecoilRecovery
  cases h1 : w.Weapon.bShouldRecover <;> cases h2 : wd.bPreventRapidManualFire <;>
    cases h3 : w.Weapon.bHasFiredRecently <;>
    simp [h1, h2, h3, FTimeline.Stop, FTimeline.PlayFromStart, ClearTimer, SetTimer]

/-- C12. After reload-complete (`UpdateAmmo`, which returns whenever the ammo map
has an entry for the weapon's ammo type) `bIsReloading` is false and
`bIsWeaponReadyToFire` is true; `bCanFire` is true if the character's movement
state is neither Sprint nor Slide, and keeps its previous value if it is Sprint
or Slide. -/
theorem C12_UpdateAmmo_flags (wd : FStaticWeaponData) (w : World) (pool : Int)
    (h : TMapFind w.AmmoMap w.Weapon.GeneralWeaponData.AmmoType = some pool) :
    ∃ w', AWeapon.UpdateAmmo wd w = some w' ∧
      w'.Weapon.bIsReloading = false ∧
      w'.Weapon.bIsWeaponReadyToFire = true ∧
      (w.Character.MovementState ≠ .State_Sprint ∧ w.Character.MovementState ≠ .State_Slide →
        w'.Weapon.bCanFire = true) ∧
      (w.Character.MovementState = .State_Sprint ∨ w.Character.MovementState = .State_Slide →
        w'.Weapon.bCanFire = w.Weapon.bCanFire) := by
  unfold AWeapon.UpdateAmmo
  simp only [h]
  refine ⟨_, rfl, ?_, rfl, ?_, ?_⟩
  · split_ifs <;> rfl
  · intro hs
    split_ifs <;> rfl
  · intro hs
    split_ifs <;> first | rfl | (exfalso; simp_all)

/-- Witness for C12: reload-complete for a walking character re-enables fire,
for a sprinting character it leaves `bCanFire` false. -/
theorem C12_witness :
    (TMapFind ReloadingWorld.AmmoMap ReloadingWorld.Weapon.GeneralWeaponData.AmmoType
        = some 100 ∧
      ReloadingWorld.Character.MovementState ≠ .State_Sprint ∧
      ReloadingWorld.Character.MovementState ≠ .State_Slide) ∧
    ∃ w', AWeapon.UpdateAmmo BasicWeaponData ReloadingWorld = some w' ∧
      w'.Weapon.bIsReloading = false ∧
      w'.Weapon.bIsWeaponReadyToFire = true ∧
      w'.Weapon.bCanFire = true :=
  have h := C12_UpdateAmmo_flags BasicWeaponData ReloadingWorld 100 (by decide)
  ⟨⟨by decide, by decide, by decide⟩,
    h.elim fun w' hw' => ⟨w', hw'.1, hw'.2.1, hw'.2.2.1, hw'.2.2.2.1 ⟨by decide, by decide⟩⟩⟩

/-! ## How `bCanFire` is written -/

/-- C13 (as stated, refuted). Two reachable states in which `bCanFire` is true
against the claimed conjunction: after a reload has begun, a locomotion
transition to Crouch sets `bCanFire` although the weapon is reloading; and after
a transition to Sprint, whose table entry forbids firing, `EnableFire` sets
`bCanFire` all the same. -/
theorem C13_counterexample :
    ((ACharacterCore.UpdateMovementState .State_Crouch
          (AWeapon.Reload BasicWeaponData (IdleWorld 10 30 50)).2).Weapon.bCanFire = true ∧
      (ACharacterCore.UpdateMovementState .State_Crouch
          (AWeapon.Reload BasicWeaponData (IdleWorld 10 30 50)).2).Weapon.bIsReloading = true) ∧
    ((MovementDataMapFind FullMovementDataMap .State_Sprint).map (fun Data => Data.bCanFire)
        = some false ∧
      (AWeapon.EnableFire (ACharacterCore.UpdateMovementState .State_Sprint
          (IdleWorld 10 30 50))).Character.MovementState = .State_Sprint ∧
      (AWeapon.EnableFire (ACharacterCore.UpdateMovementState .State_Sprint
          (IdleWorld 10 30 50))).Weapon.bCanFire = true) := by
  decide

/-- C13 (amended). `bCanFire` is written, not conjoined.  A locomotion transition
whose table has an entry for the new state overwrites the equipped weapon's
`bCanFire` with the entry's flag; the weapon's own operations write it without
consulting the table: a beginning reload clears it, `EnableFire` sets it, and
reload-complete sets it unless the character is in Sprint or Slide (then it is
kept).  The conjunction is taken where the flag is used: `Fire` changes the clip
size only if `bCanFire` is true and the weapon is not reloading. -/
theorem C13_bCanFire_written_not_conjoined (wd : FStaticWeaponData)
    (LineTrace : Nat → Option FHitResult) (s : EMovementState) (w : World)
    (Data : FMovementVariables) (Inventory : UInventoryComponent) (pool : Int)
    (hd : MovementDataMapFind w.Character.MovementDataMap s = some Data)
    (hi : w.Character.InventoryComponent = some Inventory)
    (hw : Inventory.bHasCurrentWeapon = true)
    (hp : TMapFind w.AmmoMap w.Weapon.GeneralWeaponData.AmmoType = some pool) :
    (ACharacterCore.UpdateMovementState s w).Weapon.bCanFire = Data.bCanFire ∧
      (ReloadGuard wd w → (AWeapon.Reload wd w).2.Weapon.bCanFire = false) ∧
      (AWeapon.EnableFire w).Weapon.bCanFire = true ∧
      (∃ w', AWeapon.UpdateAmmo wd w = some w' ∧
        w'.Weapon.bCanFire =
          (if w.Character.MovementState = .State_Sprint
              ∨ w.Character.MovementState = .State_Slide
            then w.Weapon.bCanFire else true)) ∧
      ((AWeapon.Fire wd LineTrace w).Weapon.GeneralWeaponData.ClipSize
          ≠ w.Weapon.GeneralWeaponData.ClipSize →
        w.Weapon.bCanFire = true ∧ w.Weapon.bIsReloading = false) := by
  refine ⟨?_, ?_, rfl, UpdateAmmo_bCanFire wd w pool hp, ?_⟩
  · rw [UpdateMovementState_Weapon s w Data Inventory hd hi hw]
  · intro hg
    obtain ⟨t, l, hR⟩ := Reload_of_guard wd w hg
    rw [hR]
  · intro hne
    by_contra hcon
    apply hne
    have hng : ¬ FireGuard w := fun hg => hcon ⟨hg.1, hg.2.2.2⟩
    rw [(Fire_not_guard_summary wd LineTrace w hng).1]

/-- Witness for C13: the idle walking character with ten of thirty rounds and a
pool of fifty, crouching. -/
theorem C13_witness :
    (MovementDataMapFind (IdleWorld 10 30 50).Character.MovementDataMap .State_Crouch
        = some (MovementProfile true true 250) ∧
      (IdleWorld 10 30 50).Character.InventoryComponent = some { bHasCurrentWeapon := true } ∧
      TMapFind (IdleWorld 10 30 50).AmmoMap (IdleWorld 10 30 50).Weapon.GeneralWeaponData.AmmoType
        = some 50) ∧
    (ACharacterCore.UpdateMovementState .State_Crouch (IdleWorld 10 30 50)).Weapon.bCanFire
      = (MovementProfile true true 250).bCanFire :=
  ⟨⟨by decide, by decide, by decide⟩,
    (C13_bCanFire_written_not_conjoined BasicWeaponData NoHit .State_Crouch (IdleWorld 10 30 50)
      (MovementProfile true true 250) { bHasCurrentWeapon := true } 50
      (by decide) (by decide) rfl (by decide)).1⟩

/-! ## Traversal flag and movement state -/

/-- C14 (as stated, refuted). After a vault is accepted and sprint is pressed,
the traversal is still in progress (`bIsVaulting`) but the movement state is
Sprint, not Vault. -/
theorem C14_counterexample :
    (ACharacterCore.HandleInput ClearSurroundings .SprintPressed
        (ACharacterCore.AcceptVault LedgeTransform (WorldInState .State_Walk))).Character.bIsVaulting
      = true ∧
    (ACharacterCore.HandleInput ClearSurroundings .SprintPressed
        (ACharacterCore.AcceptVault LedgeTransform (WorldInState .State_Walk))).Character.MovementState
      = .State_Sprint := by
  decide

/-- C14 (amended). The acceptance of a vault establishes both `bIsVaulting` and
the movement state Vault.  No input event writes `bIsVaulting`, and traversal
progress other than 1 writes neither the flag nor the movement state; the flag is
cleared by traversal progress reaching 1. -/
theorem C14_traversal_flag_transitions (env : FSurroundings) (e : EInputEvent)
    (Target : FTransform) (Value : ℚ) (w : World) :
    ((ACharacterCore.AcceptVault Target w).Character.bIsVaulting = true ∧
        (ACharacterCore.AcceptVault Target w).Character.MovementState = .State_Vault) ∧
      (ACharacterCore.HandleInput env e w).Character.bIsVaulting = w.Character.bIsVaulting ∧
      (ACharacterCore.TimelineProgress Value w).Character.bIsVaulting
        = (if Value = 1 then false else w.Character.bIsVaulting) ∧
      (Value = 1 ∨
        (ACharacterCore.TimelineProgress Value w).Character.MovementState
          = w.Character.MovementState) := by
  refine ⟨⟨?_, ?_⟩, HandleInput_bIsVaulting env e w, ?_, ?_⟩
  · unfold ACharacterCore.AcceptVault ACharacterCore.Vault
    dsimp only
    simp only [UpdateMovementState_Character]
  · unfold ACharacterCore.AcceptVault ACharacterCore.Vault
    dsimp only
    simp only [UpdateMovementState_Character]
  · unfold ACharacterCore.TimelineProgress
    dsimp only
    split_ifs <;> (try simp only [UpdateMovementState_Character])
  · by_cases hv : Value = 1
    · exact Or.inl hv
    · refine Or.inr ?_
      unfold ACharacterCore.TimelineProgress
      dsimp only
      rw [if_neg hv]

/-- C15 (the code at the failing input). For a character in the middle of a
traversal who does not want to sprint, traversal progress reaching 1 clears
`bIsVaulting` but leaves the movement state at Vault. -/
theorem C15_vault_state_kept_without_sprint :
    VaultingWorld.Character.bIsVaulting = true ∧
      VaultingWorld.Character.MovementState = .State_Vault ∧
      VaultingWorld.Character.bWantsToSprint = false ∧
      (ACharacterCore.TimelineProgress 1 VaultingWorld).Character.bIsVaulting = false ∧
      (ACharacterCore.TimelineProgress 1 VaultingWorld).Character.MovementState
        = .State_Vault := by
  decide

/-! ## Headroom gating and the input events -/

/-- C16 (the code at the failing input). A crouched character with hold-to-crouch
under a ceiling that blocks the stand-up sweep: releasing crouch puts the
character in Walk. -/
theorem C16_crouch_release_ignores_headroom :
    (WorldInState .State_Crouch).Character.MovementState = .State_Crouch ∧
      (WorldInState .State_Crouch).Character.bCrouchIsToggle = false ∧
      ACharacterCore.HasSpaceToStandUp BlockedSurroundings = false ∧
      (ACharacterCore.HandleInput BlockedSurroundings .CrouchReleased
        (WorldInState .State_Crouch)).Character.MovementState = .State_Walk := by
  decide

/-- C17. Sprint pressed (`StartSprint`): if the movement state is Crouch or Slide
and the headroom probe is blocked, the press is refused and the whole world, so
in particular the movement state, wants-to-sprint, performed-slide and
restricting-sprint, is unchanged (nothing is left behind for a later frame to act
on); in every other case performed-slide becomes false, the movement state
becomes Sprint and wants-to-sprint becomes true. -/
theorem C17_StartSprint (env : FSurroundings) (w : World) :
    (ACharacterCore.HasSpaceToStandUp env = false ∧
        (w.Character.MovementState = .State_Crouch ∨ w.Character.MovementState = .State_Slide) →
        ACharacterCore.StartSprint env w = w) ∧
      (¬ (ACharacterCore.HasSpaceToStandUp env = false ∧
          (w.Character.MovementState = .State_Crouch
            ∨ w.Character.MovementState = .State_Slide)) →
        (ACharacterCore.StartSprint env w).Character.bPerformedSlide = false ∧
        (ACharacterCore.StartSprint env w).Character.MovementState = .State_Sprint ∧
        (ACharacterCore.StartSprint env w).Character.bWantsToSprint = true) := by
  constructor
  · intro h
    unfold ACharacterCore.StartSprint
    rw [if_pos h]
  · intro h
    unfold ACharacterCore.StartSprint
    rw [if_neg h]
    simp [UpdateMovementState_Character]

/-- Witness for C17: a crouched character under a blocking ceiling is left as it
is; with free headroom it sprints. -/
theorem C17_witness :
    ((ACharacterCore.HasSpaceToStandUp BlockedSurroundings = false ∧
        ((WorldInState .State_Crouch).Character.MovementState = .State_Crouch
          ∨ (WorldInState .State_Crouch).Character.MovementState = .State_Slide)) ∧
      ¬ (ACharacterCore.HasSpaceToStandUp ClearSurroundings = false ∧
        ((WorldInState .State_Crouch).Character.MovementState = .State_Crouch
          ∨ (WorldInState .State_Crouch).Character.MovementState = .State_Slide))) ∧
    ACharacterCore.StartSprint BlockedSurroundings (WorldInState .State_Crouch)
      = WorldInState .State_Crouch ∧
    (ACharacterCore.StartSprint ClearSurroundings (WorldInState .State_Crouch)).Character.MovementState
      = .State_Sprint :=
  ⟨⟨by decide, by decide⟩,
    (C17_StartSprint BlockedSurroundings (WorldInState .State_Crouch)).1 (by decide),
    ((C17_StartSprint ClearSurroundings (WorldInState .State_Crouch)).2 (by decide)).2.1⟩

/-- C18. Crouch pressed while grounded (`ToggleCrouch`): if the movement state is
Crouch, the result is the stand-up exit `StopCrouch(false)`, that is Walk with
headroom and still Crouch without; else if it is Sprint, slide is permitted and
performed-slide is false, the result is Slide with performed-slide set;
otherwise the result is Crouch and wants-to-sprint is cleared.  In all cases
(grounded or not) holding-crouch becomes true. -/
theorem C18_ToggleCrouch (env : FSurroundings) (w : World) :
    (ACharacterCore.ToggleCrouch env w).Character.bHoldingCrouch = true ∧
      (env.bIsMovingOnGround = true →
        (w.Character.MovementState = .State_Crouch →
          ACharacterCore.ToggleCrouch env w
            = ACharacterCore.StopCrouch false env
                { w with Character := { w.Character with bHoldingCrouch := true } } ∧
          (ACharacterCore.ToggleCrouch env w).Character.MovementState
            = (if ACharacterCore.HasSpaceToStandUp env = true then .State_Walk
                else .State_Crouch)) ∧
        (w.Character.MovementState ≠ .State_Crouch →
          (w.Character.MovementState = .State_Sprint ∧ w.Character.bCanSlide = true
              ∧ w.Character.bPerformedSlide = false →
            (ACharacterCore.ToggleCrouch env w).Character.MovementState = .State_Slide ∧
            (ACharacterCore.ToggleCrouch env w).Character.bPerformedSlide = true) ∧
          (¬ (w.Character.MovementState = .State_Sprint ∧ w.Character.bCanSlide = true
              ∧ w.Character.bPerformedSlide = false) →
            (ACharacterCore.ToggleCrouch env w).Character.MovementState = .State_Crouch ∧
            (ACharacterCore.ToggleCrouch env w).Character.bWantsToSprint = false))) := by
  constructor
  · unfold ACharacterCore.ToggleCrouch ACharacterCore.StartSlide
    dsimp only
    split_ifs
    all_goals try simp only [UpdateMovementState_Character, StopCrouch_Character]
    all_goals try split_ifs
    all_goals rfl
  · intro hg
    refine ⟨fun hc => ⟨?_, ?_⟩, fun hc => ⟨fun hs => ?_, fun hs => ?_⟩⟩
    · unfold ACharacterCore.ToggleCrouch
      dsimp only
      rw [if_pos hg, if_pos hc]
    · unfold ACharacterCore.ToggleCrouch
      dsimp only
      rw [if_pos hg, if_pos hc, StopCrouch_Character]
      by_cases hh : ACharacterCore.HasSpaceToStandUp env = true <;> simp [hc, hh]
    · unfold ACharacterCore.ToggleCrouch ACharacterCore.StartSlide
      dsimp only
      rw [if_pos hg, if_neg hc, if_pos ⟨hs.1, hs.2.2, hs.2.1⟩]
      simp [UpdateMovementState_Character]
    · unfold ACharacterCore.ToggleCrouch
      dsimp only
      rw [if_pos hg, if_neg hc, if_neg (fun h => hs ⟨h.1, h.2.2, h.2.1⟩)]
      by_cases hw : w.Character.bWantsToSprint = true <;>
        simp [UpdateMovementState_Character, hw]

/-- Witness for C18: grounded with free headroom, a crouched character stands up
to Walk, a sprinting one slides, a walking one crouches. -/
theorem C18_witness :
    (ClearSurroundings.bIsMovingOnGround = true ∧
      (WorldInState .State_Crouch).Character.MovementState = .State_Crouch ∧
      SprintingWorld.Character.MovementState ≠ .State_Crouch ∧
      (SprintingWorld.Character.MovementState = .State_Sprint
        ∧ SprintingWorld.Character.bCanSlide = true
        ∧ SprintingWorld.Character.bPerformedSlide = false)) ∧
    (ACharacterCore.ToggleCrouch ClearSurroundings (WorldInState .State_Crouch)).Character.MovementState
      = (if ACharacterCore.HasSpaceToStandUp ClearSurroundings = true then .State_Walk
          else .State_Crouch) ∧
    ((ACharacterCore.ToggleCrouch ClearSurroundings SprintingWorld).Character.MovementState
        = .State_Slide ∧
      (ACharacterCore.ToggleCrouch ClearSurroundings SprintingWorld).Character.bPerformedSlide
        = true) :=
  ⟨⟨rfl, rfl, by decide, rfl, rfl, rfl⟩,
    (((C18_ToggleCrouch ClearSurroundings (WorldInState .State_Crouch)).2 rfl).1 rfl).2,
    (((C18_ToggleCrouch ClearSurroundings SprintingWorld).2 rfl).2 (by decide)).1 ⟨rfl, rfl, rfl⟩⟩

/-- C19. Crouch released (`ReleaseCrouch`): holding-crouch and performed-slide
become false; if the movement state is Slide the slide-exit logic `StopSlide`
decides the state; otherwise, if crouch is momentary (not toggle) and the state is
not Sprint, the state becomes Walk; otherwise (toggle mode, or state Sprint) the
movement state is unchanged. -/
theorem C19_ReleaseCrouch (env : FSurroundings) (w : World) :
    (ACharacterCore.ReleaseCrouch env w).Character.bHoldingCrouch = false ∧
      (ACharacterCore.ReleaseCrouch env w).Character.bPerformedSlide = false ∧
      (w.Character.MovementState = .State_Slide →
        ACharacterCore.ReleaseCrouch env w
          = ACharacterCore.StopSlide env
              { w with Character := { w.Character with
                  bHoldingCrouch := false
                  bPerformedSlide := false } }) ∧
      (w.Character.MovementState ≠ .State_Slide → w.Character.bCrouchIsToggle = false →
        w.Character.MovementState ≠ .State_Sprint →
        (ACharacterCore.ReleaseCrouch env w).Character.MovementState = .State_Walk) ∧
      (w.Character.MovementState ≠ .State_Slide →
        (w.Character.bCrouchIsToggle = true ∨ w.Character.MovementState = .State_Sprint) →
        (ACharacterCore.ReleaseCrouch env w).Character.MovementState
          = w.Character.MovementState) := by
  refine ⟨?_, ?_, ?_, ?_, ?_⟩
  · unfold ACharacterCore.ReleaseCrouch
    dsimp only
    split_ifs
    all_goals try simp only [UpdateMovementState_Character]
    all_goals first | rfl | rw [(StopSlide_flags env _).1]
  · unfold ACharacterCore.ReleaseCrouch
    dsimp only
    split_ifs
    all_goals try simp only [UpdateMovementState_Character]
    all_goals first | rfl | exact (StopSlide_flags env _).2.2.2 rfl
  · intro hs
    unfold ACharacterCore.ReleaseCrouch
    dsimp only
    rw [if_pos hs]
  · intro hs ht hp
    unfold ACharacterCore.ReleaseCrouch
    dsimp only
    rw [if_neg hs, if_pos ht, if_neg hp]
    simp only [UpdateMovementState_Character]
  · intro hs hor
    unfold ACharacterCore.ReleaseCrouch
    dsimp only
    rw [if_neg hs]
    rcases hor with ht | hp
    · rw [if_neg (by simp [ht])]
    · by_cases ht : w.Character.bCrouchIsToggle = false
      · rw [if_pos ht, if_pos hp]
      · rw [if_neg ht]

/-- Witness for C19: releasing crouch brings a crouched hold-to-crouch character
to Walk and lets `StopSlide` decide for a sliding one. -/
theorem C19_witness :
    ((WorldInState .State_Crouch).Character.MovementState ≠ .State_Slide ∧
      (WorldInState .State_Crouch).Character.bCrouchIsToggle = false ∧
      (WorldInState .State_Crouch).Character.MovementState ≠ .State_Sprint ∧
      SlidingWorld.Character.MovementState = .State_Slide) ∧
    (ACharacterCore.ReleaseCrouch ClearSurroundings (WorldInState .State_Crouch)).Character.MovementState
      = .State_Walk ∧
    ACharacterCore.ReleaseCrouch ClearSurroundings SlidingWorld
      = ACharacterCore.StopSlide ClearSurroundings
          { SlidingWorld with Character := { SlidingWorld.Character with
              bHoldingCrouch := false
              bPerformedSlide := false } } :=
  ⟨⟨by decide, rfl, by decide, rfl⟩,
    (C19_ReleaseCrouch ClearSurroundings (WorldInState .State_Crouch)).2.2.2.1
      (by decide) rfl (by decide),
    (C19_ReleaseCrouch ClearSurroundings SlidingWorld).2.2.1 rfl⟩

/-- The weapon is left as it is by `UpdateMovementState` when the table has no
entry for the new state. -/
theorem UpdateMovementState_Weapon_of_none (s : EMovementState) (w : World)
    (hd : MovementDataMapFind w.Character.MovementDataMap s = none) :
    (ACharacterCore.UpdateMovementState s w).Weapon = w.Weapon := by
  unfold ACharacterCore.UpdateMovementState
  simp [hd]

/-- The weapon is left as it is by `UpdateMovementState` when no weapon is
equipped (no inventory component, or no current weapon). -/
theorem UpdateMovementState_Weapon_of_unequipped (s : EMovementState) (w : World)
    (hi : ∀ Inventory, w.Character.InventoryComponent = some Inventory →
      Inventory.bHasCurrentWeapon = false) :
    (ACharacterCore.UpdateMovementState s w).Weapon = w.Weapon := by
  unfold ACharacterCore.UpdateMovementState
  cases hd : MovementDataMapFind w.Character.MovementDataMap s with
  | none => simp [hd]
  | some Data =>
    cases hinv : w.Character.InventoryComponent with
    | none => simp [hd, hinv]
    | some Inventory => simp [hd, hinv, hi Inventory hinv]

/-- C21. The locomotion transition `UpdateMovementState s`.  If the table has an
entry for `s`, the four parameters of the movement component are the entry's, and
the flags `bCanFire` and `bCanReload` of an equipped weapon are the entry's (the
weapon is otherwise unchanged, and without an equipped weapon it is unchanged
altogether); if the table has no entry for `s`, the movement component and the
weapon are unchanged.  In both cases the movement state becomes `s`,
`bIsSprinting` holds iff `s` is Sprint and `bIsCrouching` holds iff `s` is
Crouch. -/
theorem C21_UpdateMovementState (s : EMovementState) (w : World) :
    (∀ Data, MovementDataMapFind w.Character.MovementDataMap s = some Data →
      (ACharacterCore.UpdateMovementState s w).Character.CharacterMovement =
          { MaxAcceleration := Data.MaxAcceleration
            BrakingDecelerationWalking := Data.BreakingDecelerationWalking
            GroundFriction := Data.GroundFriction
            MaxWalkSpeed := Data.MaxWalkSpeed } ∧
        (∀ Inventory, w.Character.InventoryComponent = some Inventory →
          Inventory.bHasCurrentWeapon = true →
          (ACharacterCore.UpdateMovementState s w).Weapon =
            { w.Weapon with bCanFire := Data.bCanFire, bCanReload := Data.bCanReload }) ∧
        ((∀ Inventory, w.Character.InventoryComponent = some Inventory →
            Inventory.bHasCurrentWeapon = false) →
          (ACharacterCore.UpdateMovementState s w).Weapon = w.Weapon)) ∧
    (MovementDataMapFind w.Character.MovementDataMap s = none →
      (ACharacterCore.UpdateMovementState s w).Character.CharacterMovement
          = w.Character.CharacterMovement ∧
        (ACharacterCore.UpdateMovementState s w).Weapon = w.Weapon) ∧
    (ACharacterCore.UpdateMovementState s w).Character.MovementState = s ∧
    ((ACharacterCore.UpdateMovementState s w).Character.bIsSprinting = true
      ↔ s = .State_Sprint) ∧
    ((ACharacterCore.UpdateMovementState s w).Character.bIsCrouching = true
      ↔ s = .State_Crouch) := by
  refine ⟨?_, ?_, ?_, ?_, ?_⟩
  · intro Data hd
    refine ⟨?_, ?_, ?_⟩
    · rw [UpdateMovementState_Character]
      simp [MovementAfter, hd]
    · intro Inventory hi hw
      exact UpdateMovementState_Weapon s w Data Inventory hd hi hw
    · intro hi
      exact UpdateMovementState_Weapon_of_unequipped s w hi
  · intro hd
    refine ⟨?_, UpdateMovementState_Weapon_of_none s w hd⟩
    rw [UpdateMovementState_Character]
    simp [MovementAfter, hd]
  · rw [UpdateMovementState_Character]
  · rw [UpdateMovementState_Character]
    simp
  · rw [UpdateMovementState_Character]
    simp

/-- Witness for C21: the transition of the idle walking character into Vault,
whose table entry forbids firing and reloading. -/
theorem C21_witness :
    (MovementDataMapFind (IdleWorld 10 30 50).Character.MovementDataMap .State_Vault
        = some (MovementProfile false false 400) ∧
      (IdleWorld 10 30 50).Character.InventoryComponent = some { bHasCurrentWeapon := true }) ∧
    ((ACharacterCore.UpdateMovementState .State_Vault (IdleWorld 10 30 50)).Character.CharacterMovement
        = { MaxAcceleration := 2048
            BrakingDecelerationWalking := 2048
            GroundFriction := 8
            MaxWalkSpeed := 400 } ∧
      (ACharacterCore.UpdateMovementState .State_Vault (IdleWorld 10 30 50)).Weapon
        = { (IdleWorld 10 30 50).Weapon with bCanFire := false, bCanReload := false }) :=
  ⟨⟨by decide, by decide⟩,
    ((C21_UpdateMovementState .State_Vault (IdleWorld 10 30 50)).1
        (MovementProfile false false 400) (by decide)).1,
    ((C21_UpdateMovementState .State_Vault (IdleWorld 10 30 50)).1
        (MovementProfile false false 400) (by decide)).2.1 { bHasCurrentWeapon := true }
      (by decide) rfl⟩

/-! ## The traversal probe: auxiliary facts -/

theorem FMath_Abs_eq (A : ℚ) : FMath.Abs A = |A| := by
  unfold FMath.Abs
  split_ifs with h
  · exact (abs_of_nonneg h).symm
  · exact (abs_of_neg (lt_of_not_ge h)).symm

theorem CheckVaultStep_of_miss (scene : FScene) (ForwardAddition ForwardImpactNormal : FVector)
    (CalculationHeight : ℚ) (L : FVaultLocals) (w : World)
    (hd : scene.LineTrace (L.SecondaryVaultStartLocation.add ForwardAddition)
      (L.SecondaryVaultEndLocation.add ForwardAddition) = none) :
    ACharacterCore.CheckVaultStep scene ForwardAddition ForwardImpactNormal CalculationHeight L w
      = (.Continue,
          { L with
            SecondaryVaultStartLocation := L.SecondaryVaultStartLocation.add ForwardAddition
            SecondaryVaultEndLocation := L.SecondaryVaultEndLocation.add ForwardAddition
            SecondaryVaultHeightCheckLocation :=
              L.SecondaryVaultHeightCheckLocation.add ForwardAddition
            bVaultFailed := true }, w) := by
  unfold ACharacterCore.CheckVaultStep
  simp only [hd]

theorem CheckVaultStep_of_headroom_hit (scene : FScene)
    (ForwardAddition ForwardImpactNormal : FVector)
    (CalculationHeight : ℚ) (L : FVaultLocals) (w : World) (VaultHit HeightHit : FTraceHit)
    (hd : scene.LineTrace (L.SecondaryVaultStartLocation.add ForwardAddition)
      (L.SecondaryVaultEndLocation.add ForwardAddition) = some VaultHit)
    (hh : scene.LineTrace (L.SecondaryVaultStartLocation.add ForwardAddition)
      (L.SecondaryVaultHeightCheckLocation.add ForwardAddition) = some HeightHit) :
    ACharacterCore.CheckVaultStep scene ForwardAddition ForwardImpactNormal CalculationHeight L w
      = (.Break,
          { L with
            SecondaryVaultStartLocation := L.SecondaryVaultStartLocation.add ForwardAddition
            SecondaryVaultEndLocation := L.SecondaryVaultEndLocation.add ForwardAddition
            SecondaryVaultHeightCheckLocation :=
              L.SecondaryVaultHeightCheckLocation.add ForwardAddition
            bVaultFailed := true }, w) := by
  unfold ACharacterCore.CheckVaultStep
  simp only [hd, hh]

theorem CheckVaultStep_of_valid (scene : FScene) (ForwardAddition ForwardImpactNormal : FVector)
    (CalculationHeight : ℚ) (L : FVaultLocals) (w : World) (VaultHit : FTraceHit)
    (hd : scene.LineTrace (L.SecondaryVaultStartLocation.add ForwardAddition)
      (L.SecondaryVaultEndLocation.add ForwardAddition) = some VaultHit)
    (hh : scene.LineTrace (L.SecondaryVaultStartLocation.add ForwardAddition)
      (L.SecondaryVaultHeightCheckLocation.add ForwardAddition) = none) :
    ACharacterCore.CheckVaultStep scene ForwardAddition ForwardImpactNormal CalculationHeight L w
      = (if VaultStepAccepts scene w.Character CalculationHeight
            ((L.SecondaryVaultStartLocation.add ForwardAddition).Z - VaultHit.ImpactPoint.Z)
            VaultHit L then
          (.Break,
            { VaultLocalsAfter ForwardAddition
                ((L.SecondaryVaultStartLocation.add ForwardAddition).Z - VaultHit.ImpactPoint.Z) L
              with bVaultFailed := false },
            ACharacterCore.AcceptVault
              (ACharacterCore.VaultTarget scene ForwardImpactNormal
                (ACharacterCore.DownTracePoint VaultHit CalculationHeight)) w)
        else
          (.Continue,
            VaultLocalsAfter ForwardAddition
              ((L.SecondaryVaultStartLocation.add ForwardAddition).Z - VaultHit.ImpactPoint.Z) L,
            w)) := by
  unfold ACharacterCore.CheckVaultStep VaultStepAccepts VaultLocalsAfter
  simp only [hd, hh, FMath.IsNearlyEqual, FMath_Abs_eq]
  by_cases hs : L.bInitialSwitch = true
  · simp only [hs, Bool.not_true, Bool.false_eq_true, if_false, if_true]
    by_cases h1 : |(L.SecondaryVaultStartLocation.add ForwardAddition).Z - VaultHit.ImpactPoint.Z
        - L.InitialTraceHeight| > 20
    · by_cases h2 : (L.SecondaryVaultStartLocation.add ForwardAddition).Z - VaultHit.ImpactPoint.Z
          < w.Character.MaxMantleHeight
      · by_cases h3 : |L.CurrentTraceHeight
            - ((L.SecondaryVaultStartLocation.add ForwardAddition).Z - VaultHit.ImpactPoint.Z)| ≤ 3
        · by_cases h4 : ACharacterCore.LandingSweepHit scene w.Character
              (ACharacterCore.DownTracePoint VaultHit CalculationHeight) = true
          · simp [h1, h2, h3, h4, not_le.mpr h1]
          · simp [h1, h2, h3, h4, not_le.mpr h1]
        · simp [h1, h2, h3, not_le.mpr h1]
      · simp [h1, h2, not_le.mpr h1]
    · simp [h1, not_lt.mp h1]
  · have hs' : L.bInitialSwitch = false := by simpa using hs
    simp only [hs', Bool.not_false, if_true, Bool.false_eq_true, if_false, sub_self, abs_zero]
    have h0 : ¬ ((0 : ℚ) > 20) := by norm_num
    simp [h0]

theorem vaultAccepts_iff (scene : FScene) (c : ACharacterCore) (CalculationHeight Height : ℚ)
    (VaultHit : FTraceHit) (L : FVaultLocals) (Valid : List ℚ) (hL : VaultLocalsMatch L Valid) :
    vaultAccepts c.MaxMantleHeight Valid
        { bDownHit := true
          bHeadroomHit := false
          Height := Height
          bLandingObstructed := ACharacterCore.LandingSweepHit scene c
            (ACharacterCore.DownTracePoint VaultHit CalculationHeight)
          Point := ACharacterCore.DownTracePoint VaultHit CalculationHeight } = true
      ↔ VaultStepAccepts scene c CalculationHeight Height VaultHit L := by
  obtain ⟨_, hE, hH, hC⟩ := hL
  unfold vaultAccepts VaultStepAccepts vaultSampleValid
  cases Valid with
  | nil =>
    have hs := hE rfl
    simp [hs]
  | cons a t =>
    obtain ⟨hs, hi⟩ := hH a rfl
    obtain ⟨b, hb⟩ : ∃ b, (a :: t).getLast? = some b :=
      ⟨(a :: t).getLast (by simp), List.getLast?_eq_getLast _ _⟩
    have hc := hC b hb
    simp [hs, hi, hb, hc]
    tauto

theorem VaultLocalsMatch_after (ForwardAddition : FVector) (Height : ℚ) (L : FVaultLocals)
    (Valid : List ℚ) (hL : VaultLocalsMatch L Valid) (i : Int) :
    VaultLocalsMatch { VaultLocalsAfter ForwardAddition Height L with i := i }
      (Valid ++ [Height]) := by
  obtain ⟨_, hE, hH, hC⟩ := hL
  refine ⟨rfl, ?_, ?_, ?_⟩
  · intro h
    simp at h
  · intro a ha
    refine ⟨rfl, ?_⟩
    show (if L.bInitialSwitch = true then L.InitialTraceHeight else Height) = a
    cases Valid with
    | nil =>
      simp at ha
      simp [hE rfl, ha]
    | cons x t =>
      simp at ha
      obtain ⟨hs, hi⟩ := hH x rfl
      simp [hs, hi, ha]
  · intro b hb
    show Height = b
    simpa using hb

/-- The loop of `CheckVault` agrees with the amended reference scan on the probe results
of the steps it still has to make, whenever its locals hold the heights of the
valid samples met so far. -/
theorem CheckVaultLoop_eq_vaultScanRefAmended (scene : FScene)
    (ForwardAddition ForwardImpactNormal : FVector) (CalculationHeight : ℚ) (w : World)
    (n : Nat) :
    ∀ (L : FVaultLocals) (Valid : List ℚ), VaultLocalsMatch L Valid →
      (ACharacterCore.CheckVaultLoop scene ForwardAddition ForwardImpactNormal CalculationHeight
          n L w).2 =
        (match vaultScanRefAmended w.Character.MaxMantleHeight Valid
            (ACharacterCore.VaultSamples scene w.Character ForwardAddition CalculationHeight n
              L.SecondaryVaultStartLocation L.SecondaryVaultEndLocation
              L.SecondaryVaultHeightCheckLocation) with
          | some s =>
            ACharacterCore.AcceptVault
              (ACharacterCore.VaultTarget scene ForwardImpactNormal s.Point) w
          | none => w) ∧
      (ACharacterCore.CheckVaultLoop scene ForwardAddition ForwardImpactNormal CalculationHeight
          n L w).1.bVaultFailed =
        (vaultScanRefAmended w.Character.MaxMantleHeight Valid
            (ACharacterCore.VaultSamples scene w.Character ForwardAddition CalculationHeight n
              L.SecondaryVaultStartLocation L.SecondaryVaultEndLocation
              L.SecondaryVaultHeightCheckLocation)).isNone := by
  induction n with
  | zero =>
    intro L Valid hL
    exact ⟨rfl, hL.1⟩
  | succ n ih =>
    intro L Valid hL
    unfold ACharacterCore.CheckVaultLoop ACharacterCore.VaultSamples vaultScanRefAmended
    unfold ACharacterCore.VaultSample
    cases hd : scene.LineTrace (L.SecondaryVaultStartLocation.add ForwardAddition)
        (L.SecondaryVaultEndLocation.add ForwardAddition) with
    | none =>
      rw [CheckVaultStep_of_miss scene ForwardAddition ForwardImpactNormal CalculationHeight L w hd]
      simp only [vaultAccepts, vaultSampleValid, Bool.false_and, Bool.false_eq_true, if_false]
      exact ih _ Valid ⟨rfl, hL.2.1, hL.2.2.1, hL.2.2.2⟩
    | some VaultHit =>
      cases hh : scene.LineTrace (L.SecondaryVaultStartLocation.add ForwardAddition)
          (L.SecondaryVaultHeightCheckLocation.add ForwardAddition) with
      | some HeightHit =>
        rw [CheckVaultStep_of_headroom_hit scene ForwardAddition ForwardImpactNormal
          CalculationHeight L w VaultHit HeightHit hd hh]
        simp [vaultAccepts, vaultSampleValid]
      | none =>
        rw [CheckVaultStep_of_valid scene ForwardAddition ForwardImpactNormal
          CalculationHeight L w VaultHit hd hh]
        have hiff := vaultAccepts_iff scene w.Character CalculationHeight
          ((L.SecondaryVaultStartLocation.add ForwardAddition).Z - VaultHit.ImpactPoint.Z)
          VaultHit L Valid hL
        simp only [Option.isSome_none]
        by_cases hacc : VaultStepAccepts scene w.Character CalculationHeight
            ((L.SecondaryVaultStartLocation.add ForwardAddition).Z - VaultHit.ImpactPoint.Z)
            VaultHit L
        · rw [if_pos hacc, if_pos (hiff.mpr hacc)]
          exact ⟨rfl, rfl⟩
        · have hna : ¬ vaultAccepts w.Character.MaxMantleHeight Valid
              { bDownHit := true
                bHeadroomHit := false
                Height := (L.SecondaryVaultStartLocation.add ForwardAddition).Z
                  - VaultHit.ImpactPoint.Z
                bLandingObstructed := ACharacterCore.LandingSweepHit scene w.Character
                  (ACharacterCore.DownTracePoint VaultHit CalculationHeight)
                Point := ACharacterCore.DownTracePoint VaultHit CalculationHeight } = true :=
            fun h => hacc (hiff.mp h)
          rw [if_neg hacc, if_neg hna]
          simp only [Bool.false_eq_true, if_false, vaultSampleValid, Bool.not_false, Bool.and_self,
            if_true]
          exact ih _ _ (VaultLocalsMatch_after ForwardAddition _ L Valid hL _)

/-- The acceptance of a traversal target puts the character in Vault with the flag
`bIsVaulting` set and the target as the end of the traversal. -/
theorem AcceptVault_Character (Target : FTransform) (w : World) :
    (ACharacterCore.AcceptVault Target w).Character.MovementState = .State_Vault ∧
      (ACharacterCore.AcceptVault Target w).Character.bIsVaulting = true ∧
      (ACharacterCore.AcceptVault Target w).Character.VaultEndLocation = Target := by
  simp [ACharacterCore.AcceptVault, ACharacterCore.Vault, UpdateMovementState_Character]

/-- The staircase scan of `CheckVault` agrees with the amended reference scan on the
probe results of its steps. -/
theorem CheckVaultScan_eq_vaultScanRefAmended (scene : FScene) (ForwardImpactNormal : FVector)
    (MantleHit : FTraceHit) (w : World) :
    (ACharacterCore.CheckVaultScan scene ForwardImpactNormal MantleHit w).2 =
        (match vaultScanRefAmended w.Character.MaxMantleHeight []
            (ACharacterCore.VaultScanSamples scene MantleHit w.Character) with
          | some s =>
            ACharacterCore.AcceptVault
              (ACharacterCore.VaultTarget scene ForwardImpactNormal s.Point) w
          | none => w) ∧
      (ACharacterCore.CheckVaultScan scene ForwardImpactNormal MantleHit w).1.bVaultFailed =
        (vaultScanRefAmended w.Character.MaxMantleHeight []
            (ACharacterCore.VaultScanSamples scene MantleHit w.Character)).isNone := by
  unfold ACharacterCore.CheckVaultScan ACharacterCore.VaultScanSamples
  apply CheckVaultLoop_eq_vaultScanRefAmended
  refine ⟨rfl, fun _ => rfl, ?_, ?_⟩
  · intro a ha
    simp at ha
  · intro b hb
    simp at hb

/-- A staircase scan that ends with `bVaultFailed` set has not changed the
world. -/
theorem CheckVaultScan_of_failed (scene : FScene) (ForwardImpactNormal : FVector)
    (MantleHit : FTraceHit) (w : World)
    (h : (ACharacterCore.CheckVaultScan scene ForwardImpactNormal MantleHit w).1.bVaultFailed
      = true) :
    (ACharacterCore.CheckVaultScan scene ForwardImpactNormal MantleHit w).2 = w := by
  obtain ⟨h1, h2⟩ := CheckVaultScan_eq_vaultScanRefAmended scene ForwardImpactNormal MantleHit w
  rw [h2] at h
  rw [h1]
  cases hr : vaultScanRefAmended w.Character.MaxMantleHeight []
      (ACharacterCore.VaultScanSamples scene MantleHit w.Character) with
  | none => rfl
  | some s =>
    rw [hr] at h
    simp at h

/-- Without its entry conditions `CheckVault` does nothing. -/
theorem CheckVault_of_not_gate (scene : FScene) (w : World)
    (h : ACharacterCore.CheckVaultGate scene w = false) :
    ACharacterCore.CheckVault scene w = w := by
  unfold ACharacterCore.CheckVault
  simp [h]

/-- A call of `CheckVault` either leaves the world as it is or accepts one
traversal target. -/
theorem CheckVault_cases (scene : FScene) (w : World) :
    ACharacterCore.CheckVault scene w = w ∨
      ∃ Target, ACharacterCore.CheckVault scene w = ACharacterCore.AcceptVault Target w := by
  unfold ACharacterCore.CheckVault
  split_ifs with hg
  · exact Or.inl rfl
  · cases hf : ACharacterCore.VaultForwardSweep scene w with
    | none => exact Or.inl rfl
    | some ForwardHit =>
      dsimp only
      cases hm : ACharacterCore.VaultStandSweep scene ForwardHit w with
      | none => exact Or.inl rfl
      | some MantleHit =>
        dsimp only
        obtain ⟨h1, h2⟩ :=
          CheckVaultScan_eq_vaultScanRefAmended scene ForwardHit.ImpactNormal MantleHit w
        by_cases hfail : (ACharacterCore.CheckVaultScan scene ForwardHit.ImpactNormal MantleHit
            w).1.bVaultFailed = true
        · have hw := CheckVaultScan_of_failed scene ForwardHit.ImpactNormal MantleHit w hfail
          simp only [hfail, Bool.not_true, Bool.false_eq_true, if_false, hw]
          unfold ACharacterCore.CheckVaultMantle
          dsimp only
          split_ifs
          · exact Or.inl rfl
          · exact Or.inr ⟨_, rfl⟩
        · have hfail' : (ACharacterCore.CheckVaultScan scene ForwardHit.ImpactNormal MantleHit
              w).1.bVaultFailed = false := by simpa using hfail
          simp only [hfail', Bool.not_false, if_true]
          rw [h1]
          cases hr : vaultScanRefAmended w.Character.MaxMantleHeight []
              (ACharacterCore.VaultScanSamples scene MantleHit w.Character) with
          | none => exact Or.inl rfl
          | some s => exact Or.inr ⟨_, rfl⟩

/-! ## The traversal probe -/

/-- C22 (the code at the failing input). With `VaultTraceAmount = 3` and a scene in
which no downward probe hits, the staircase scan runs its loop body for
`i = 0, 1, 2, 3`: it takes four samples, leaves the loop with `i = 4`, and has
marched the probe origin four steps of 5 units forward (from `X = 55` to
`X = 75`). -/
theorem C22_scan_makes_one_more_step :
    AirborneWorld.Character.VaultTraceAmount = 3 ∧
      (ACharacterCore.VaultScanSamples VoidScene SurfaceMantleHit AirborneWorld.Character).length
        = 4 ∧
      (ACharacterCore.CheckVaultScan VoidScene { X := -1, Y := 0, Z := 0 } SurfaceMantleHit
        AirborneWorld).1.i = 4 ∧
      (ACharacterCore.CheckVaultScan VoidScene { X := -1, Y := 0, Z := 0 } SurfaceMantleHit
        AirborneWorld).1.SecondaryVaultStartLocation = { X := 75, Y := 0, Z := 135 } ∧
      (ACharacterCore.VaultLocals SurfaceMantleHit AirborneWorld.Character).SecondaryVaultStartLocation
        = { X := 55, Y := 0, Z := 135 } ∧
      ACharacterCore.ForwardAddition VoidScene AirborneWorld.Character = { X := 5, Y := 0, Z := 0 } := by
  decide!

/-- On probe results in which no step has a missing downward probe together with
a headroom probe that hits, the amended reference scan is the reference scan. -/
theorem vaultScanRefAmended_eq_vaultScanRef (MaxMantleHeight : ℚ)
    (Samples : List FVaultSample) :
    ∀ Valid : List ℚ, (∀ s ∈ Samples, s.bDownHit = false → s.bHeadroomHit = false) →
      vaultScanRefAmended MaxMantleHeight Valid Samples
        = vaultScanRef MaxMantleHeight Valid Samples := by
  induction Samples with
  | nil =>
    intro Valid _
    rfl
  | cons s Rest ih =>
    intro Valid h
    have hs := h s (List.mem_cons_self s Rest)
    have hrest : ∀ t ∈ Rest, t.bDownHit = false → t.bHeadroomHit = false :=
      fun t ht => h t (List.mem_cons_of_mem s ht)
    have hstop : (s.bDownHit && s.bHeadroomHit) = s.bHeadroomHit := by
      cases hd : s.bDownHit
      · rw [hs hd]
        rfl
      · rfl
    unfold vaultScanRefAmended vaultScanRef
    rw [hstop, ih _ hrest]

/-- C23 (as stated, refuted). A scan of six steps whose first step has nothing
beneath it and an overhang above it: the downward probe of that step misses and
its headroom probe hits, so the scan as the claim words it stops there without
acceptance.  The code passes that step over, takes the heights 5, 40, 40 at the
next three steps and accepts the fourth step: the scan does not fail, and
`CheckVault` puts the character in Vault with the landing point of that step as
the end of the traversal. -/
theorem C23_counterexample :
    (ACharacterCore.VaultScanSamples OverhangScene SurfaceMantleHit LongScanWorld.Character).map
        (fun s => (s.bDownHit, s.bHeadroomHit, s.Height))
      = [(false, true, 0), (true, false, 5), (true, false, 40), (true, false, 40),
         (true, false, 40), (true, false, 40)] ∧
    vaultScanRef LongScanWorld.Character.MaxMantleHeight []
        (ACharacterCore.VaultScanSamples OverhangScene SurfaceMantleHit LongScanWorld.Character)
      = none ∧
    ACharacterCore.VaultStandSweep OverhangScene
        { bBlockingHit := true
          Location := { X := 10, Y := 0, Z := 100 }
          ImpactPoint := { X := 40, Y := 0, Z := 100 }
          ImpactNormal := { X := -1, Y := 0, Z := 0 } } LongScanWorld
      = some SurfaceMantleHit ∧
    (ACharacterCore.CheckVaultScan OverhangScene { X := -1, Y := 0, Z := 0 } SurfaceMantleHit
        LongScanWorld).1.bVaultFailed = false ∧
    (ACharacterCore.CheckVaultScan OverhangScene { X := -1, Y := 0, Z := 0 } SurfaceMantleHit
        LongScanWorld).1.i = 3 ∧
    (ACharacterCore.CheckVault OverhangScene LongScanWorld).Character.MovementState
      = .State_Vault ∧
    (ACharacterCore.CheckVault OverhangScene LongScanWorld).Character.VaultEndLocation.Location
      = { X := 75, Y := 0, Z := 185 } := by
  decide!

/-- C23 (amended). The staircase scan of `CheckVault` equals the amended reference
scan on the probe results of its steps: it accepts the first step whose downward
probe hits, whose headroom probe does not hit, whose trace height differs from
the height of the first valid sample by more than 20, is below `MaxMantleHeight`
and is within 3 of the height of the previous valid sample, and whose landing
sweep is unobstructed; it passes over a step whose downward probe misses
(whatever the headroom ray of that step would give) and a step whose landing
sweep is obstructed; it stops without acceptance at the first step whose
downward probe hits and whose headroom probe hits.  The scan fails
(`bVaultFailed`) exactly when the amended reference accepts no step, and then the
world is unchanged; on acceptance the character is in Vault, `bIsVaulting` is set
and the accepted landing point is the end of the traversal.  Where no step has a
missing downward probe together with a headroom probe that hits, the amended
reference is the scan as the claim words it. -/
theorem C23_staircase_scan (scene : FScene) (ForwardImpactNormal : FVector)
    (MantleHit : FTraceHit) (w : World) :
    (ACharacterCore.CheckVaultScan scene ForwardImpactNormal MantleHit w).2 =
        (match vaultScanRefAmended w.Character.MaxMantleHeight []
            (ACharacterCore.VaultScanSamples scene MantleHit w.Character) with
          | some s =>
            ACharacterCore.AcceptVault
              (ACharacterCore.VaultTarget scene ForwardImpactNormal s.Point) w
          | none => w) ∧
      (ACharacterCore.CheckVaultScan scene ForwardImpactNormal MantleHit w).1.bVaultFailed =
        (vaultScanRefAmended w.Character.MaxMantleHeight []
            (ACharacterCore.VaultScanSamples scene MantleHit w.Character)).isNone ∧
      (∀ s, vaultScanRefAmended w.Character.MaxMantleHeight []
          (ACharacterCore.VaultScanSamples scene MantleHit w.Character) = some s →
        (ACharacterCore.CheckVaultScan scene ForwardImpactNormal MantleHit
            w).2.Character.MovementState = .State_Vault ∧
          (ACharacterCore.CheckVaultScan scene ForwardImpactNormal MantleHit
            w).2.Character.bIsVaulting = true ∧
          (ACharacterCore.CheckVaultScan scene ForwardImpactNormal MantleHit
            w).2.Character.VaultEndLocation.Location = s.Point) ∧
      ((∀ s ∈ ACharacterCore.VaultScanSamples scene MantleHit w.Character,
          s.bDownHit = false → s.bHeadroomHit = false) →
        vaultScanRefAmended w.Character.MaxMantleHeight []
            (ACharacterCore.VaultScanSamples scene MantleHit w.Character)
          = vaultScanRef w.Character.MaxMantleHeight []
            (ACharacterCore.VaultScanSamples scene MantleHit w.Character)) := by
  obtain ⟨h1, h2⟩ :=
    CheckVaultScan_eq_vaultScanRefAmended scene ForwardImpactNormal MantleHit w
  refine ⟨h1, h2, ?_, vaultScanRefAmended_eq_vaultScanRef _ _ []⟩
  intro s hs
  rw [h1, hs]
  obtain ⟨a, b, c⟩ := AcceptVault_Character
    (ACharacterCore.VaultTarget scene ForwardImpactNormal s.Point) w
  refine ⟨a, b, ?_⟩
  show (ACharacterCore.AcceptVault (ACharacterCore.VaultTarget scene ForwardImpactNormal s.Point)
    w).Character.VaultEndLocation.Location = s.Point
  rw [c]
  rfl

/-- Witness for C23: over a surface that drops from height 130 to height 95, the
scan takes the heights 5, 40, 40 and accepts the third step. -/
theorem C23_witness :
    vaultScanRefAmended AirborneWorld.Character.MaxMantleHeight []
        (ACharacterCore.VaultScanSamples DropScene SurfaceMantleHit AirborneWorld.Character)
      = some { bDownHit := true
               bHeadroomHit := false
               Height := 40
               bLandingObstructed := false
               Point := { X := 70, Y := 0, Z := 185 } } ∧
    ((ACharacterCore.CheckVaultScan DropScene { X := -1, Y := 0, Z := 0 } SurfaceMantleHit
          AirborneWorld).2.Character.MovementState = .State_Vault ∧
      (ACharacterCore.CheckVaultScan DropScene { X := -1, Y := 0, Z := 0 } SurfaceMantleHit
          AirborneWorld).2.Character.bIsVaulting = true ∧
      (ACharacterCore.CheckVaultScan DropScene { X := -1, Y := 0, Z := 0 } SurfaceMantleHit
          AirborneWorld).2.Character.VaultEndLocation.Location = { X := 70, Y := 0, Z := 185 }) :=
  ⟨by decide!,
    (C23_staircase_scan DropScene { X := -1, Y := 0, Z := 0 } SurfaceMantleHit
        AirborneWorld).2.2.1
      { bDownHit := true
        bHeadroomHit := false
        Height := 40
        bLandingObstructed := false
        Point := { X := 70, Y := 0, Z := 185 } } (by decide!)⟩

/-- C24. The mantle fallback of `CheckVault`.  If the entry conditions, the forward
sweep or the standability sweep fail, the call leaves the world unchanged.  If
they succeed and the staircase scan ends without acceptance, then: when the
sphere sweep at the mantle candidate is obstructed the call leaves the world
unchanged; when it is unobstructed the mantle candidate is accepted, so that the
character is in Vault, `bIsVaulting` is set and the candidate is the end of the
traversal. -/
theorem C24_mantle_fallback (scene : FScene) (w : World) :
    ((ACharacterCore.CheckVaultGate scene w = false ∨
        ACharacterCore.VaultForwardSweep scene w = none ∨
        ∃ ForwardHit, ACharacterCore.VaultForwardSweep scene w = some ForwardHit ∧
          ACharacterCore.VaultStandSweep scene ForwardHit w = none) →
      ACharacterCore.CheckVault scene w = w) ∧
    (∀ ForwardHit MantleHit,
      ACharacterCore.CheckVaultGate scene w = true →
      ACharacterCore.VaultForwardSweep scene w = some ForwardHit →
      ACharacterCore.VaultStandSweep scene ForwardHit w = some MantleHit →
      (ACharacterCore.CheckVaultScan scene ForwardHit.ImpactNormal MantleHit w).1.bVaultFailed
        = true →
      (ACharacterCore.LandingSweepHit scene w.Character
          (ACharacterCore.DownTracePoint MantleHit
            (w.Character.CapsuleComponent.GetScaledCapsuleHalfHeight + 2)) = true →
        ACharacterCore.CheckVault scene w = w) ∧
      (ACharacterCore.LandingSweepHit scene w.Character
          (ACharacterCore.DownTracePoint MantleHit
            (w.Character.CapsuleComponent.GetScaledCapsuleHalfHeight + 2)) = false →
        ACharacterCore.CheckVault scene w =
            ACharacterCore.AcceptVault
              (ACharacterCore.VaultTarget scene ForwardHit.ImpactNormal
                (ACharacterCore.DownTracePoint MantleHit
                  (w.Character.CapsuleComponent.GetScaledCapsuleHalfHeight + 2))) w ∧
          (ACharacterCore.CheckVault scene w).Character.MovementState = .State_Vault ∧
          (ACharacterCore.CheckVault scene w).Character.bIsVaulting = true ∧
          (ACharacterCore.CheckVault scene w).Character.VaultEndLocation.Location =
            ACharacterCore.DownTracePoint MantleHit
              (w.Character.CapsuleComponent.GetScaledCapsuleHalfHeight + 2))) := by
  refine ⟨?_, ?_⟩
  · intro h
    rcases h with h | h | ⟨ForwardHit, h1, h2⟩
    · exact CheckVault_of_not_gate scene w h
    · unfold ACharacterCore.CheckVault
      split_ifs
      · rfl
      · simp only [h]
    · unfold ACharacterCore.CheckVault
      split_ifs
      · rfl
      · simp only [h1, h2]
  · intro ForwardHit MantleHit hg hf hm hfail
    have hw := CheckVaultScan_of_failed scene ForwardHit.ImpactNormal MantleHit w hfail
    have hcv : ACharacterCore.CheckVault scene w
        = ACharacterCore.CheckVaultMantle scene ForwardHit.ImpactNormal MantleHit w := by
      unfold ACharacterCore.CheckVault
      simp only [hg, Bool.not_true, Bool.false_eq_true, if_false, hf, hm, hfail, hw]
    refine ⟨?_, ?_⟩
    · intro hl
      rw [hcv]
      unfold ACharacterCore.CheckVaultMantle
      simp only [hl, if_true]
    · intro hl
      have hacc : ACharacterCore.CheckVault scene w =
          ACharacterCore.AcceptVault
            (ACharacterCore.VaultTarget scene ForwardHit.ImpactNormal
              (ACharacterCore.DownTracePoint MantleHit
                (w.Character.CapsuleComponent.GetScaledCapsuleHalfHeight + 2))) w := by
        rw [hcv]
        unfold ACharacterCore.CheckVaultMantle
        simp only [hl, Bool.false_eq_true, if_false]
      obtain ⟨a, b, c⟩ := AcceptVault_Character
        (ACharacterCore.VaultTarget scene ForwardHit.ImpactNormal
          (ACharacterCore.DownTracePoint MantleHit
            (w.Character.CapsuleComponent.GetScaledCapsuleHalfHeight + 2))) w
      refine ⟨hacc, ?_, ?_, ?_⟩
      · rw [hacc]
        exact a
      · rw [hacc]
        exact b
      · rw [hacc, c]
        rfl

/-- Witness for C24: over a flat surface the staircase scan finds no step down and
fails, the sweep at the mantle candidate is unobstructed, and the mantle is
accepted. -/
theorem C24_witness :
    (ACharacterCore.CheckVaultGate PlateauScene AirborneWorld = true ∧
      ACharacterCore.VaultForwardSweep PlateauScene AirborneWorld
        = some { bBlockingHit := true
                 Location := { X := 10, Y := 0, Z := 100 }
                 ImpactPoint := { X := 40, Y := 0, Z := 100 }
                 ImpactNormal := { X := -1, Y := 0, Z := 0 } } ∧
      ACharacterCore.VaultStandSweep PlateauScene
          { bBlockingHit := true
            Location := { X := 10, Y := 0, Z := 100 }
            ImpactPoint := { X := 40, Y := 0, Z := 100 }
            ImpactNormal := { X := -1, Y := 0, Z := 0 } } AirborneWorld
        = some SurfaceMantleHit ∧
      (ACharacterCore.CheckVaultScan PlateauScene { X := -1, Y := 0, Z := 0 } SurfaceMantleHit
        AirborneWorld).1.bVaultFailed = true ∧
      ACharacterCore.LandingSweepHit PlateauScene AirborneWorld.Character
          (ACharacterCore.DownTracePoint SurfaceMantleHit
            (AirborneWorld.Character.CapsuleComponent.GetScaledCapsuleHalfHeight + 2)) = false) ∧
    ((ACharacterCore.CheckVault PlateauScene AirborneWorld).Character.MovementState
        = .State_Vault ∧
      (ACharacterCore.CheckVault PlateauScene AirborneWorld).Character.bIsVaulting = true ∧
      (ACharacterCore.CheckVault PlateauScene AirborneWorld).Character.VaultEndLocation.Location =
        ACharacterCore.DownTracePoint SurfaceMantleHit
          (AirborneWorld.Character.CapsuleComponent.GetScaledCapsuleHalfHeight + 2)) :=
  ⟨⟨by decide!, by decide!, by decide!, by decide!, by decide!⟩,
    (((C24_mantle_fallback PlateauScene AirborneWorld).2
      { bBlockingHit := true
        Location := { X := 10, Y := 0, Z := 100 }
        ImpactPoint := { X := 40, Y := 0, Z := 100 }
        ImpactNormal := { X := -1, Y := 0, Z := 0 } } SurfaceMantleHit
      (by decide!) (by decide!) (by decide!) (by decide!)).2 (by decide!)).2⟩

/-! ## The reload policy of the inventory component -/

/-- A transition keeps `bCanReload` false when the table entry for the new state,
if there is one, forbids reloading. -/
theorem UpdateMovementState_bCanReload (s : EMovementState) (w : World)
    (hr : w.Weapon.bCanReload = false)
    (hd : ∀ Data, MovementDataMapFind w.Character.MovementDataMap s = some Data →
      Data.bCanReload = false) :
    (ACharacterCore.UpdateMovementState s w).Weapon.bCanReload = false := by
  unfold ACharacterCore.UpdateMovementState
  cases hf : MovementDataMapFind w.Character.MovementDataMap s with
  | none => simp [hf, hr]
  | some Data =>
    have := hd Data hf
    cases hinv : w.Character.InventoryComponent with
    | none => simp [hf, hinv, hr]
    | some Inventory =>
      by_cases hw : Inventory.bHasCurrentWeapon = true
      · simp [hf, hinv, hw, this]
      · simp [hf, hinv, hw, hr]

/-- Under the `ChangeState` policy, `UInventoryComponent::Reload` returns at no
depth of calls when a weapon is equipped that refuses to reload and the table has
no Walk entry that allows reloading. -/
theorem Reload_ChangeState_not_returning (wd : FStaticWeaponData) (Depth : Nat) :
    ∀ (w : World) (Inventory : UInventoryComponent),
      w.Character.InventoryComponent = some Inventory →
      Inventory.bHasCurrentWeapon = true →
      w.Weapon.bCanReload = false →
      (∀ Data, MovementDataMapFind w.Character.MovementDataMap .State_Walk = some Data →
        Data.bCanReload = false) →
      UInventoryComponent.Reload wd .ChangeState Depth w = none := by
  induction Depth with
  | zero =>
    intro w Inventory _ _ _ _
    rfl
  | succ n ih =>
    intro w Inventory hi hw hr hd
    have hR : AWeapon.Reload wd w = (false, w) := by
      unfold AWeapon.Reload
      simp [hr]
    unfold UInventoryComponent.Reload
    simp only [hi, hw, if_true, hR]
    apply ih _ Inventory
    · rw [UpdateMovementState_Character]
      exact hi
    · exact hw
    · exact UpdateMovementState_bCanReload .State_Walk w hr hd
    · intro Data hf
      rw [UpdateMovementState_Character] at hf
      exact hd Data hf

/-- Under the `ChangeState` policy, when the equipped weapon refuses to reload and
the Walk entry of the table allows reloading, `UInventoryComponent::Reload`
returns after one call of itself, with the outcome of the second reload of the
weapon. -/
theorem Reload_ChangeState_returns (wd : FStaticWeaponData) (w : World)
    (Inventory : UInventoryComponent) (Data : FMovementVariables)
    (hi : w.Character.InventoryComponent = some Inventory)
    (hw : Inventory.bHasCurrentWeapon = true)
    (hr : w.Weapon.bCanReload = false)
    (hd : MovementDataMapFind w.Character.MovementDataMap .State_Walk = some Data)
    (hc : Data.bCanReload = true) :
    UInventoryComponent.Reload wd .ChangeState 2 w
      = some (AWeapon.Reload wd (ACharacterCore.UpdateMovementState .State_Walk w)).2 := by
  have hR : AWeapon.Reload wd w = (false, w) := by
    unfold AWeapon.Reload
    simp [hr]
  have hW := UpdateMovementState_Weapon .State_Walk w Data Inventory hd hi hw
  have hR2 : (AWeapon.Reload wd (ACharacterCore.UpdateMovementState .State_Walk w)).1 = true := by
    unfold AWeapon.Reload
    rw [hW]
    simp only [hc]
    simp only [Bool.not_true, Bool.false_eq_true, if_false]
    split
    · rfl
    · split_ifs <;> rfl
  have hI : (ACharacterCore.UpdateMovementState .State_Walk w).Character.InventoryComponent
      = some Inventory := by
    rw [UpdateMovementState_Character]
    exact hi
  unfold UInventoryComponent.Reload
  simp only [hi, hw, if_true, hR]
  unfold UInventoryComponent.Reload
  simp only [hI, hw, if_true]
  cases hres : AWeapon.Reload wd (ACharacterCore.UpdateMovementState .State_Walk w) with
  | mk b w1 =>
    rw [hres] at hR2
    simp only at hR2
    subst hR2
    rfl

/-- C25 (the code at the failing input). A sprinting character whose movement
table lacks the Walk entry, with a weapon whose `bCanReload` is false: under the
`ChangeState` policy `UInventoryComponent::Reload` does not return at any depth
of its calls of itself. -/
theorem C25_Reload_ChangeState_never_returns :
    StuckReloadWorld.Weapon.bCanReload = false ∧
      MovementDataMapFind StuckReloadWorld.Character.MovementDataMap .State_Walk = none ∧
      ∀ Depth, UInventoryComponent.Reload BasicWeaponData .ChangeState Depth StuckReloadWorld
        = none :=
  ⟨by decide, by decide, fun Depth =>
    Reload_ChangeState_not_returning BasicWeaponData Depth StuckReloadWorld
      { bHasCurrentWeapon := true } (by decide) rfl (by decide)
      (fun Data h => by
        have h0 : MovementDataMapFind StuckReloadWorld.Character.MovementDataMap .State_Walk
            = none := by decide
        rw [h0] at h
        exact Option.noConfusion h)⟩

/-! ## Start-fire -/

/-- C26 (as stated, refuted). With `bCanFire` true and an empty clip, `StartFire`
arms the cadence timer but begins no recoil playback, takes no snapshot of the
control rotation and does not set `bShouldRecover`. -/
theorem C26_counterexample :
    (IdleWorld 0 30 50).Weapon.bCanFire = true ∧
      (AWeapon.StartFire BasicWeaponData (some { Pitch := 10, Yaw := 20, Roll := 0 })
        (IdleWorld 0 30 50)).Weapon.ShotDelay.isSome = true ∧
      (AWeapon.StartFire BasicWeaponData (some { Pitch := 10, Yaw := 20, Roll := 0 })
        (IdleWorld 0 30 50)).Weapon.VerticalRecoilTimeline.bPlaying = false ∧
      (AWeapon.StartFire BasicWeaponData (some { Pitch := 10, Yaw := 20, Roll := 0 })
        (IdleWorld 0 30 50)).Weapon.HorizontalRecoilTimeline.bPlaying = false ∧
      (AWeapon.StartFire BasicWeaponData (some { Pitch := 10, Yaw := 20, Roll := 0 })
        (IdleWorld 0 30 50)).Weapon.ControlRotation = { Pitch := 0, Yaw := 0, Roll := 0 } ∧
      (AWeapon.StartFire BasicWeaponData (some { Pitch := 10, Yaw := 20, Roll := 0 })
        (IdleWorld 0 30 50)).Weapon.bShouldRecover = false := by
  decide

/-- C26 (amended). `StartFire` with a non-zero rate of fire: if `bCanFire` is false
the world is unchanged; if it is true, the cadence timer is armed with callback
`Fire`, rate `60 / RateOfFire`, looping iff the weapon is automatic, and first
delay 0.  If in addition the clip holds a round, the weapon is not reloading and
the character has a controller, both recoil timelines play from the start, the
control rotation is saved and `bShouldRecover` is set; otherwise nothing but the
timer is written. -/
theorem C26_StartFire (wd : FStaticWeaponData) (ControlRotation : Option FRotator) (w : World)
    (_hrate : wd.RateOfFire ≠ 0) :
    (w.Weapon.bCanFire = false → AWeapon.StartFire wd ControlRotation w = w) ∧
    (w.Weapon.bCanFire = true →
      (AWeapon.StartFire wd ControlRotation w).Weapon.ShotDelay =
          some { Callback := .Fire
                 Rate := 60 / wd.RateOfFire
                 bLoop := wd.bAutomaticFire
                 FirstDelay := 0 } ∧
        (∀ Rotation, ControlRotation = some Rotation →
          w.Weapon.GeneralWeaponData.ClipSize > 0 → w.Weapon.bIsReloading = false →
          (AWeapon.StartFire wd ControlRotation w).Weapon =
            { w.Weapon with
              ShotDelay := some { Callback := .Fire
                                  Rate := 60 / wd.RateOfFire
                                  bLoop := wd.bAutomaticFire
                                  FirstDelay := 0 }
              VerticalRecoilTimeline := { bPlaying := true, Position := 0 }
              HorizontalRecoilTimeline := { bPlaying := true, Position := 0 }
              ControlRotation := Rotation
              bShouldRecover := true }) ∧
        ((ControlRotation = none ∨ w.Weapon.GeneralWeaponData.ClipSize ≤ 0
            ∨ w.Weapon.bIsReloading = true) →
          (AWeapon.StartFire wd ControlRotation w).Weapon =
            { w.Weapon with
              ShotDelay := some { Callback := .Fire
                                  Rate := 60 / wd.RateOfFire
                                  bLoop := wd.bAutomaticFire
                                  FirstDelay := 0 } })) := by
  refine ⟨?_, ?_⟩
  · intro hf
    unfold AWeapon.StartFire
    simp [hf]
  · intro hf
    refine ⟨?_, ?_, ?_⟩
    · unfold AWeapon.StartFire AWeapon.StartRecoil
      simp only [hf, if_true]
      dsimp only
      cases ControlRotation <;> split_ifs <;> rfl
    · intro Rotation hr hc hl
      unfold AWeapon.StartFire AWeapon.StartRecoil
      subst hr
      simp [hf, hc, hl, SetTimer, FTimeline.PlayFromStart]
    · intro h
      unfold AWeapon.StartFire AWeapon.StartRecoil
      simp only [hf, if_true]
      dsimp only
      rcases h with h | h | h
      · subst h
        split_ifs <;> rfl
      · have : ¬ w.Weapon.GeneralWeaponData.ClipSize > 0 := by omega
        simp [this, SetTimer]
      · simp [h, SetTimer]

/-- Witness for C26: the idle weapon with ten rounds in the clip. -/
theorem C26_witness :
    (BasicWeaponData.RateOfFire ≠ 0 ∧ (IdleWorld 10 30 50).Weapon.bCanFire = true) ∧
    (AWeapon.StartFire BasicWeaponData (some { Pitch := 10, Yaw := 20, Roll := 0 })
        (IdleWorld 10 30 50)).Weapon.ShotDelay =
      some { Callback := .Fire
             Rate := 60 / BasicWeaponData.RateOfFire
             bLoop := BasicWeaponData.bAutomaticFire
             FirstDelay := 0 } :=
  ⟨⟨by decide, by decide⟩,
    ((C26_StartFire BasicWeaponData (some { Pitch := 10, Yaw := 20, Roll := 0 })
      (IdleWorld 10 30 50) (by decide)).2 (by decide)).1⟩

/-! ## The per-frame update: auxiliary facts -/

theorem TickVaultTimeline_of_not_playing (tl : FVaultTimelineData) (DeltaTime : ℚ) (w : World)
    (h : w.Character.VaultTimeline.bPlaying = false) :
    ACharacterCore.TickVaultTimeline tl DeltaTime w = w := by
  unfold ACharacterCore.TickVaultTimeline FTimeline.TickTimeline
  simp [h]

theorem TimelineProgress_bWantsToAim (Value : ℚ) (w : World) :
    (ACharacterCore.TimelineProgress Value w).Character.bWantsToAim = w.Character.bWantsToAim := by
  unfold ACharacterCore.TimelineProgress
  dsimp only
  split_ifs <;> (try simp only [UpdateMovementState_Character])

theorem TickBeforeAim_bWantsToAim (tl : FVaultTimelineData) (scene : FScene) (DeltaTime : ℚ)
    (w : World) :
    (ACharacterCore.TickBeforeAim tl scene DeltaTime w).Character.bWantsToAim
      = w.Character.bWantsToAim := by
  have h1 : (ACharacterCore.TickVaultTimeline tl DeltaTime w).Character.bWantsToAim
      = w.Character.bWantsToAim := by
    unfold ACharacterCore.TickVaultTimeline
    split
    · split
      · rw [TimelineProgress_bWantsToAim]
      · rfl
    · rfl
  have h2 : ∀ v : World, (ACharacterCore.TickCapsule DeltaTime v).Character.bWantsToAim
      = v.Character.bWantsToAim := fun v => rfl
  have h3 : ∀ v : World, (ACharacterCore.TickSprintAngle scene v).Character.bWantsToAim
      = v.Character.bWantsToAim := by
    intro v
    unfold ACharacterCore.TickSprintAngle
    dsimp only
    split_ifs <;> (try simp only [UpdateMovementState_Character])
  unfold ACharacterCore.TickBeforeAim
  rw [h3, h2, h1]

theorem AcceptVault_aim (Target : FTransform) (w : World) :
    (ACharacterCore.AcceptVault Target w).Character.bIsAiming = w.Character.bIsAiming ∧
      (ACharacterCore.AcceptVault Target w).Character.bWantsToAim = w.Character.bWantsToAim := by
  simp [ACharacterCore.AcceptVault, ACharacterCore.Vault, UpdateMovementState_Character]

theorem CheckVault_aim (scene : FScene) (w : World) :
    (ACharacterCore.CheckVault scene w).Character.bIsAiming = w.Character.bIsAiming ∧
      (ACharacterCore.CheckVault scene w).Character.bWantsToAim = w.Character.bWantsToAim := by
  rcases CheckVault_cases scene w with h | ⟨Target, h⟩
  · rw [h]
    exact ⟨rfl, rfl⟩
  · rw [h]
    exact AcceptVault_aim Target w

theorem TickSlide_aim (env : FSurroundings) (w : World) :
    (ACharacterCore.TickSlide env w).Character.bIsAiming = w.Character.bIsAiming ∧
      (ACharacterCore.TickSlide env w).Character.bWantsToAim = w.Character.bWantsToAim := by
  unfold ACharacterCore.TickSlide ACharacterCore.StartSlide
  dsimp only
  split_ifs
  · simp [UpdateMovementState_Character]
  · exact ⟨rfl, rfl⟩

theorem CheckGroundAngle_aim (scene : FScene) (w : World) :
    (ACharacterCore.CheckGroundAngle scene w).Character.bIsAiming = w.Character.bIsAiming ∧
      (ACharacterCore.CheckGroundAngle scene w).Character.bWantsToAim
        = w.Character.bWantsToAim := by
  unfold ACharacterCore.CheckGroundAngle
  dsimp only
  split <;> exact ⟨rfl, rfl⟩

theorem TickAim_Character (w : World) :
    (ACharacterCore.TickAim w).Character =
      { w.Character with
        bIsAiming := decide (w.Character.bWantsToAim = true
          ∧ w.Character.MovementState ≠ .State_Sprint
          ∧ w.Character.MovementState ≠ .State_Slide) } := by
  unfold ACharacterCore.TickAim
  split_ifs with h
  · simp [h]
  · simp [h]

theorem TickSprintAngle_of_not_restricting (scene : FScene) (w : World)
    (hs : w.Character.MovementState ≠ .State_Sprint)
    (hr : w.Character.bRestrictSprintAngle = false ∨ w.Character.bRestrictingSprint = false
      ∨ w.Character.bWantsToSprint = false) :
    ACharacterCore.TickSprintAngle scene w = w := by
  unfold ACharacterCore.TickSprintAngle
  dsimp only
  split_ifs with h1 h2 h3
  · exact absurd h2.2 hs
  · rcases hr with hr | hr | hr
    · rw [hr] at h1
      exact absurd h1 (by decide)
    · rw [hr] at h3
      exact absurd h3.2.1 (by decide)
    · rw [hr] at h3
      exact absurd h3.2.2.1 (by decide)
  · rfl
  · rfl

theorem CheckVaultGate_of_grounded (scene : FScene) (w : World)
    (h : w.Character.bCanVault = false ∨ scene.bIsFalling = false) :
    ACharacterCore.CheckVaultGate scene w = false := by
  unfold ACharacterCore.CheckVaultGate
  rcases h with h | h
  · simp [h]
  · simp [h]

theorem CheckGroundAngle_slide (scene : FScene) (w : World) :
    (ACharacterCore.CheckGroundAngle scene w).Character.MovementState
        = w.Character.MovementState ∧
      (ACharacterCore.CheckGroundAngle scene w).Character.bPerformedSlide
        = w.Character.bPerformedSlide ∧
      (ACharacterCore.CheckGroundAngle scene w).Character.SlideStop = w.Character.SlideStop := by
  unfold ACharacterCore.CheckGroundAngle
  dsimp only
  split <;> exact ⟨rfl, rfl, rfl⟩

theorem TickSlide_slide (env : FSurroundings) (w : World)
    (hs : w.Character.MovementState = .State_Slide) :
    (ACharacterCore.TickSlide env w).Character.MovementState = .State_Slide ∧
      (ACharacterCore.TickSlide env w).Character.bCanVault = w.Character.bCanVault ∧
      (w.Character.bPerformedSlide = true → ACharacterCore.TickSlide env w = w) := by
  unfold ACharacterCore.TickSlide ACharacterCore.StartSlide
  dsimp only
  split_ifs with h
  · refine ⟨?_, ?_, ?_⟩
    · simp [UpdateMovementState_Character]
    · simp [UpdateMovementState_Character]
    · intro hp
      rw [hp] at h
      simp at h
  · exact ⟨hs, rfl, fun _ => rfl⟩

/-! ## The per-frame update and the end of a slide -/

/-- C27 (as stated, refuted). A sliding character on level ground (floor angle 0
above the continue threshold -7), grounded, with performed-slide set and the
fallback timer armed: after one `Tick` the movement state is still Slide,
performed-slide is still set and the fallback timer is as it was. -/
theorem C27_counterexample :
    SlidingWorld.Character.MovementState = .State_Slide ∧
      SlidingWorld.Character.FloorAngle > SlidingWorld.Character.SlideContinueAngle ∧
      SlidingWorld.Character.bPerformedSlide = true ∧
      (ACharacterCore.Tick LinearVaultTimeline ClearSurroundings StandingScene 1
        SlidingWorld).Character.MovementState = .State_Slide ∧
      (ACharacterCore.Tick LinearVaultTimeline ClearSurroundings StandingScene 1
        SlidingWorld).Character.bPerformedSlide = true ∧
      (ACharacterCore.Tick LinearVaultTimeline ClearSurroundings StandingScene 1
        SlidingWorld).Character.SlideStop = SlidingWorld.Character.SlideStop := by
  decide!

/-- C27 (amended). `Tick` does not apply the slide-exit policy.  For a character in
Slide whose vault timeline is not playing, for whom no return to Sprint is
pending from the sprint-angle restriction, and who is not falling (or may not
vault), the movement state after `Tick` is Slide whatever the floor angle; if
performed-slide was set it stays set and the fallback timer is as it was. -/
theorem C27_Tick_leaves_slide_exit_to_ReleaseCrouch (tl : FVaultTimelineData)
    (env : FSurroundings) (scene : FScene) (DeltaTime : ℚ) (w : World)
    (hs : w.Character.MovementState = .State_Slide)
    (hp : w.Character.VaultTimeline.bPlaying = false)
    (hr : w.Character.bRestrictSprintAngle = false ∨ w.Character.bRestrictingSprint = false
      ∨ w.Character.bWantsToSprint = false)
    (hv : w.Character.bCanVault = false ∨ scene.bIsFalling = false) :
    (ACharacterCore.Tick tl env scene DeltaTime w).Character.MovementState = .State_Slide ∧
      (w.Character.bPerformedSlide = true →
        (ACharacterCore.Tick tl env scene DeltaTime w).Character.bPerformedSlide = true ∧
          (ACharacterCore.Tick tl env scene DeltaTime w).Character.SlideStop
            = w.Character.SlideStop) := by
  have e1 : ACharacterCore.TickBeforeAim tl scene DeltaTime w
      = ACharacterCore.TickCapsule DeltaTime w := by
    unfold ACharacterCore.TickBeforeAim
    rw [TickVaultTimeline_of_not_playing tl DeltaTime w hp]
    apply TickSprintAngle_of_not_restricting
    · show w.Character.MovementState ≠ .State_Sprint
      rw [hs]
      decide
    · exact hr
  have e2 : (ACharacterCore.TickAim (ACharacterCore.TickCapsule DeltaTime w)).Character
      = { w.Character with
          CapsuleComponent := (ACharacterCore.TickCapsule DeltaTime w).Character.CapsuleComponent
          bIsAiming := false } := by
    rw [TickAim_Character]
    have hst : (ACharacterCore.TickCapsule DeltaTime w).Character.MovementState
        = .State_Slide := hs
    have hd : decide ((ACharacterCore.TickCapsule DeltaTime w).Character.bWantsToAim = true
        ∧ (ACharacterCore.TickCapsule DeltaTime w).Character.MovementState ≠ .State_Sprint
        ∧ (ACharacterCore.TickCapsule DeltaTime w).Character.MovementState ≠ .State_Slide)
        = false := by
      simp [hst]
    rw [hd]
    rfl
  obtain ⟨s1, s2, s3⟩ := TickSlide_slide env
    (ACharacterCore.TickAim (ACharacterCore.TickCapsule DeltaTime w))
    (by rw [e2]; exact hs)
  have hgate : ACharacterCore.CheckVaultGate scene (ACharacterCore.TickSlide env
      (ACharacterCore.TickAim (ACharacterCore.TickCapsule DeltaTime w))) = false := by
    apply CheckVaultGate_of_grounded
    rcases hv with hv | hv
    · left
      rw [s2, e2]
      exact hv
    · exact Or.inr hv
  unfold ACharacterCore.Tick
  dsimp only
  rw [e1, CheckVault_of_not_gate scene _ hgate]
  obtain ⟨g1, g2, g3⟩ := CheckGroundAngle_slide scene (ACharacterCore.TickSlide env
      (ACharacterCore.TickAim (ACharacterCore.TickCapsule DeltaTime w)))
  rw [g1, g2, g3]
  refine ⟨s1, ?_⟩
  intro hps
  rw [s3 (by rw [e2]; exact hps), e2]
  exact ⟨hps, rfl⟩

/-- Witness for C27: the sliding character on level ground. -/
theorem C27_witness :
    (SlidingWorld.Character.MovementState = .State_Slide ∧
      SlidingWorld.Character.VaultTimeline.bPlaying = false ∧
      SlidingWorld.Character.bRestrictSprintAngle = false ∧
      StandingScene.bIsFalling = false ∧
      SlidingWorld.Character.FloorAngle > SlidingWorld.Character.SlideContinueAngle) ∧
    (ACharacterCore.Tick LinearVaultTimeline ClearSurroundings StandingScene 1
      SlidingWorld).Character.MovementState = .State_Slide :=
  ⟨⟨by decide, by decide, by decide, by decide, by decide⟩,
    (C27_Tick_leaves_slide_exit_to_ReleaseCrouch LinearVaultTimeline ClearSurroundings
      StandingScene 1 SlidingWorld (by decide) (by decide) (Or.inl (by decide))
      (Or.inr (by decide))).1⟩

/-- C28 (the code at the failing input). A sliding character with crouch still
held, not wanting to sprint, with free headroom and the floor angle above the
continue threshold: the callback of the fallback timer, `ReleaseCrouch`, leaves
the character in Walk. -/
theorem C28_fallback_timer_ends_held_slide_in_walk :
    HeldSlideWorld.Character.MovementState = .State_Slide ∧
      HeldSlideWorld.Character.bHoldingCrouch = true ∧
      HeldSlideWorld.Character.bWantsToSprint = false ∧
      ACharacterCore.HasSpaceToStandUp ClearSurroundings = true ∧
      HeldSlideWorld.Character.FloorAngle > HeldSlideWorld.Character.SlideContinueAngle ∧
      HeldSlideWorld.Character.SlideStop
        = some { Callback := .ReleaseCrouch, Rate := 1, bLoop := false, FirstDelay := 1 } ∧
      (ACharacterCore.ReleaseCrouch ClearSurroundings HeldSlideWorld).Character.MovementState
        = .State_Walk := by
  decide

/-- C29 (as stated, refuted). A walking character who wants to aim and lands with
a slide asked for in the air: after one `Tick` the movement state is Slide and
`bIsAiming` is true. -/
theorem C29_counterexample :
    LandingWorld.Character.MovementState = .State_Walk ∧
      LandingWorld.Character.bWantsToAim = true ∧
      (ACharacterCore.Tick LinearVaultTimeline ClearSurroundings StandingScene 1
        LandingWorld).Character.MovementState = .State_Slide ∧
      (ACharacterCore.Tick LinearVaultTimeline ClearSurroundings StandingScene 1
        LandingWorld).Character.bIsAiming = true := by
  decide!

/-- C29 (amended). At the end of `Tick`, `bIsAiming` is: wants-to-aim, and the
movement state at the aiming check (after the vault timeline, the capsule and the
sprint-angle restriction; before the deferred slide and the traversal probe) is
neither Sprint nor Slide.  `Tick` does not write wants-to-aim. -/
theorem C29_aim_recomputed_before_slide_and_vault (tl : FVaultTimelineData)
    (env : FSurroundings) (scene : FScene) (DeltaTime : ℚ) (w : World) :
    (ACharacterCore.Tick tl env scene DeltaTime w).Character.bIsAiming =
        decide (w.Character.bWantsToAim = true
          ∧ (ACharacterCore.TickBeforeAim tl scene DeltaTime w).Character.MovementState
              ≠ .State_Sprint
          ∧ (ACharacterCore.TickBeforeAim tl scene DeltaTime w).Character.MovementState
              ≠ .State_Slide) ∧
      (ACharacterCore.Tick tl env scene DeltaTime w).Character.bWantsToAim
        = w.Character.bWantsToAim := by
  unfold ACharacterCore.Tick
  dsimp only
  rw [(CheckGroundAngle_aim scene _).1, (CheckGroundAngle_aim scene _).2,
    (CheckVault_aim scene _).1, (CheckVault_aim scene _).2,
    (TickSlide_aim env _).1, (TickSlide_aim env _).2, TickAim_Character,
    ← TickBeforeAim_bWantsToAim tl scene DeltaTime w]
  exact ⟨rfl, rfl⟩

/-! ## Reload-complete conserves rounds -/

/-- With a round in the clip the chamber bonus of `UpdateAmmo` is the chamber
allowance. -/
theorem UpdateAmmoValue_of_pos (wd : FStaticWeaponData) (w : World)
    (h : 0 < w.Weapon.GeneralWeaponData.ClipSize) :
    UpdateAmmoValue wd w = chamberAllowance wd := by
  unfold UpdateAmmoValue chamberAllowance
  by_cases hc : wd.bCanBeChambered = true <;> simp [hc, h]

/-- C30 (as stated, refuted). A chamberable weapon of clip capacity -1 with an empty
clip satisfies `0 ≤ ClipSize ≤ ClipCapacity + 1`; with a pool of 5, `UpdateAmmo`
sets the clip size to -1 and the pool to 6: the pool has grown. -/
theorem C30_counterexample :
    (0 ≤ (IdleWorld 0 (-1) 5).Weapon.GeneralWeaponData.ClipSize ∧
      (IdleWorld 0 (-1) 5).Weapon.GeneralWeaponData.ClipSize
        ≤ (IdleWorld 0 (-1) 5).Weapon.GeneralWeaponData.ClipCapacity
          + chamberAllowance ChamberableWeaponData) ∧
    TMapFind (IdleWorld 0 (-1) 5).AmmoMap 0 = some 5 ∧
    (AWeapon.UpdateAmmo ChamberableWeaponData (IdleWorld 0 (-1) 5)).map
        (fun w => (w.Weapon.GeneralWeaponData.ClipSize, TMapFind w.AmmoMap 0))
      = some (-1, some 6) := by
  decide

/-- C30 (amended). For a non-negative clip capacity, a non-negative pool and
`0 ≤ ClipSize ≤ ClipCapacity + c` (`c` = 1 for a chamberable weapon, else 0),
`UpdateAmmo` returns, leaves the sum of clip size and pool unchanged, and does
not increase the pool. -/
theorem C30_UpdateAmmo_conserves_rounds (wd : FStaticWeaponData) (w : World) (pool : Int)
    (hcap : 0 ≤ w.Weapon.GeneralWeaponData.ClipCapacity)
    (hfind : TMapFind w.AmmoMap w.Weapon.GeneralWeaponData.AmmoType = some pool)
    (hpool : 0 ≤ pool)
    (hclip : ClipWithinBounds wd w) :
    ∃ w' pool', AWeapon.UpdateAmmo wd w = some w' ∧
      TMapFind w'.AmmoMap w'.Weapon.GeneralWeaponData.AmmoType = some pool' ∧
      w'.Weapon.GeneralWeaponData.ClipSize + pool' = w.Weapon.GeneralWeaponData.ClipSize + pool ∧
      pool' ≤ pool := by
  obtain ⟨hlo, hhi⟩ := hclip
  obtain ⟨w', hw', _, hty, hs, hp⟩ := UpdateAmmo_of_find wd w pool hfind
  obtain ⟨hv0, hv1, hvz⟩ := UpdateAmmoValue_bounds wd w
  have hvp := UpdateAmmoValue_of_pos wd w
  refine ⟨w', _, hw', by rw [hty]; exact hp, ?_, ?_⟩
  · rw [hs]
    split_ifs with hge
    · omega
    · omega
  · split_ifs with hge
    · by_cases hz : 0 < w.Weapon.GeneralWeaponData.ClipSize
      · have := hvp hz
        omega
      · have := hvz (by omega)
        omega
    · exact hpool

/-- Witness for C30: a chamberable weapon with 10 of 30 rounds and a pool of 50. -/
theorem C30_witness :
    (0 ≤ (IdleWorld 10 30 50).Weapon.GeneralWeaponData.ClipCapacity ∧ 0 ≤ (50 : Int) ∧
      ClipWithinBounds ChamberableWeaponData (IdleWorld 10 30 50)) ∧
    ∃ w' pool', AWeapon.UpdateAmmo ChamberableWeaponData (IdleWorld 10 30 50) = some w' ∧
      TMapFind w'.AmmoMap w'.Weapon.GeneralWeaponData.AmmoType = some pool' ∧
      w'.Weapon.GeneralWeaponData.ClipSize + pool'
        = (IdleWorld 10 30 50).Weapon.GeneralWeaponData.ClipSize + 50 ∧
      pool' ≤ 50 :=
  ⟨⟨by decide, by decide, by decide⟩,
    C30_UpdateAmmo_conserves_rounds ChamberableWeaponData (IdleWorld 10 30 50) 50
      (by decide) (by decide) (by decide) (by decide)⟩

end FPSCore
